import Mathlib

/-!
# PrimusVK: a shallow embedding of `primus_vk.cpp`

The Vulkan layer keeps its state in global variables and talks to the driver
through Vulkan calls.  Here the globals become one record that is passed
explicitly, opaque Vulkan handles become natural numbers (`0` is
`VK_NULL_HANDLE`), and whatever the driver answers is an argument of the
function that embeds the entry point.
-/

namespace PrimusVK

/-! ## Vulkan constants and handles -/

/-- The C enum `VkResult`, by value. -/
abbrev VkResult := Int

def VK_SUCCESS : VkResult := 0
def VK_TIMEOUT : VkResult := 2
def VK_ERROR_INITIALIZATION_FAILED : VkResult := -3

/-- The null value of every Vulkan handle and of every pointer. -/
def VK_NULL_HANDLE : Nat := 0

/-- The C enum `VkPhysicalDeviceType`. -/
inductive VkPhysicalDeviceType where
  | VK_PHYSICAL_DEVICE_TYPE_OTHER
  | VK_PHYSICAL_DEVICE_TYPE_INTEGRATED_GPU
  | VK_PHYSICAL_DEVICE_TYPE_DISCRETE_GPU
  | VK_PHYSICAL_DEVICE_TYPE_VIRTUAL_GPU
  | VK_PHYSICAL_DEVICE_TYPE_CPU
  deriving DecidableEq, Repr

open VkPhysicalDeviceType

/-- One entry of the enumeration: the `VkPhysicalDevice` handle together with
the `deviceType` that `GetPhysicalDeviceProperties` reports for it. -/
structure PhysicalDevice where
  handle : Nat
  deviceType : VkPhysicalDeviceType
  deriving DecidableEq, Repr

/-- The `sType` values of the loader's create-info chain that the layer tests. -/
inductive VkStructureType where
  | VK_STRUCTURE_TYPE_LOADER_INSTANCE_CREATE_INFO
  | VK_STRUCTURE_TYPE_LOADER_DEVICE_CREATE_INFO
  | VK_STRUCTURE_TYPE_OTHER
  deriving DecidableEq, Repr

/-- The C enum `VkLayerFunction`. -/
inductive VkLayerFunction where
  | VK_LAYER_LINK_INFO
  | VK_LOADER_DATA_CALLBACK
  deriving DecidableEq, Repr

/-- One node of a `pNext` chain, as far as the layer reads it. -/
structure LayerCreateInfo where
  sType : VkStructureType
  function : VkLayerFunction
  deriving DecidableEq, Repr

/-! ## `std::map` with `operator[]` -/

/-- A `std::map<void *, V>` with handle values, as an association list. -/
abbrev HandleMap := List (Nat × Nat)

/-- Assignment `m[k] = v`: the entry for `k` is created or overwritten. -/
def HandleMap.set (m : HandleMap) (k v : Nat) : HandleMap :=
  (k, v) :: m.filter (fun e => e.1 != k)

/-- Lookup of the entry stored for `k`, if there is one. -/
def HandleMap.find (m : HandleMap) (k : Nat) : Option Nat :=
  m.lookup k

/-! ## The loader's create-info chain -/

/-- The `while` loop that walks the `pNext` chain to the loader's link info;
`none` is `layerCreateInfo == NULL`. -/
def findLinkInfo (want : VkStructureType) : List LayerCreateInfo → Option LayerCreateInfo
  | [] => none
  | c :: rest =>
    if c.sType ≠ want ∨ c.function ≠ VkLayerFunction.VK_LAYER_LINK_INFO then
      findLinkInfo want rest
    else some c

/-! ## Vulkan structures, as far as the layer reads or writes them -/

def VK_MEMORY_PROPERTY_DEVICE_LOCAL_BIT : Nat := 1
def VK_MEMORY_PROPERTY_HOST_VISIBLE_BIT : Nat := 2
def VK_MEMORY_PROPERTY_HOST_COHERENT_BIT : Nat := 4

def VK_IMAGE_TILING_OPTIMAL : Nat := 0
def VK_IMAGE_TILING_LINEAR : Nat := 1

def VK_IMAGE_USAGE_TRANSFER_SRC_BIT : Nat := 1
def VK_IMAGE_USAGE_TRANSFER_DST_BIT : Nat := 2
def VK_IMAGE_USAGE_COLOR_ATTACHMENT_BIT : Nat := 16

def VK_ACCESS_TRANSFER_READ_BIT : Nat := 2048
def VK_ACCESS_TRANSFER_WRITE_BIT : Nat := 4096
def VK_ACCESS_MEMORY_READ_BIT : Nat := 32768
def VK_ACCESS_MEMORY_WRITE_BIT : Nat := 65536

def VK_PIPELINE_STAGE_TRANSFER_BIT : Nat := 4096
def VK_PIPELINE_STAGE_ALL_COMMANDS_BIT : Nat := 65536

def VK_IMAGE_ASPECT_COLOR_BIT : Nat := 1
def VK_FORMAT_B8G8R8A8_UNORM : Nat := 44
def VK_SAMPLE_COUNT_1_BIT : Nat := 1

/-- The fence timeout of `Fence::await`, in nanoseconds. -/
def FENCE_TIMEOUT : Nat := 10000000000

/-- The C enum `VkImageLayout`, the values the layer uses. -/
inductive VkImageLayout where
  | VK_IMAGE_LAYOUT_UNDEFINED
  | VK_IMAGE_LAYOUT_GENERAL
  | VK_IMAGE_LAYOUT_TRANSFER_SRC_OPTIMAL
  | VK_IMAGE_LAYOUT_TRANSFER_DST_OPTIMAL
  | VK_IMAGE_LAYOUT_PRESENT_SRC_KHR
  deriving DecidableEq, Repr

open VkImageLayout

/-- The struct `VkExtent2D`; both fields are `uint32_t`. -/
structure VkExtent2D where
  width : Nat
  height : Nat
  deriving DecidableEq, Repr

/-- The fields of `VkImageCreateInfo` that `FramebufferImage` fills in. -/
structure VkImageCreateInfo where
  format : Nat
  width : Nat
  height : Nat
  depth : Nat
  arrayLayers : Nat
  mipLevels : Nat
  initialLayout : VkImageLayout
  samples : Nat
  tiling : Nat
  usage : Nat
  deriving DecidableEq, Repr

/-- The struct `VkSwapchainCreateInfoKHR`: the fields the layer touches, and
`surface` and `imageFormat` standing for those it copies unread. -/
structure VkSwapchainCreateInfoKHR where
  surface : Nat
  minImageCount : Nat
  imageFormat : Nat
  imageExtent : VkExtent2D
  queueFamilyIndexCount : Nat
  oldSwapchain : Nat
  deriving DecidableEq, Repr

/-- The struct `VkSubmitInfo`; `waitDstStageMask` is `none` for a null pointer. -/
structure VkSubmitInfo where
  waitSemaphores : List Nat
  waitDstStageMask : Option Nat
  commandBuffers : List Nat
  signalSemaphores : List Nat
  deriving DecidableEq, Repr

/-- The struct `VkPresentInfoKHR`: the three arrays it points to.  The array
`pImageIndices` is shared by the caller's structure and the copy that the
layer passes down. -/
structure VkPresentInfoKHR where
  waitSemaphores : List Nat
  swapchains : List Nat
  imageIndices : List Nat
  deriving DecidableEq, Repr

/-- The struct `VkImageMemoryBarrier` together with the two stage masks of the
`vkCmdPipelineBarrier` call that carries it. -/
structure ImageBarrier where
  image : Nat
  srcAccessMask : Nat
  dstAccessMask : Nat
  oldLayout : VkImageLayout
  newLayout : VkImageLayout
  srcStageMask : Nat
  dstStageMask : Nat
  aspectMask : Nat
  levelCount : Nat
  layerCount : Nat
  deriving DecidableEq, Repr

/-- The arguments of `vkCmdCopyImage` with its single `VkImageCopy` region. -/
structure ImageCopy where
  src : Nat
  srcLayout : VkImageLayout
  dst : Nat
  dstLayout : VkImageLayout
  aspectMask : Nat
  layerCount : Nat
  width : Nat
  height : Nat
  depth : Nat
  deriving DecidableEq, Repr

/-- The struct `VkPhysicalDeviceMemoryProperties`: `memoryTypes[j].propertyFlags`
for the slots of the fixed-size array, and `memoryTypeCount`. -/
structure VkPhysicalDeviceMemoryProperties where
  memoryTypeCount : Nat
  memoryTypes : List Nat
  deriving DecidableEq, Repr

/-! ## The world outside the layer -/

/-- What the layer writes to `stdout` or `stderr` on an error path. -/
inductive Message where
  | vkError (code : VkResult)
  | refusingSecondJoin
  | noThreadToJoin
  | errorCreatingThread
  | errorJoiningThread (code : Int)
  deriving DecidableEq, Repr

/-- Reasons why a call does not return: the C++ code dereferences a null
pointer, indexes a vector out of range, calls through a null function pointer
or throws. -/
inductive Fault where
  | nullPointer
  | outOfRange
  | nullFunction
  | notMapped
  | assertion
  deriving DecidableEq, Repr

/-- The calls that leave the layer, in the order in which they are made. -/
inductive Event where
  | print (m : Message)
  | vkCreateImage (device : Nat) (info : VkImageCreateInfo) (img : Nat)
  | vkGetImageMemoryRequirements (device img : Nat)
  | vkAllocateMemory (device memoryTypeIndex mem : Nat)
  | vkBindImageMemory (device img mem : Nat)
  | vkMapMemory (device mem data : Nat)
  | vkGetImageSubresourceLayout (device img : Nat)
  | vkGetDeviceQueue (device family index queue : Nat)
  | vkCreateCommandPool (device pool : Nat)
  | vkAllocateCommandBuffers (device pool cmd : Nat)
  | vkBeginCommandBuffer (cmd : Nat)
  | vkCmdPipelineBarrier (cmd : Nat) (b : ImageBarrier)
  | vkCmdCopyImage (cmd : Nat) (c : ImageCopy)
  | vkEndCommandBuffer (cmd : Nat)
  | vkFreeCommandBuffers (device pool cmd : Nat)
  | vkQueueSubmit (queue : Nat) (info : VkSubmitInfo) (fence : Nat)
  | vkCreateFence (device fence : Nat)
  | vkWaitForFences (device fence timeout : Nat)
  | vkDestroyFence (device fence : Nat)
  | memcpy (dst src bytes : Nat)
  | vkCreateDevice (physicalDevice device : Nat)
  | CreateSwapchainKHR (device : Nat) (info : VkSwapchainCreateInfoKHR) (backend : Nat)
  | GetSwapchainImagesKHR (device backend : Nat)
  | pthread_create (thread : Nat)
  | pthread_join (thread : Nat)
  | AcquireNextImageKHR (device swapchain timeout semaphore fence : Nat) (result : VkResult)
  | QueuePresentKHR (queue : Nat) (info : VkPresentInfoKHR) (result : VkResult)
  deriving DecidableEq, Repr

/-- The driver and the C runtime as the layer sees them: a supply of fresh
handles, the result codes that the coming calls whose result the layer reads
will return (`VK_SUCCESS` once the list is used up), and the log of the calls
made so far. -/
structure World where
  nextHandle : Nat
  answers : List VkResult
  trace : List Event
  deriving DecidableEq, Repr

/-- Append one call to the log. -/
def World.emit (w : World) (e : Event) : World :=
  { w with trace := w.trace ++ [e] }

/-- A handle that no earlier call returned; it is never null. -/
def World.fresh (w : World) : Nat × World :=
  (w.nextHandle + 1, { w with nextHandle := w.nextHandle + 1 })

/-- The result code of the call being made. -/
def World.answer (w : World) : VkResult × World :=
  match w.answers with
  | [] => (VK_SUCCESS, w)
  | r :: rest => (r, { w with answers := rest })

/-- The macro `VK_CHECK_RESULT(x)`: `x` is evaluated in the condition and, when
that result is not `VK_SUCCESS`, a second time as the argument of `printf`; the
out-parameter keeps what the last evaluation wrote. -/
def VK_CHECK_RESULT {α : Type} (x : World → (VkResult × α) × World) (w : World) :
    α × World :=
  let r1 := x w
  if r1.1.1 ≠ VK_SUCCESS then
    let r2 := x r1.2
    (r2.1.2, r2.2.emit (Event.print (Message.vkError r2.1.1)))
  else (r1.1.2, r1.2)

/-! ## Scoped resource wrappers -/

/-- The struct `MappedMemory`. -/
structure MappedMemory where
  device : Nat
  mem : Nat
  data : Nat
  deriving DecidableEq, Repr

/-- The struct `FramebufferImage`; `mapped` is the `shared_ptr`, `none` when it
is empty. -/
structure FramebufferImage where
  img : Nat
  mem : Nat
  device : Nat
  mapped : Option MappedMemory
  deriving DecidableEq, Repr

/-- The class `CommandBuffer`. -/
structure CommandBuffer where
  commandPool : Nat
  device : Nat
  cmd : Nat
  deriving DecidableEq, Repr

/-- The class `Fence`. -/
structure Fence where
  device : Nat
  fence : Nat
  deriving DecidableEq, Repr

/-- The call `vkCreateImage(device, &ci, nullptr, pImage)`: as with every
create call below, the driver writes the new handle only when it succeeds;
`pImage` is what `*pImage` held before, and the value returned holds what it
holds afterwards. -/
def vkCreateImage (device : Nat) (ci : VkImageCreateInfo) (pImage : Nat) (w : World) :
    (VkResult × Nat) × World :=
  let h := w.fresh
  let r := h.2.answer
  let img := if r.1 = VK_SUCCESS then h.1 else pImage
  ((r.1, img), r.2.emit (Event.vkCreateImage device ci img))

def vkAllocateMemory (device memoryTypeIndex : Nat) (pMemory : Nat) (w : World) :
    (VkResult × Nat) × World :=
  let h := w.fresh
  let r := h.2.answer
  let mem := if r.1 = VK_SUCCESS then h.1 else pMemory
  ((r.1, mem), r.2.emit (Event.vkAllocateMemory device memoryTypeIndex mem))

def vkBindImageMemory (device img mem : Nat) (w : World) : (VkResult × Unit) × World :=
  let r := w.answer
  ((r.1, ()), r.2.emit (Event.vkBindImageMemory device img mem))

def vkCreateCommandPool (device : Nat) (pCommandPool : Nat) (w : World) :
    (VkResult × Nat) × World :=
  let h := w.fresh
  let r := h.2.answer
  let pool := if r.1 = VK_SUCCESS then h.1 else pCommandPool
  ((r.1, pool), r.2.emit (Event.vkCreateCommandPool device pool))

def vkAllocateCommandBuffers (device pool : Nat) (pCommandBuffers : Nat) (w : World) :
    (VkResult × Nat) × World :=
  let h := w.fresh
  let r := h.2.answer
  let cmd := if r.1 = VK_SUCCESS then h.1 else pCommandBuffers
  ((r.1, cmd), r.2.emit (Event.vkAllocateCommandBuffers device pool cmd))

def vkBeginCommandBuffer (cmd : Nat) (w : World) : (VkResult × Unit) × World :=
  let r := w.answer
  ((r.1, ()), r.2.emit (Event.vkBeginCommandBuffer cmd))

def vkEndCommandBuffer (cmd : Nat) (w : World) : (VkResult × Unit) × World :=
  let r := w.answer
  ((r.1, ()), r.2.emit (Event.vkEndCommandBuffer cmd))

def vkQueueSubmit (queue : Nat) (info : VkSubmitInfo) (fence : Nat) (w : World) :
    (VkResult × Unit) × World :=
  let r := w.answer
  ((r.1, ()), r.2.emit (Event.vkQueueSubmit queue info fence))

/-- The call `vkCreateFence(device, &fenceInfo, nullptr, pFence)`: the driver
writes the new handle only when it succeeds; `pFence` is what `*pFence` held
before, and the value returned holds what it holds afterwards. -/
def vkCreateFence (device : Nat) (pFence : Nat) (w : World) : (VkResult × Nat) × World :=
  let h := w.fresh
  let r := h.2.answer
  let fence := if r.1 = VK_SUCCESS then h.1 else pFence
  ((r.1, fence), r.2.emit (Event.vkCreateFence device fence))

def vkWaitForFences (device fence timeout : Nat) (w : World) : (VkResult × Unit) × World :=
  let r := w.answer
  ((r.1, ()), r.2.emit (Event.vkWaitForFences device fence timeout))

/-- The conversion of the `int memoryTypeIndex` parameter to the `uint32_t`
field of `VkMemoryAllocateInfo`. -/
def toUint32 (i : Int) : Nat := (i % 4294967296).toNat

/-- The constructor of `FramebufferImage`.  The members `img` and `mem` have no
initialiser, so each keeps an indeterminate value when no evaluation of its
create call succeeds; that value is read as `VK_NULL_HANDLE` here. -/
def FramebufferImage.new (device : Nat) (size : VkExtent2D) (tiling usage : Nat)
    (memoryTypeIndex : Int) (w : World) : FramebufferImage × World :=
  let imageCreateCI : VkImageCreateInfo :=
    { format := VK_FORMAT_B8G8R8A8_UNORM
      width := size.width
      height := size.height
      depth := 1
      arrayLayers := 1
      mipLevels := 1
      initialLayout := VK_IMAGE_LAYOUT_UNDEFINED
      samples := VK_SAMPLE_COUNT_1_BIT
      tiling := tiling
      usage := usage }
  let i := VK_CHECK_RESULT (vkCreateImage device imageCreateCI VK_NULL_HANDLE) w
  let w1 := i.2.emit (Event.vkGetImageMemoryRequirements device i.1)
  let m := VK_CHECK_RESULT (vkAllocateMemory device (toUint32 memoryTypeIndex) VK_NULL_HANDLE) w1
  let b := VK_CHECK_RESULT (vkBindImageMemory device i.1 m.1) m.2
  ({ img := i.1, mem := m.1, device := device, mapped := none }, b.2)

/-- The constructor of `MappedMemory`: `vkMapMemory` of the whole allocation. -/
def MappedMemory.new (device : Nat) (img : FramebufferImage) (w : World) :
    MappedMemory × World :=
  let h := w.fresh
  ({ device := device, mem := img.mem, data := h.1 },
    h.2.emit (Event.vkMapMemory device img.mem h.1))

/-- The method `FramebufferImage::map`. -/
def FramebufferImage.map (img : FramebufferImage) (w : World) : FramebufferImage × World :=
  let m := MappedMemory.new img.device img w
  ({ img with mapped := some m.1 }, m.2)

/-- The method `FramebufferImage::getMapped`, which throws when nothing is
mapped. -/
def FramebufferImage.getMapped (img : FramebufferImage) : Except Fault MappedMemory :=
  match img.mapped with
  | none => Except.error Fault.notMapped
  | some m => Except.ok m

/-- The constructor of `CommandBuffer`: pool, buffer, and recording begun.  The
members `commandPool` and `cmd` have no initialiser; a value that no create
call wrote is read as `VK_NULL_HANDLE` here. -/
def CommandBuffer.new (device : Nat) (w : World) : CommandBuffer × World :=
  let p := VK_CHECK_RESULT (vkCreateCommandPool device VK_NULL_HANDLE) w
  let c := VK_CHECK_RESULT (vkAllocateCommandBuffers device p.1 VK_NULL_HANDLE) p.2
  let b := VK_CHECK_RESULT (vkBeginCommandBuffer c.1) c.2
  ({ commandPool := p.1, device := device, cmd := c.1 }, b.2)

/-- The destructor of `CommandBuffer`. -/
def CommandBuffer.drop (c : CommandBuffer) (w : World) : World :=
  w.emit (Event.vkFreeCommandBuffers c.device c.commandPool c.cmd)

/-- The method `CommandBuffer::insertImageMemoryBarrier`; every caller passes
the subresource range `{VK_IMAGE_ASPECT_COLOR_BIT, 0, 1, 0, 1}`. -/
def CommandBuffer.insertImageMemoryBarrier (c : CommandBuffer) (image : Nat)
    (srcAccessMask dstAccessMask : Nat) (oldImageLayout newImageLayout : VkImageLayout)
    (srcStageMask dstStageMask : Nat) (w : World) : World :=
  w.emit (Event.vkCmdPipelineBarrier c.cmd
    { image := image
      srcAccessMask := srcAccessMask
      dstAccessMask := dstAccessMask
      oldLayout := oldImageLayout
      newLayout := newImageLayout
      srcStageMask := srcStageMask
      dstStageMask := dstStageMask
      aspectMask := VK_IMAGE_ASPECT_COLOR_BIT
      levelCount := 1
      layerCount := 1 })

/-- The method `CommandBuffer::copyImage`. -/
def CommandBuffer.copyImage (c : CommandBuffer) (src dst : Nat) (imgSize : VkExtent2D)
    (w : World) : World :=
  w.emit (Event.vkCmdCopyImage c.cmd
    { src := src
      srcLayout := VK_IMAGE_LAYOUT_TRANSFER_SRC_OPTIMAL
      dst := dst
      dstLayout := VK_IMAGE_LAYOUT_TRANSFER_DST_OPTIMAL
      aspectMask := VK_IMAGE_ASPECT_COLOR_BIT
      layerCount := 1
      width := imgSize.width
      height := imgSize.height
      depth := 1 })

/-- The method `CommandBuffer::end`. -/
def CommandBuffer.end_ (c : CommandBuffer) (w : World) : World :=
  (VK_CHECK_RESULT (vkEndCommandBuffer c.cmd) w).2

/-- The method `CommandBuffer::submit`. -/
def CommandBuffer.submit (c : CommandBuffer) (queue fence : Nat) (w : World) : World :=
  let submitInfo : VkSubmitInfo :=
    { waitSemaphores := []
      waitDstStageMask := none
      commandBuffers := [c.cmd]
      signalSemaphores := [] }
  (VK_CHECK_RESULT (vkQueueSubmit queue submitInfo fence) w).2

/-- The constructor of `Fence`.  The member `fence` has no initialiser, so it
keeps an indeterminate value when no evaluation of `vkCreateFence` succeeds;
that value is read as `VK_NULL_HANDLE` here. -/
def Fence.new (dev : Nat) (w : World) : Fence × World :=
  let f := VK_CHECK_RESULT (vkCreateFence dev VK_NULL_HANDLE) w
  ({ device := dev, fence := f.1 }, f.2)

/-- The method `Fence::await`: the result of the wait only reaches `printf`. -/
def Fence.await (f : Fence) (w : World) : World :=
  (VK_CHECK_RESULT (vkWaitForFences f.device f.fence FENCE_TIMEOUT) w).2

/-- The destructor of `Fence`. -/
def Fence.drop (f : Fence) (w : World) : World :=
  w.emit (Event.vkDestroyFence f.device f.fence)

/-! ## Global state -/

/-- The struct `MySwapchain`.  A `shared_ptr` that is empty is `none`. -/
structure MySwapchain where
  device : Nat
  render_queue : Nat
  display_device : Nat
  display_queue : Nat
  backend : Nat
  render_images : List (Option FramebufferImage)
  render_copy_images : List (Option FramebufferImage)
  display_src_images : List (Option FramebufferImage)
  display_images : List Nat
  imgSize : VkExtent2D
  display_commands : List (Option CommandBuffer)
  deriving DecidableEq, Repr

/-- The class `CreateOtherDevice`.  The members that the constructor leaves
uninitialised start as null handles and empty tables. -/
structure CreateOtherDevice where
  display_dev : Nat
  render_dev : Nat
  display_mem : VkPhysicalDeviceMemoryProperties
  render_mem : VkPhysicalDeviceMemoryProperties
  render_gpu : Nat
  display_gpu : Nat
  thread : Nat
  joined : Bool
  deriving DecidableEq, Repr

/-- The global variables of the layer, the function-local `static bool first`
of `PrimusVK_CreateDevice`, the object `cod` points to (`none` for `nullptr`),
and the `MySwapchain` objects on the heap, by address.  Of a dispatch map only
the set of keys that have a table is kept. -/
structure Globals where
  instance_dispatch : List Nat
  device_dispatch : List Nat
  render_to_display : HandleMap
  the_instance : Nat
  list_all_gpus : Bool
  first : Bool
  cod : Option CreateOtherDevice
  swapchains : List (Nat × MySwapchain)
  deriving DecidableEq, Repr

/-- The state in which the layer is loaded. -/
def Globals.init : Globals :=
  { instance_dispatch := []
    device_dispatch := []
    render_to_display := []
    the_instance := VK_NULL_HANDLE
    list_all_gpus := false
    first := true
    cod := none
    swapchains := [] }

/-- What the loader and the driver below the layer hold: the dispatch key
stored at the start of every dispatchable object, the adapters the next layer
enumerates, their memory tables and queue-family counts, the create-info
chain the loader hands to the layers when `vkCreateDevice` is called, and the
queue `vkGetDeviceQueue(device, 0, 0, ..)` returns for a device. -/
structure Env where
  key : Nat → Nat
  physicalDevices : List PhysicalDevice
  memoryProperties : Nat → VkPhysicalDeviceMemoryProperties
  queueFamilyCount : Nat → Nat
  deviceChain : List LayerCreateInfo
  deviceQueue : Nat → Nat

/-- The template `GetKey`: `*(void **)inst`, which dereferences the handle. -/
def GetKey (env : Env) (inst : Nat) : Except Fault Nat :=
  if inst = VK_NULL_HANDLE then Except.error Fault.nullPointer else Except.ok (env.key inst)

/-- The expression `m[k]` read as a value: a missing entry is created with a
null value. -/
def HandleMap.index (m : HandleMap) (k : Nat) : Nat × HandleMap :=
  match m.find k with
  | some v => (v, m)
  | none => (VK_NULL_HANDLE, m.set k VK_NULL_HANDLE)

/-- A call through `dispatch[key].f`: with no table stored for `key` the
function pointer is null. -/
def viaDispatch (tables : List Nat) (key : Nat) : Except Fault Unit :=
  if key ∈ tables then Except.ok () else Except.error Fault.nullFunction

/-! ## Instance creation and topology resolution -/

/-- The two locals `display` and `render` of `PrimusVK_CreateInstance`. -/
structure Selection where
  display : Nat
  render : Nat
  deriving DecidableEq, Repr

/-- The two `if`s in the body of the loop `for(auto &dev: physicalDevices)`:
they are independent, and each overwrites its local. -/
def selectUpdate (s : Selection) (dev : PhysicalDevice) : Selection :=
  let s1 : Selection :=
    if dev.deviceType = VK_PHYSICAL_DEVICE_TYPE_INTEGRATED_GPU then
      { s with display := dev.handle } else s
  if dev.deviceType = VK_PHYSICAL_DEVICE_TYPE_DISCRETE_GPU then
    { s1 with render := dev.handle } else s1

/-- The body of the loop: the `TRACE` at its top reads `GetKey(dev)`, then the
two `if`s run. -/
def selectStep (env : Env) (s : Selection) (dev : PhysicalDevice) : Except Fault Selection := do
  let _ ← GetKey env dev.handle
  Except.ok (selectUpdate s dev)

/-- Lines 100-116: both locals start as `VK_NULL_HANDLE`, then the loop runs
over the whole enumeration. -/
def selectDevices (env : Env) (physicalDevices : List PhysicalDevice) :
    Except Fault Selection :=
  physicalDevices.foldlM (selectStep env) ⟨VK_NULL_HANDLE, VK_NULL_HANDLE⟩

/-- The function `PrimusVK_CreateInstance`.  `instance_` is the handle that the
next layer's `vkCreateInstance` wrote to `*pInstance`. -/
def PrimusVK_CreateInstance (env : Env) (chain : List LayerCreateInfo) (instance_ : Nat)
    (g : Globals) : Except Fault (VkResult × Globals) :=
  match findLinkInfo VkStructureType.VK_STRUCTURE_TYPE_LOADER_INSTANCE_CREATE_INFO chain with
  | none => Except.ok (VK_ERROR_INITIALIZATION_FAILED, g)
  | some _ => do
    let sel ← selectDevices env env.physicalDevices
    if sel.display = VK_NULL_HANDLE ∨ sel.render = VK_NULL_HANDLE then
      Except.ok (VK_ERROR_INITIALIZATION_FAILED, g)
    else
      let k ← GetKey env sel.render
      let g1 := { g with render_to_display := g.render_to_display.set k sel.display }
      let _ ← GetKey env sel.display
      let g2 := { g1 with the_instance := instance_ }
      let ki ← GetKey env instance_
      Except.ok (VK_SUCCESS, { g2 with instance_dispatch := ki :: g2.instance_dispatch })

/-- The function `PrimusVK_EnumeratePhysicalDevices`.  `pPhysicalDevices` is
the caller's array, `none` for `nullptr`; the value returned holds the result,
`*pPhysicalDeviceCount` and the array after the call. -/
def PrimusVK_EnumeratePhysicalDevices (env : Env) (g : Globals) (instance_ : Nat)
    (pPhysicalDevices : Option (List Nat)) (w : World) :
    Except Fault ((VkResult × Nat × Option (List Nat)) × World) :=
  let cnt := if g.list_all_gpus then 2 else 1
  match pPhysicalDevices with
  | none => Except.ok ((VK_SUCCESS, cnt, none), w)
  | some buf => do
    let k ← GetKey env instance_
    viaDispatch g.instance_dispatch k
    let r1 := w.answer
    let n := env.physicalDevices.length
    if r1.1 ≠ VK_SUCCESS then Except.ok ((r1.1, n, some buf), r1.2) else
    let vec := env.physicalDevices.map (fun d => d.handle)
    let r2 := r1.2.answer
    if r2.1 ≠ VK_SUCCESS then Except.ok ((r2.1, n, some buf), r2.2) else
    match vec[0]? with
    | none => Except.error Fault.outOfRange
    | some v0 =>
      if buf.length = 0 then Except.error Fault.outOfRange else
      let buf1 := buf.set 0 v0
      if cnt ≥ 2 then
        match vec[1]? with
        | none => Except.error Fault.outOfRange
        | some v1 =>
          if buf.length ≤ 1 then Except.error Fault.outOfRange
          else Except.ok ((r2.1, cnt, some (buf1.set 1 v1)), r2.2)
      else Except.ok ((r2.1, cnt, some buf1), r2.2)

/-- The method `CreateOtherDevice::start`. -/
def CreateOtherDevice.start (c : CreateOtherDevice) (w : World) : CreateOtherDevice × World :=
  let h := w.fresh
  let r := h.2.answer
  let w1 := r.2.emit (Event.pthread_create h.1)
  if r.1 ≠ 0 then (c, w1.emit (Event.print Message.errorCreatingThread))
  else ({ c with thread := h.1 }, w1)

/-- The function `PrimusVK_CreateDevice`.  `pDevice` is the value of `*pDevice`
on entry; the next layer's `vkCreateDevice` overwrites it when it succeeds. -/
def PrimusVK_CreateDevice (env : Env) (physicalDevice : Nat) (chain : List LayerCreateInfo)
    (pDevice : Nat) (g : Globals) (w : World) :
    Except Fault ((VkResult × Nat) × Globals × World) :=
  match findLinkInfo VkStructureType.VK_STRUCTURE_TYPE_LOADER_DEVICE_CREATE_INFO chain with
  | none => Except.ok ((VK_ERROR_INITIALIZATION_FAILED, pDevice), g, w)
  | some _ => do
    let h := w.fresh
    let r := h.2.answer
    let dev := if r.1 = VK_SUCCESS then h.1 else pDevice
    let w1 := r.2.emit (Event.vkCreateDevice physicalDevice dev)
    let gw ←
      if g.first then do
        let k ← GetKey env physicalDevice
        let d := g.render_to_display.index k
        let c : CreateOtherDevice :=
          { display_dev := d.1
            render_dev := physicalDevice
            display_mem := ⟨0, []⟩
            render_mem := ⟨0, []⟩
            render_gpu := dev
            display_gpu := VK_NULL_HANDLE
            thread := 0
            joined := false }
        let s := c.start w1
        Except.ok ({ g with render_to_display := d.2, cod := some s.1, first := false }, s.2)
      else Except.ok (g, w1)
    let kd ← GetKey env dev
    Except.ok ((VK_SUCCESS, dev),
      { gw.1 with device_dispatch := kd :: gw.1.device_dispatch }, gw.2)

/-! ## Secondary context initializer

The embedding is sequential.  The body of the background thread, `run`, is
executed at the point where `pthread_join` returns successfully, which is the
latest point at which the thread can have finished. -/

/-- The method `CreateOtherDevice::run`, the body of the thread.  The calls
`vkEnumeratePhysicalDevices` and `vkCreateDevice` enter the layer again through
the loader.  The result holds the object itself and the globals. -/
def CreateOtherDevice.run (env : Env) (c : CreateOtherDevice) (g : Globals) (w : World) :
    Except Fault (CreateOtherDevice × Globals × World) := do
  let pDeviceLogic := VK_NULL_HANDLE
  let _ ← GetKey env c.display_dev
  let g1 := { g with list_all_gpus := true }
  let e1 ← PrimusVK_EnumeratePhysicalDevices env g1 g1.the_instance none w
  let gpuCount := e1.1.2.1
  let e2 ← PrimusVK_EnumeratePhysicalDevices env g1 g1.the_instance
    (some (List.replicate gpuCount VK_NULL_HANDLE)) e1.2
  let physicalDevices := e2.1.2.2.getD []
  let g2 := { g1 with list_all_gpus := false }
  match physicalDevices[1]?, physicalDevices[0]? with
  | some d1, some d0 =>
    let c1 := { c with display_dev := d1 }
    let c2 := { c1 with display_mem := env.memoryProperties d1 }
    let c3 := { c2 with render_mem := env.memoryProperties d0 }
    if env.queueFamilyCount d1 = 0 then Except.error Fault.assertion else
    let r ← PrimusVK_CreateDevice env d1 env.deviceChain pDeviceLogic g2 e2.2
    let _ ← GetKey env r.1.2
    let _ ← GetKey env c3.render_gpu
    Except.ok ({ c3 with display_gpu := r.1.2 }, r.2.1, r.2.2)
  | _, _ => Except.error Fault.outOfRange

/-- The method `CreateOtherDevice::join`. -/
def CreateOtherDevice.join (env : Env) (c : CreateOtherDevice) (g : Globals) (w : World) :
    Except Fault (CreateOtherDevice × Globals × World) :=
  if c.joined then
    Except.ok (c, g, w.emit (Event.print Message.refusingSecondJoin))
  else
    let r := w.answer
    if r.1 ≠ 0 then
      let w1 := r.2.emit (Event.pthread_join c.thread)
      Except.ok ({ c with joined := true }, g,
        w1.emit (Event.print (Message.errorJoiningThread r.1)))
    else do
      let t ← c.run env g r.2
      Except.ok ({ t.1 with joined := true }, t.2.1, t.2.2.emit (Event.pthread_join c.thread))

/-- Store the object `this` back after a method ran on `cod`: `cod` still
points to it unless `PrimusVK_CreateDevice` assigned `cod` meanwhile, which it
does exactly when it clears `first`. -/
def Globals.writeBack (before after : Globals) (this : CreateOtherDevice) : Globals :=
  if before.first ∧ ¬ after.first then after else { after with cod := some this }

/-! ## Shadow swapchain: creation -/

/-- The read `mem.memoryTypes[j].propertyFlags`. -/
def flagsAt (mem : VkPhysicalDeviceMemoryProperties) (j : Nat) : Except Fault Nat :=
  match mem.memoryTypes[j]? with
  | some f => Except.ok f
  | none => Except.error Fault.outOfRange

/-- The condition `sel == -1 && (mem.memoryTypes[j].propertyFlags & req) == req`;
the table is read only when the left operand holds. -/
def scanTest (sel : Int) (mem : VkPhysicalDeviceMemoryProperties) (j req : Nat) :
    Except Fault Bool :=
  if sel = -1 then do
    let f ← flagsAt mem j
    Except.ok (decide (f &&& req = req))
  else Except.ok false

def host_mem : Nat :=
  VK_MEMORY_PROPERTY_HOST_VISIBLE_BIT ||| VK_MEMORY_PROPERTY_HOST_COHERENT_BIT

def local_mem : Nat := VK_MEMORY_PROPERTY_DEVICE_LOCAL_BIT

/-- The body of the loop over `cod->render_mem`; the state is
`(render_host_mem, render_local_mem)`. -/
def renderScanStep (mem : VkPhysicalDeviceMemoryProperties) (s : Int × Int) (j : Nat) :
    Except Fault (Int × Int) := do
  let t1 ← scanTest s.1 mem j host_mem
  let s1 : Int × Int := if t1 then ((j : Int), s.2) else s
  let t2 ← scanTest s1.2 mem j local_mem
  Except.ok (if t2 then (s1.1, (j : Int)) else s1)

/-- The loop `for(size_t j=0; j < cod->render_mem.memoryTypeCount; j++)`. -/
def renderScan (mem : VkPhysicalDeviceMemoryProperties) : Except Fault (Int × Int) :=
  (List.range mem.memoryTypeCount).foldlM (renderScanStep mem) (-1, -1)

/-- The body of the loop over `cod->display_mem`; the state is
`display_host_mem`. -/
def displayScanStep (mem : VkPhysicalDeviceMemoryProperties) (s : Int) (j : Nat) :
    Except Fault Int := do
  let t ← scanTest s mem j host_mem
  Except.ok (if t then (j : Int) else s)

/-- The loop `for(size_t j=0; j < cod->display_mem.memoryTypeCount; j++)`. -/
def displayScan (mem : VkPhysicalDeviceMemoryProperties) : Except Fault Int :=
  (List.range mem.memoryTypeCount).foldlM (displayScanStep mem) (-1)

/-- The call `vkGetDeviceQueue(device, 0, 0, &queue)`. -/
def vkGetDeviceQueue (env : Env) (device : Nat) (w : World) : Nat × World :=
  (env.deviceQueue device, w.emit (Event.vkGetDeviceQueue device 0 0 (env.deviceQueue device)))

/-- The body of the loop `for( auto &renderImage: ch->render_images)` for the
slot `i`, with the destructors of `f` and `cmd` at the end of the block. -/
def createSlot (render_gpu display_gpu : Nat) (imageExtent : VkExtent2D)
    (render_local_mem render_host_mem display_host_mem : Int)
    (s : MySwapchain × World) (i : Nat) : MySwapchain × World :=
  let ch := s.1
  let renderImage := FramebufferImage.new render_gpu imageExtent VK_IMAGE_TILING_OPTIMAL
    (VK_IMAGE_USAGE_COLOR_ATTACHMENT_BIT ||| VK_IMAGE_USAGE_TRANSFER_SRC_BIT)
    render_local_mem s.2
  let renderCopyImage := FramebufferImage.new render_gpu imageExtent VK_IMAGE_TILING_LINEAR
    VK_IMAGE_USAGE_TRANSFER_DST_BIT render_host_mem renderImage.2
  let displaySrcImage := FramebufferImage.new display_gpu imageExtent VK_IMAGE_TILING_LINEAR
    (VK_IMAGE_USAGE_COLOR_ATTACHMENT_BIT ||| VK_IMAGE_USAGE_TRANSFER_SRC_BIT)
    display_host_mem renderCopyImage.2
  let renderCopyMapped := renderCopyImage.1.map displaySrcImage.2
  let displaySrcMapped := displaySrcImage.1.map renderCopyMapped.2
  let cmd := CommandBuffer.new ch.display_device displaySrcMapped.2
  let w1 := cmd.1.insertImageMemoryBarrier displaySrcMapped.1.img
    0 VK_ACCESS_MEMORY_WRITE_BIT
    VK_IMAGE_LAYOUT_UNDEFINED VK_IMAGE_LAYOUT_GENERAL
    VK_PIPELINE_STAGE_TRANSFER_BIT VK_PIPELINE_STAGE_TRANSFER_BIT cmd.2
  let w2 := cmd.1.end_ w1
  let f := Fence.new ch.display_device w2
  let w3 := cmd.1.submit ch.display_queue f.1.fence f.2
  let w4 := f.1.await w3
  let w5 := cmd.1.drop (f.1.drop w4)
  ({ ch with
      render_images := ch.render_images.set i (some renderImage.1)
      render_copy_images := ch.render_copy_images.set i (some renderCopyMapped.1)
      display_src_images := ch.display_src_images.set i (some displaySrcMapped.1) },
    w5)

/-- A run of `n` fresh handles: the images `GetSwapchainImagesKHR` reports. -/
def World.freshN : Nat → World → List Nat × World
  | 0, w => ([], w)
  | n + 1, w =>
    let h := w.fresh
    let r := World.freshN n h.2
    (h.1 :: r.1, r.2)

/-- The dereference of a `VkSwapchainKHR` handle that the layer issued:
`reinterpret_cast<MySwapchain*>(swapchain)`. -/
def Globals.swapchain (g : Globals) (handle : Nat) : Except Fault MySwapchain :=
  match g.swapchains.lookup handle with
  | some ch => Except.ok ch
  | none => Except.error Fault.nullPointer

/-- The result of `new MySwapchain()`: every member zero or empty. -/
def MySwapchain.new : MySwapchain :=
  { device := VK_NULL_HANDLE
    render_queue := VK_NULL_HANDLE
    display_device := VK_NULL_HANDLE
    display_queue := VK_NULL_HANDLE
    backend := VK_NULL_HANDLE
    render_images := []
    render_copy_images := []
    display_src_images := []
    display_images := []
    imgSize := ⟨0, 0⟩
    display_commands := [] }

/-- The call `v.resize(n)` on a vector of pointers: cut, or filled with null. -/
def resize {α : Type} (v : List (Option α)) (n : Nat) : List (Option α) :=
  v.take n ++ List.replicate (n - v.length) none

/-- Lines 529-534 of `PrimusVK_CreateSwapchainKHR`: a non-null `oldSwapchain`
is read as a `MySwapchain` and replaced by its `backend`. -/
def chainOldSwapchain (g : Globals) (info2 : VkSwapchainCreateInfoKHR) :
    Except Fault VkSwapchainCreateInfoKHR :=
  if info2.oldSwapchain ≠ VK_NULL_HANDLE then do
    let ch ← g.swapchain info2.oldSwapchain
    Except.ok { info2 with oldSwapchain := ch.backend }
  else Except.ok info2

/-- The dereference `cod->`. -/
def Globals.codObject (g : Globals) : Except Fault CreateOtherDevice :=
  match g.cod with
  | none => Except.error Fault.nullPointer
  | some c => Except.ok c

/-- Lines 544-554 of `PrimusVK_CreateSwapchainKHR`: the new `MySwapchain`, its
queues, the four vectors resized to `minImageCount`, and `imgSize`.  The value
returned holds the address of the object and the object. -/
def allocSwapchain (env : Env) (render_gpu display_gpu : Nat)
    (pCreateInfo : VkSwapchainCreateInfoKHR) (w : World) : (Nat × MySwapchain) × World :=
  let a := w.fresh
  let ch0 := { MySwapchain.new with display_device := display_gpu }
  let q1 := vkGetDeviceQueue env render_gpu a.2
  let q2 := vkGetDeviceQueue env display_gpu q1.2
  ((a.1,
    { ch0 with
      render_queue := q1.1
      display_queue := q2.1
      device := render_gpu
      render_images := resize ch0.render_images pCreateInfo.minImageCount
      render_copy_images := resize ch0.render_copy_images pCreateInfo.minImageCount
      display_src_images := resize ch0.display_src_images pCreateInfo.minImageCount
      display_commands := resize ch0.display_commands pCreateInfo.minImageCount
      imgSize := pCreateInfo.imageExtent }), q2.2)

/-- Lines 575-603 of `PrimusVK_CreateSwapchainKHR`: the loop over
`ch->render_images`, with `i` counting the slots. -/
def createSlots (render_gpu display_gpu : Nat) (imageExtent : VkExtent2D)
    (render_local_mem render_host_mem display_host_mem : Int)
    (ch : MySwapchain) (w : World) : MySwapchain × World :=
  (List.range ch.render_images.length).foldl
    (createSlot render_gpu display_gpu imageExtent
      render_local_mem render_host_mem display_host_mem) (ch, w)

/-- Lines 607-615 of `PrimusVK_CreateSwapchainKHR`: the display adapter's
`CreateSwapchainKHR` through the dispatch table of `display_gpu`, then its
images fetched into `display_images`.  `imageCount` is the number of images
that the display adapter's swapchain reports.  The value returned holds `rc`
and the `MySwapchain`. -/
def createBackend (env : Env) (g : Globals) (display_gpu : Nat)
    (pCreateInfo : VkSwapchainCreateInfoKHR) (imageCount : Nat) (ch : MySwapchain)
    (w : World) : Except Fault ((VkResult × MySwapchain) × World) := do
  let kd ← GetKey env display_gpu
  viaDispatch g.device_dispatch kd
  let r := w.answer
  let b := r.2.fresh
  let backend := if r.1 = VK_SUCCESS then b.1 else ch.backend
  let w1 := b.2.emit (Event.CreateSwapchainKHR display_gpu pCreateInfo backend)
  let ch2 := { ch with backend := backend }
  let kd2 ← GetKey env ch2.display_device
  viaDispatch g.device_dispatch kd2
  let w2 := w1.emit (Event.GetSwapchainImagesKHR ch2.display_device ch2.backend)
  let imgs := World.freshN imageCount w2
  let ch3 := { ch2 with display_images := imgs.1 }
  let w3 := imgs.2.emit (Event.GetSwapchainImagesKHR ch3.display_device ch3.backend)
  Except.ok ((r.1, ch3), w3)

/-- The function `PrimusVK_CreateSwapchainKHR`, put together from the parts
above.  The value returned holds the result and, when it was written,
`*pSwapchain`. -/
def PrimusVK_CreateSwapchainKHR (env : Env) (device : Nat)
    (pCreateInfo : VkSwapchainCreateInfoKHR) (imageCount : Nat) (g : Globals) (w : World) :
    Except Fault ((VkResult × Option Nat) × Globals × World) :=
  match g.cod with
  | none =>
    Except.ok ((VK_ERROR_INITIALIZATION_FAILED, none), g,
      w.emit (Event.print Message.noThreadToJoin))
  | some c => do
    let j ← c.join env g w
    let g1 := g.writeBack j.2.1 j.1
    let render_gpu := device
    let info2 ← chainOldSwapchain g1 { pCreateInfo with minImageCount := 3 }
    let _ ← GetKey env render_gpu
    let cod1 ← g1.codObject
    let display_gpu := cod1.display_gpu
    let _ ← GetKey env display_gpu
    let a := allocSwapchain env render_gpu display_gpu info2 j.2.2
    let rs ← renderScan cod1.render_mem
    let render_host_mem := rs.1
    let render_local_mem := rs.2
    let display_host_mem ← displayScan cod1.display_mem
    let l := createSlots render_gpu display_gpu info2.imageExtent
      render_local_mem render_host_mem display_host_mem a.1.2 a.2
    let b ← createBackend env g1 display_gpu info2 imageCount l.1 l.2
    Except.ok ((b.1.1, some a.1.1),
      { g1 with swapchains := (a.1.1, b.1.2) :: g1.swapchains }, b.2)

/-- The function `PrimusVK_DestroySwapchainKHR`: the call into the driver is
commented out, and the `MySwapchain` is not deleted. -/
def PrimusVK_DestroySwapchainKHR (swapchain : Nat) (g : Globals) : Except Fault Globals :=
  if swapchain = VK_NULL_HANDLE then Except.ok g
  else do
    let _ ← g.swapchain swapchain
    Except.ok g

/-- The read `v[i]->...` of a vector of `shared_ptr`s. -/
def slot {α : Type} (v : List (Option α)) (i : Nat) : Except Fault α :=
  match v[i]? with
  | none => Except.error Fault.outOfRange
  | some none => Except.error Fault.nullPointer
  | some (some x) => Except.ok x

/-- The loop of `PrimusVK_GetSwapchainImagesKHR` that fills `pSwapchainImages`. -/
def renderImageHandles : List (Option FramebufferImage) → Except Fault (List Nat)
  | [] => Except.ok []
  | none :: _ => Except.error Fault.nullPointer
  | some x :: rest => do
    let r ← renderImageHandles rest
    Except.ok (x.img :: r)

/-- The function `PrimusVK_GetSwapchainImagesKHR`.  `wantImages` says that
`pSwapchainImages` is not null.  The value returned holds the result,
`*pSwapchainImageCount` and the images written. -/
def PrimusVK_GetSwapchainImagesKHR (swapchain : Nat) (wantImages : Bool) (g : Globals) :
    Except Fault (VkResult × Nat × Option (List Nat)) := do
  let ch ← g.swapchain swapchain
  let count := ch.render_images.length
  if wantImages then do
    let imgs ← renderImageHandles ch.render_images
    Except.ok (VK_SUCCESS, count, some imgs)
  else Except.ok (VK_SUCCESS, count, none)

/-- The function `PrimusVK_AcquireNextImageKHR`.  `index` is what the display
adapter's acquire writes to `*pImageIndex`; the caller's `fence` is not read.
The value returned holds the result and `*pImageIndex`. -/
def PrimusVK_AcquireNextImageKHR (env : Env) (swapchain timeout semaphore : Nat)
    (index : Nat) (g : Globals) (w : World) : Except Fault ((VkResult × Nat) × World) := do
  let ch ← g.swapchain swapchain
  let myfence := Fence.new ch.display_device w
  let k ← GetKey env ch.display_device
  viaDispatch g.device_dispatch k
  let res := myfence.2.answer
  let w1 := res.2.emit (Event.AcquireNextImageKHR ch.display_device ch.backend timeout
    VK_NULL_HANDLE myfence.1.fence res.1)
  let w2 := myfence.1.await w1
  let w3 := myfence.1.drop w2
  let qsi : VkSubmitInfo :=
    { waitSemaphores := []
      waitDstStageMask := none
      commandBuffers := []
      signalSemaphores := [semaphore] }
  let w4 := w3.emit (Event.vkQueueSubmit ch.render_queue qsi VK_NULL_HANDLE)
  Except.ok ((res.1, index), w4)

/-! ## Frame transfer pipeline -/

/-- The method `MySwapchain::storeImage` (hop 1), with the destructors of `f`
and `cmd` at the end; `colorFormat` is not read. -/
def MySwapchain.storeImage (ch : MySwapchain) (index device : Nat) (imgSize : VkExtent2D)
    (queue : Nat) (w : World) : Except Fault (MappedMemory × World) := do
  let cpyImage ← slot ch.render_copy_images index
  let srcImage ← slot ch.render_images index
  let cmd := CommandBuffer.new device w
  let w1 := cmd.1.insertImageMemoryBarrier cpyImage.img
    0 VK_ACCESS_TRANSFER_WRITE_BIT
    VK_IMAGE_LAYOUT_UNDEFINED VK_IMAGE_LAYOUT_TRANSFER_DST_OPTIMAL
    VK_PIPELINE_STAGE_TRANSFER_BIT VK_PIPELINE_STAGE_TRANSFER_BIT cmd.2
  let w2 := cmd.1.insertImageMemoryBarrier srcImage.img
    VK_ACCESS_MEMORY_READ_BIT VK_ACCESS_TRANSFER_READ_BIT
    VK_IMAGE_LAYOUT_PRESENT_SRC_KHR VK_IMAGE_LAYOUT_TRANSFER_SRC_OPTIMAL
    VK_PIPELINE_STAGE_TRANSFER_BIT VK_PIPELINE_STAGE_TRANSFER_BIT w1
  let w3 := cmd.1.copyImage srcImage.img cpyImage.img imgSize w2
  let w4 := cmd.1.insertImageMemoryBarrier cpyImage.img
    VK_ACCESS_TRANSFER_WRITE_BIT VK_ACCESS_MEMORY_READ_BIT
    VK_IMAGE_LAYOUT_TRANSFER_DST_OPTIMAL VK_IMAGE_LAYOUT_GENERAL
    VK_PIPELINE_STAGE_TRANSFER_BIT VK_PIPELINE_STAGE_TRANSFER_BIT w3
  let w5 := cmd.1.insertImageMemoryBarrier srcImage.img
    VK_ACCESS_TRANSFER_READ_BIT VK_ACCESS_MEMORY_READ_BIT
    VK_IMAGE_LAYOUT_TRANSFER_SRC_OPTIMAL VK_IMAGE_LAYOUT_PRESENT_SRC_KHR
    VK_PIPELINE_STAGE_TRANSFER_BIT VK_PIPELINE_STAGE_TRANSFER_BIT w4
  let w6 := cmd.1.end_ w5
  let f := Fence.new device w6
  let w7 := cmd.1.submit queue f.1.fence f.2
  let w8 := f.1.await w7
  let w9 := w8.emit (Event.vkGetImageSubresourceLayout cpyImage.device cpyImage.img)
  let mapped ← cpyImage.getMapped
  Except.ok (mapped, cmd.1.drop (f.1.drop w9))

/-- The third argument of `memcpy` in `copyImageData`: the expression
`4*imgSize.width*imgSize.height`, evaluated from the left in `unsigned int`. -/
def copyBytes (imgSize : VkExtent2D) : Nat :=
  ((4 * imgSize.width) % 4294967296 * imgSize.height) % 4294967296

/-- The read `v[i]` of a vector of handles. -/
def imageAt (v : List Nat) (i : Nat) : Except Fault Nat :=
  match v[i]? with
  | none => Except.error Fault.outOfRange
  | some d => Except.ok d

/-- The block `if(display_commands[index] == nullptr)` of `copyImageData`: the
hop-3 command sequence is recorded and stored, or the stored one is kept. -/
def MySwapchain.hop3 (ch : MySwapchain) (index : Nat) (w : World) :
    Except Fault (MySwapchain × World) :=
  match ch.display_commands[index]? with
  | none => Except.error Fault.outOfRange
  | some (some _) => Except.ok (ch, w)
  | some none => do
    let n := CommandBuffer.new ch.display_device w
    let ch1 := { ch with display_commands := ch.display_commands.set index (some n.1) }
    let cmd := n.1
    let src ← slot ch1.display_src_images index
    let w1 := cmd.insertImageMemoryBarrier src.img
      VK_ACCESS_MEMORY_WRITE_BIT VK_ACCESS_TRANSFER_READ_BIT
      VK_IMAGE_LAYOUT_GENERAL VK_IMAGE_LAYOUT_TRANSFER_SRC_OPTIMAL
      VK_PIPELINE_STAGE_TRANSFER_BIT VK_PIPELINE_STAGE_TRANSFER_BIT n.2
    let dst ← imageAt ch1.display_images index
    let w2 := cmd.insertImageMemoryBarrier dst
      VK_ACCESS_MEMORY_READ_BIT VK_ACCESS_TRANSFER_WRITE_BIT
      VK_IMAGE_LAYOUT_UNDEFINED VK_IMAGE_LAYOUT_TRANSFER_DST_OPTIMAL
      VK_PIPELINE_STAGE_TRANSFER_BIT VK_PIPELINE_STAGE_TRANSFER_BIT w1
    let w3 := cmd.copyImage src.img dst ch1.imgSize w2
    let w4 := cmd.insertImageMemoryBarrier src.img
      VK_ACCESS_TRANSFER_READ_BIT VK_ACCESS_MEMORY_WRITE_BIT
      VK_IMAGE_LAYOUT_TRANSFER_SRC_OPTIMAL VK_IMAGE_LAYOUT_GENERAL
      VK_PIPELINE_STAGE_TRANSFER_BIT VK_PIPELINE_STAGE_TRANSFER_BIT w3
    let w5 := cmd.insertImageMemoryBarrier dst
      VK_ACCESS_TRANSFER_READ_BIT VK_ACCESS_MEMORY_READ_BIT
      VK_IMAGE_LAYOUT_UNDEFINED VK_IMAGE_LAYOUT_PRESENT_SRC_KHR
      VK_PIPELINE_STAGE_TRANSFER_BIT VK_PIPELINE_STAGE_TRANSFER_BIT w4
    Except.ok (ch1, cmd.end_ w5)

/-- The method `MySwapchain::copyImageData`: hop 1, the host copy, the block
of `hop3`, then the submission of `display_commands[index]`. -/
def MySwapchain.copyImageData (ch : MySwapchain) (index : Nat) (w : World) :
    Except Fault (MySwapchain × World) := do
  let target ← ch.storeImage index ch.device ch.imgSize ch.render_queue w
  let src ← slot ch.display_src_images index
  let mapped ← src.getMapped
  let w1 := target.2.emit (Event.memcpy mapped.data target.1.data (copyBytes ch.imgSize))
  let h ← ch.hop3 index w1
  let f := Fence.new h.1.display_device h.2
  let cmd ← slot h.1.display_commands index
  let w2 := cmd.submit h.1.display_queue f.1.fence f.2
  let w3 := f.1.await w2
  Except.ok (h.1, f.1.drop w3)

/-- The write-back of a `MySwapchain` that was changed through its pointer. -/
def Globals.storeSwapchain (g : Globals) (handle : Nat) (ch : MySwapchain) : Globals :=
  { g with swapchains := g.swapchains.map (fun e => if e.1 = handle then (handle, ch) else e) }

/-- The function `PrimusVK_QueuePresentKHR`.  The value returned holds the
result and the globals. -/
def PrimusVK_QueuePresentKHR (env : Env) (queue : Nat) (pPresentInfo : VkPresentInfoKHR)
    (g : Globals) (w : World) : Except Fault (VkResult × Globals × World) := do
  let swapchain ← imageAt pPresentInfo.swapchains 0
  let qsi : VkSubmitInfo :=
    { waitSemaphores := pPresentInfo.waitSemaphores
      waitDstStageMask := some VK_PIPELINE_STAGE_ALL_COMMANDS_BIT
      commandBuffers := []
      signalSemaphores := [] }
  let w1 := w.emit (Event.vkQueueSubmit queue qsi VK_NULL_HANDLE)
  let index ← imageAt pPresentInfo.imageIndices 0
  let ch ← g.swapchain swapchain
  let r ← ch.copyImageData index w1
  let p2 : VkPresentInfoKHR :=
    { pPresentInfo with swapchains := [r.1.backend], waitSemaphores := [] }
  let k ← GetKey env r.1.display_queue
  viaDispatch g.device_dispatch k
  let res := r.2.answer
  let w2 := res.2.emit (Event.QueuePresentKHR r.1.display_queue p2 res.1)
  Except.ok (res.1, g.storeSwapchain swapchain r.1, w2)

/-! ## Specification-side notions -/

/-- The spec's reading of "first match": the first adapter of the type in
enumeration order. -/
def specFirstOfType (t : VkPhysicalDeviceType) (devs : List PhysicalDevice) :
    Option PhysicalDevice :=
  devs.find? (fun d => decide (d.deviceType = t))

/-- The last adapter of the type in enumeration order. -/
def lastOfType (t : VkPhysicalDeviceType) (devs : List PhysicalDevice) :
    Option PhysicalDevice :=
  devs.reverse.find? (fun d => decide (d.deviceType = t))

/-- An adapter list with two integrated adapters in front of a discrete one. -/
def twoIntegrated : List PhysicalDevice :=
  [⟨11, VK_PHYSICAL_DEVICE_TYPE_INTEGRATED_GPU⟩,
   ⟨12, VK_PHYSICAL_DEVICE_TYPE_INTEGRATED_GPU⟩,
   ⟨13, VK_PHYSICAL_DEVICE_TYPE_DISCRETE_GPU⟩]

/-- A loader whose dispatch key of an object is its handle plus 100, with a
device chain that carries the link info. -/
def sampleEnv (devs : List PhysicalDevice) : Env :=
  { key := fun h => h + 100
    physicalDevices := devs
    memoryProperties := fun _ => ⟨3, [VK_MEMORY_PROPERTY_DEVICE_LOCAL_BIT,
      VK_MEMORY_PROPERTY_HOST_VISIBLE_BIT, 6]⟩
    queueFamilyCount := fun _ => 1
    deviceChain := [⟨VkStructureType.VK_STRUCTURE_TYPE_LOADER_DEVICE_CREATE_INFO,
      VkLayerFunction.VK_LAYER_LINK_INFO⟩]
    deviceQueue := fun d => d + 1000 }

/-- An instance chain that carries the loader's link info. -/
def instanceChain : List LayerCreateInfo :=
  [⟨VkStructureType.VK_STRUCTURE_TYPE_OTHER, VkLayerFunction.VK_LAYER_LINK_INFO⟩,
   ⟨VkStructureType.VK_STRUCTURE_TYPE_LOADER_INSTANCE_CREATE_INFO,
    VkLayerFunction.VK_LAYER_LINK_INFO⟩]

/-- The two adapter types that topology resolution looks for are both present. -/
def hasBothTypes (devs : List PhysicalDevice) : Prop :=
  (∃ d ∈ devs, d.deviceType = VK_PHYSICAL_DEVICE_TYPE_INTEGRATED_GPU) ∧
    (∃ d ∈ devs, d.deviceType = VK_PHYSICAL_DEVICE_TYPE_DISCRETE_GPU)

/-- The value `sel` is what a scan for `req` over the first `n` memory types has
to select: the least index below `n` whose flags contain every bit of `req`,
or `-1` when no index below `n` does. -/
def selectsLeast (flags : List Nat) (req n : Nat) (sel : Int) : Prop :=
  (sel = -1 ∧ ∀ j < n, ∀ f, flags[j]? = some f → f &&& req ≠ req) ∨
  (∃ (j : Nat) (f : Nat), sel = (j : Int) ∧ j < n ∧ flags[j]? = some f ∧ f &&& req = req ∧
    ∀ i < j, ∀ f', flags[i]? = some f' → f' &&& req ≠ req)

/-- A memory table with a device-local type, a host-visible one that is not
coherent, and a host-visible and coherent one. -/
def sampleMem : VkPhysicalDeviceMemoryProperties :=
  ⟨3, [VK_MEMORY_PROPERTY_DEVICE_LOCAL_BIT, VK_MEMORY_PROPERTY_HOST_VISIBLE_BIT, 6]⟩

/-- One call of `PrimusVK_CreateDevice`: the adapter, the create-info chain and
the value of `*pDevice` on entry. -/
structure DeviceCall where
  physicalDevice : Nat
  chain : List LayerCreateInfo
  pDevice : Nat
  deriving DecidableEq, Repr

/-- A sequence of `PrimusVK_CreateDevice` calls, one after the other. -/
def createDevices (env : Env) : List DeviceCall → Globals → World →
    Except Fault (Globals × World)
  | [], g, w => Except.ok (g, w)
  | c :: rest, g, w => do
    let r ← PrimusVK_CreateDevice env c.physicalDevice c.chain c.pDevice g w
    createDevices env rest r.2.1 r.2.2

/-- The test for a `pthread_create` entry of the log. -/
def isThreadStart : Event → Bool
  | Event.pthread_create _ => true
  | _ => false

/-- The number of threads that `CreateOtherDevice::start` has asked for. -/
def threadsStarted (w : World) : Nat :=
  w.trace.countP isThreadStart

/-- The test for a `pthread_join` entry of the log. -/
def isThreadJoin : Event → Bool
  | Event.pthread_join _ => true
  | _ => false

/-- The number of `pthread_join` calls made. -/
def threadsJoined (w : World) : Nat :=
  w.trace.countP isThreadJoin

/-- A render adapter followed by a display adapter. -/
def sampleDevs : List PhysicalDevice :=
  [⟨21, VK_PHYSICAL_DEVICE_TYPE_DISCRETE_GPU⟩, ⟨22, VK_PHYSICAL_DEVICE_TYPE_INTEGRATED_GPU⟩]

/-- A device chain that carries the loader's link info. -/
def deviceChain : List LayerCreateInfo :=
  [⟨VkStructureType.VK_STRUCTURE_TYPE_LOADER_DEVICE_CREATE_INFO,
    VkLayerFunction.VK_LAYER_LINK_INFO⟩]

/-- A world in which every call succeeds and no handle has been given out
below 1000. -/
def sampleWorld : World := ⟨1000, [], []⟩

/-- The globals after `PrimusVK_CreateInstance` on `sampleDevs`. -/
def sampleInstance : Globals :=
  match PrimusVK_CreateInstance (sampleEnv sampleDevs) instanceChain 7 Globals.init with
  | Except.ok r => r.2
  | Except.error _ => Globals.init

/-- The state after `PrimusVK_CreateInstance` and one `PrimusVK_CreateDevice`
on the render adapter of `sampleDevs`. -/
def sampleDevice : Globals × World :=
  match PrimusVK_CreateDevice (sampleEnv sampleDevs) 21 deviceChain 0 sampleInstance
    sampleWorld with
  | Except.ok r => r.2
  | Except.error _ => (sampleInstance, sampleWorld)

/-- The initializer that `sampleDevice` holds. -/
def sampleCod : CreateOtherDevice :=
  match sampleDevice.1.cod with
  | some c => c
  | none => ⟨0, 0, ⟨0, []⟩, ⟨0, []⟩, 0, 0, 0, false⟩

/-- Three `PrimusVK_CreateDevice` calls: the application's on the render
adapter, the thread's on the display adapter, and one more on the render
adapter. -/
def sampleCalls : List DeviceCall :=
  [⟨21, deviceChain, 0⟩, ⟨22, deviceChain, 0⟩, ⟨21, deviceChain, 0⟩]

/-- A swapchain request for `minImageCount` images of the given extent, with
`oldSwapchain` as the swapchain to replace. -/
def sampleInfo (minImageCount width height oldSwapchain : Nat) : VkSwapchainCreateInfoKHR :=
  { surface := 5
    minImageCount := minImageCount
    imageFormat := VK_FORMAT_B8G8R8A8_UNORM
    imageExtent := ⟨width, height⟩
    queueFamilyIndexCount := 0
    oldSwapchain := oldSwapchain }

/-- The state after `PrimusVK_CreateSwapchainKHR` on the device of
`sampleDevice`, with a display swapchain of three images. -/
def sampleCreated (info : VkSwapchainCreateInfoKHR) : Globals × World :=
  match PrimusVK_CreateSwapchainKHR (sampleEnv sampleDevs) 1001 info 3
    sampleDevice.1 sampleDevice.2 with
  | Except.ok r => r.2
  | Except.error _ => sampleDevice

/-- The shadow swapchain that `sampleCreated` holds. -/
def sampleSwapchain (info : VkSwapchainCreateInfoKHR) : MySwapchain :=
  match (sampleCreated info).1.swapchains with
  | e :: _ => e.2
  | [] => MySwapchain.new

/-- The arguments of an entry of the log that is a call of the display
adapter's `CreateSwapchainKHR`. -/
def asSwapchainCall : Event → Option (Nat × VkSwapchainCreateInfoKHR × Nat)
  | Event.CreateSwapchainKHR device info backend => some (device, info, backend)
  | _ => none

/-- The calls of the display adapter's `CreateSwapchainKHR` made so far: device,
create info and the handle written to `backend`. -/
def swapchainCalls (w : World) : List (Nat × VkSwapchainCreateInfoKHR × Nat) :=
  w.trace.filterMap asSwapchainCall

/-- What a step that makes no call of `CreateSwapchainKHR` leaves as it was or
only raises: the calls of `CreateSwapchainKHR` and the supply of handles. -/
def World.grows (w w1 : World) : Prop :=
  swapchainCalls w1 = swapchainCalls w ∧ w.nextHandle ≤ w1.nextHandle

/-- Two states of a `MySwapchain` that differ at most in the contents of the
three image vectors: every other member and the lengths of the vectors agree. -/
def MySwapchain.sameFrame (a b : MySwapchain) : Prop :=
  a.device = b.device ∧ a.render_queue = b.render_queue ∧
  a.display_device = b.display_device ∧ a.display_queue = b.display_queue ∧
  a.backend = b.backend ∧ a.display_images = b.display_images ∧
  a.imgSize = b.imgSize ∧ a.display_commands = b.display_commands ∧
  a.render_images.length = b.render_images.length ∧
  a.render_copy_images.length = b.render_copy_images.length ∧
  a.display_src_images.length = b.display_src_images.length

/-- The test that a call of `PrimusVK_CreateSwapchainKHR` returned with result
`rc` and wrote the handle `hd` to `*pSwapchain`. -/
def builtSwapchain (x : Except Fault ((VkResult × Option Nat) × Globals × World))
    (rc : VkResult) (hd : Nat) : Bool :=
  match x with
  | Except.ok r => decide (r.1 = (rc, some hd))
  | Except.error _ => false

/-- The state after a first `PrimusVK_CreateSwapchainKHR` for three images of
extent 4 by 2: it holds the live shadow swapchain 1004. -/
def sampleLive : Globals × World := sampleCreated (sampleInfo 3 4 2 0)

/-- The byte count of an entry of the log that is a `memcpy`. -/
def asMemcpy : Event → Option Nat
  | Event.memcpy _ _ bytes => some bytes
  | _ => none

/-- The byte counts of the `memcpy` calls made so far. -/
def memcpySizes (w : World) : List Nat :=
  w.trace.filterMap asMemcpy

/-- The test that a call of `copyImageData` returned and that the `memcpy`
calls in the log have the byte counts `sizes`. -/
def copied (x : Except Fault (MySwapchain × World)) (sizes : List Nat) : Bool :=
  match x with
  | Except.ok r => decide (memcpySizes r.2 = sizes)
  | Except.error _ => false

/-- The queue and the command buffers of an entry of the log that is a
`vkQueueSubmit`. -/
def asSubmit : Event → Option (Nat × List Nat)
  | Event.vkQueueSubmit queue info _ => some (queue, info.commandBuffers)
  | _ => none

/-- The queue submissions made so far. -/
def submitted (w : World) : List (Nat × List Nat) :=
  w.trace.filterMap asSubmit

/-- The state after `n` consecutive calls of `copyImageData(index)`. -/
def presents (index : Nat) : Nat → MySwapchain → World → Except Fault (MySwapchain × World)
  | 0, ch, w => Except.ok (ch, w)
  | n + 1, ch, w => do
    let r ← presents index n ch w
    r.1.copyImageData index r.2

/-- A world in which every call succeeds and no handle has been given out
below 5000. -/
def laterWorld : World := ⟨5000, [], []⟩

/-- The test that a call returned. -/
def returned {α : Type} (x : Except Fault α) : Bool :=
  match x with
  | Except.ok _ => true
  | Except.error _ => false

/-- A state in which `PrimusVK_CreateSwapchainKHR` meets nothing that is
undefined: the initializer exists and has been joined, the render device and
the display device are not null, the display device has a dispatch table, a
non-null `oldSwapchain` is a live shadow swapchain, and both memory tables
keep `memoryTypeCount` within the array. -/
def CreateReady (env : Env) (device : Nat) (info : VkSwapchainCreateInfoKHR)
    (g : Globals) : Prop :=
  ∃ c, g.cod = some c ∧ c.joined = true ∧
    device ≠ VK_NULL_HANDLE ∧ c.display_gpu ≠ VK_NULL_HANDLE ∧
    env.key c.display_gpu ∈ g.device_dispatch ∧
    (info.oldSwapchain = VK_NULL_HANDLE ∨
      ∃ och, g.swapchain info.oldSwapchain = Except.ok och) ∧
    c.render_mem.memoryTypeCount ≤ c.render_mem.memoryTypes.length ∧
    c.display_mem.memoryTypeCount ≤ c.display_mem.memoryTypes.length

/-- The initializer that `sampleLive` holds, joined. -/
def sampleJoined : CreateOtherDevice :=
  match sampleLive.1.cod with
  | some c => c
  | none => ⟨0, 0, ⟨0, []⟩, ⟨0, []⟩, 0, 0, 0, false⟩

/-- A swapchain on which `copyImageData(i)` meets nothing that is undefined:
slot `i` exists in every per-slot vector and in `display_images`, its three
images exist, and its two staging images are mapped. -/
def PresentReady (ch : MySwapchain) (i : Nat) : Prop :=
  (∃ cpy m, ch.render_copy_images[i]? = some (some cpy) ∧ cpy.mapped = some m) ∧
  (∃ src, ch.render_images[i]? = some (some src)) ∧
  (∃ dsrc m, ch.display_src_images[i]? = some (some dsrc) ∧ dsrc.mapped = some m) ∧
  (∃ img, ch.display_images[i]? = some img) ∧
  i < ch.display_commands.length

/-- A loader like `sampleEnv sampleDevs` in which a queue carries the dispatch
key of its device, as the loader arranges it. -/
def queueEnv : Env :=
  { sampleEnv sampleDevs with key := fun h => if 2000 ≤ h then h - 900 else h + 100 }

/-- A present request for image `index` of the swapchain `swapchain`, waiting
on the semaphores 71 and 72. -/
def samplePresent (swapchain index : Nat) : VkPresentInfoKHR :=
  { waitSemaphores := [71, 72]
    swapchains := [swapchain]
    imageIndices := [index] }

/-- The world `laterWorld` with the given result codes for the coming calls. -/
def answering (answers : List VkResult) : World := { laterWorld with answers := answers }

/-- The message of an entry of the log that is a `printf`. -/
def asPrint : Event → Option Message
  | Event.print m => some m
  | _ => none

/-- What the layer has printed so far. -/
def printed (w : World) : List Message :=
  w.trace.filterMap asPrint

/-- The `VkResult` that an entry point returned together with what the layer
printed, or `none` when the call did not return. -/
def outcome {α : Type} (x : Except Fault α) (result : α → VkResult) (world : α → World) :
    Option (VkResult × List Message) :=
  match x with
  | Except.ok r => some (result r, printed (world r))
  | Except.error _ => none

/-- The fault with which a call ended, or `none` when it returned. -/
def faultOf {α : Type} (x : Except Fault α) : Option Fault :=
  match x with
  | Except.ok _ => none
  | Except.error e => some e

/-- The state `sampleDevice`, with a driver that lets the thread's enumeration
succeed and then fails the `vkCreateDevice` call that the thread makes: the
result codes are those of `pthread_join`, of the two enumeration calls of the
next layer, and of the device creation. -/
def failingDevice : World :=
  { sampleDevice.2 with answers := [0, 0, 0, VK_ERROR_INITIALIZATION_FAILED] }

/-- An enumeration that lists the integrated adapter before the discrete one. -/
def displayFirst : List PhysicalDevice :=
  [⟨22, VK_PHYSICAL_DEVICE_TYPE_INTEGRATED_GPU⟩, ⟨21, VK_PHYSICAL_DEVICE_TYPE_DISCRETE_GPU⟩]

/-- The globals after `PrimusVK_CreateInstance` on `displayFirst`. -/
def displayFirstInstance : Globals :=
  match PrimusVK_CreateInstance (sampleEnv displayFirst) instanceChain 7 Globals.init with
  | Except.ok r => r.2
  | Except.error _ => Globals.init

/-- What `PrimusVK_EnumeratePhysicalDevices` reported: the count and the array,
or `none` when the call did not return `VK_SUCCESS`. -/
def reported (x : Except Fault ((VkResult × Nat × Option (List Nat)) × World)) :
    Option (Nat × List Nat) :=
  match x with
  | Except.ok ((0, n, some l), _) => some (n, l)
  | _ => none

/-- The barrier of an entry of the log that is a `vkCmdPipelineBarrier`. -/
def asBarrier : Event → Option ImageBarrier
  | Event.vkCmdPipelineBarrier _ b => some b
  | _ => none

/-- The barriers recorded so far, in order. -/
def barriersOf (w : World) : List ImageBarrier :=
  w.trace.filterMap asBarrier

/-- The spec's layout chain: in a list of barriers, taken from the last to the
first, every barrier that has an earlier barrier on the same image declares as
its old layout the new layout of the nearest such barrier.  The argument is
the list reversed. -/
def specLayoutChainRev : List ImageBarrier → Bool
  | [] => true
  | b :: earlier =>
    (match earlier.find? (fun b' => b'.image == b.image) with
      | some b' => decide (b.oldLayout = b'.newLayout)
      | none => true) && specLayoutChainRev earlier

/-- The spec's layout chain on a list of barriers in recording order. -/
def specLayoutChain (bs : List ImageBarrier) : Bool :=
  specLayoutChainRev bs.reverse

/-- The barriers that a call recorded, or `none` when it did not return. -/
def recordedBarriers {α : Type} (x : Except Fault (α × World)) : Option (List ImageBarrier) :=
  match x with
  | Except.ok r => some (barriersOf r.2)
  | Except.error _ => none

/-- The entries of the log that record a command, submit to a queue, wait for
a fence, copy on the host, or acquire or present an image. -/
def isStep : Event → Bool
  | Event.vkCmdPipelineBarrier _ _ => true
  | Event.vkCmdCopyImage _ _ => true
  | Event.vkQueueSubmit _ _ _ => true
  | Event.vkWaitForFences _ _ _ => true
  | Event.memcpy _ _ _ => true
  | Event.AcquireNextImageKHR _ _ _ _ _ _ => true
  | Event.QueuePresentKHR _ _ _ => true
  | _ => false

/-- Those entries of the log, in order. -/
def steps (w : World) : List Event :=
  w.trace.filter isStep

/-- How often `VK_CHECK_RESULT(x)` makes the call `x` in the world `w`: once,
and once more for the `printf` when the first result is not `VK_SUCCESS`. -/
def tries (w : World) : Nat :=
  if w.answer.1 ≠ VK_SUCCESS then 2 else 1

/-- A state in which `PrimusVK_AcquireNextImageKHR` meets nothing that is
undefined: the handle is a live shadow swapchain whose display device is not
null and has a dispatch table. -/
def AcquireReady (env : Env) (swapchain : Nat) (g : Globals) : Prop :=
  ∃ ch, g.swapchain swapchain = Except.ok ch ∧ ch.display_device ≠ VK_NULL_HANDLE ∧
    env.key ch.display_device ∈ g.device_dispatch

/-- The spec's "barrier moving `image` from layout `old` to layout `new`" as a
command recorded in `cmd`: transfer stage on both sides, colour aspect, one mip
level and one layer.  The spec names no access masks, so they are arguments. -/
def specBarrier (cmd image srcAccess dstAccess : Nat) (old new : VkImageLayout) : Event :=
  Event.vkCmdPipelineBarrier cmd
    { image := image
      srcAccessMask := srcAccess
      dstAccessMask := dstAccess
      oldLayout := old
      newLayout := new
      srcStageMask := VK_PIPELINE_STAGE_TRANSFER_BIT
      dstStageMask := VK_PIPELINE_STAGE_TRANSFER_BIT
      aspectMask := VK_IMAGE_ASPECT_COLOR_BIT
      levelCount := 1
      layerCount := 1 }

/-- The spec's "image copy from `src` into `dst` covering the full extent
(width, height, depth 1) with a single layer and the colour aspect" as a
command recorded in `cmd`, the source in transfer-source and the destination in
transfer-destination layout. -/
def specCopy (cmd src dst : Nat) (extent : VkExtent2D) : Event :=
  Event.vkCmdCopyImage cmd
    { src := src
      srcLayout := VK_IMAGE_LAYOUT_TRANSFER_SRC_OPTIMAL
      dst := dst
      dstLayout := VK_IMAGE_LAYOUT_TRANSFER_DST_OPTIMAL
      aspectMask := VK_IMAGE_ASPECT_COLOR_BIT
      layerCount := 1
      width := extent.width
      height := extent.height
      depth := 1 }

/-- The spec's hop-1 command sequence for the staging copy `cpy` and the render
target `src`. -/
def specHop1 (cmd cpy src : Nat) (extent : VkExtent2D) : List Event :=
  [specBarrier cmd cpy 0 VK_ACCESS_TRANSFER_WRITE_BIT
      VK_IMAGE_LAYOUT_UNDEFINED VK_IMAGE_LAYOUT_TRANSFER_DST_OPTIMAL,
    specBarrier cmd src VK_ACCESS_MEMORY_READ_BIT VK_ACCESS_TRANSFER_READ_BIT
      VK_IMAGE_LAYOUT_PRESENT_SRC_KHR VK_IMAGE_LAYOUT_TRANSFER_SRC_OPTIMAL,
    specCopy cmd src cpy extent,
    specBarrier cmd cpy VK_ACCESS_TRANSFER_WRITE_BIT VK_ACCESS_MEMORY_READ_BIT
      VK_IMAGE_LAYOUT_TRANSFER_DST_OPTIMAL VK_IMAGE_LAYOUT_GENERAL,
    specBarrier cmd src VK_ACCESS_TRANSFER_READ_BIT VK_ACCESS_MEMORY_READ_BIT
      VK_IMAGE_LAYOUT_TRANSFER_SRC_OPTIMAL VK_IMAGE_LAYOUT_PRESENT_SRC_KHR]

/-- The spec's hop-3 command sequence for the display-side staging source `src`
and the presentable image `dst`.  The spec names no old layout for the last
barrier; it is an argument. -/
def specHop3 (cmd src dst : Nat) (extent : VkExtent2D) (lastOld : VkImageLayout) :
    List Event :=
  [specBarrier cmd src VK_ACCESS_MEMORY_WRITE_BIT VK_ACCESS_TRANSFER_READ_BIT
      VK_IMAGE_LAYOUT_GENERAL VK_IMAGE_LAYOUT_TRANSFER_SRC_OPTIMAL,
    specBarrier cmd dst VK_ACCESS_MEMORY_READ_BIT VK_ACCESS_TRANSFER_WRITE_BIT
      VK_IMAGE_LAYOUT_UNDEFINED VK_IMAGE_LAYOUT_TRANSFER_DST_OPTIMAL,
    specCopy cmd src dst extent,
    specBarrier cmd src VK_ACCESS_TRANSFER_READ_BIT VK_ACCESS_MEMORY_WRITE_BIT
      VK_IMAGE_LAYOUT_TRANSFER_SRC_OPTIMAL VK_IMAGE_LAYOUT_GENERAL,
    specBarrier cmd dst VK_ACCESS_TRANSFER_READ_BIT VK_ACCESS_MEMORY_READ_BIT
      lastOld VK_IMAGE_LAYOUT_PRESENT_SRC_KHR]

/-- The submission of the one command buffer `cmd` to `queue` with `fence`, as
`CommandBuffer::submit` makes it. -/
def submitOf (queue cmd fence : Nat) : Event :=
  Event.vkQueueSubmit queue
    { waitSemaphores := []
      waitDstStageMask := none
      commandBuffers := [cmd]
      signalSemaphores := [] } fence

/-- The test that an entry of the log is a call of the display adapter's
`QueuePresentKHR`. -/
def isPresent : Event → Bool
  | Event.QueuePresentKHR _ _ _ => true
  | _ => false

/-- A state in which `PrimusVK_QueuePresentKHR` meets nothing that is
undefined: the request names a swapchain and an image index, the swapchain is
a live shadow swapchain whose slot for that index is complete, and its display
queue is not null and carries the key of a dispatch table. -/
def PresentCallReady (env : Env) (pPresentInfo : VkPresentInfoKHR) (g : Globals) : Prop :=
  ∃ sc idx ch, pPresentInfo.swapchains[0]? = some sc ∧
    pPresentInfo.imageIndices[0]? = some idx ∧
    g.swapchain sc = Except.ok ch ∧ PresentReady ch idx ∧
    ch.display_queue ≠ VK_NULL_HANDLE ∧ env.key ch.display_queue ∈ g.device_dispatch

/-- The lengths of the four per-slot vectors of a `MySwapchain`:
`render_images`, `render_copy_images`, `display_src_images`,
`display_commands`. -/
def slotCounts (ch : MySwapchain) : Nat × Nat × Nat × Nat :=
  (ch.render_images.length, ch.render_copy_images.length, ch.display_src_images.length,
    ch.display_commands.length)

/-- A call of one of the entry points that take a swapchain that exists. -/
inductive SwapchainOp where
  | getImages (swapchain : Nat) (wantImages : Bool)
  | acquire (swapchain timeout semaphore index : Nat)
  | present (queue : Nat) (info : VkPresentInfoKHR)
  | destroy (swapchain : Nat)
  deriving DecidableEq, Repr

/-- The effect of one such call on the globals and the world.
`PrimusVK_GetSwapchainImagesKHR` and `PrimusVK_AcquireNextImageKHR` write no
global and no member of a `MySwapchain`. -/
def applyOp (env : Env) (op : SwapchainOp) (s : Globals × World) :
    Except Fault (Globals × World) :=
  match op with
  | SwapchainOp.getImages swapchain wantImages => do
    let _ ← PrimusVK_GetSwapchainImagesKHR swapchain wantImages s.1
    Except.ok s
  | SwapchainOp.acquire swapchain timeout semaphore index => do
    let r ← PrimusVK_AcquireNextImageKHR env swapchain timeout semaphore index s.1 s.2
    Except.ok (s.1, r.2)
  | SwapchainOp.present queue info => do
    let r ← PrimusVK_QueuePresentKHR env queue info s.1 s.2
    Except.ok r.2
  | SwapchainOp.destroy swapchain => do
    let g ← PrimusVK_DestroySwapchainKHR swapchain s.1
    Except.ok (g, s.2)

/-- The effect of a sequence of such calls, made one after the other. -/
def applyOps (env : Env) : List SwapchainOp → Globals × World → Except Fault (Globals × World)
  | [], s => Except.ok s
  | op :: rest, s => do
    let s1 ← applyOp env op s
    applyOps env rest s1

/-- A sequence of calls on the swapchain 1004: the count is asked for, image 1
is acquired and presented twice, the images are fetched, and the swapchain is
destroyed. -/
def sampleOps : List SwapchainOp :=
  [SwapchainOp.getImages 1004 false,
    SwapchainOp.acquire 1004 55 33 1,
    SwapchainOp.present 2001 (samplePresent 1004 1),
    SwapchainOp.acquire 1004 55 33 1,
    SwapchainOp.present 2001 (samplePresent 1004 1),
    SwapchainOp.getImages 1004 true,
    SwapchainOp.destroy 1004]

/-- The image and the create info of an entry of the log that is a
`vkCreateImage`. -/
def asImage : Event → Option (Nat × VkImageCreateInfo)
  | Event.vkCreateImage _ info img => some (img, info)
  | _ => none

/-- The images created so far, each with the create info it was made from. -/
def imagesOf (w : World) : List (Nat × VkImageCreateInfo) :=
  w.trace.filterMap asImage

/-- The spec's "created with exactly that width and height and depth 1". -/
def hasExtent (extent : VkExtent2D) (info : VkImageCreateInfo) : Prop :=
  info.width = extent.width ∧ info.height = extent.height ∧ info.depth = 1

/-- What holds of the slots while `PrimusVK_CreateSwapchainKHR` fills them:
since the world `base` only images of the extent `extent` with depth 1 were
created, and every image that a slot of the swapchain holds is one of them. -/
def slotsCreated (extent : VkExtent2D) (base : World) (s : MySwapchain × World) : Prop :=
  ∃ added, imagesOf s.2 = imagesOf base ++ added ∧
    (∀ x ∈ added, hasExtent extent x.2) ∧
    ∀ (i : Nat) (img : FramebufferImage),
      (s.1.render_images[i]? = some (some img) ∨
        s.1.render_copy_images[i]? = some (some img) ∨
        s.1.display_src_images[i]? = some (some img)) →
      ∃ ci, (img.img, ci) ∈ added

/-- The three images of slot `i` exist. -/
def slotFilled (ch : MySwapchain) (i : Nat) : Prop :=
  (∃ x, ch.render_images[i]? = some (some x)) ∧
  (∃ x, ch.render_copy_images[i]? = some (some x)) ∧
  (∃ x, ch.display_src_images[i]? = some (some x))

/-- The state after `PrimusVK_CreateSwapchainKHR` on the device of
`sampleDevice` for three images of extent 4 by 2, with a display swapchain
that reports four images: `minImageCount` is a minimum for the driver. -/
def sampleFour : Globals × World :=
  match PrimusVK_CreateSwapchainKHR (sampleEnv sampleDevs) 1001 (sampleInfo 3 4 2 0) 4
    sampleDevice.1 sampleDevice.2 with
  | Except.ok r => r.2
  | Except.error _ => sampleDevice

/-- The shadow swapchain that `sampleFour` holds. -/
def sampleFourSwapchain : MySwapchain :=
  match sampleFour.1.swapchains with
  | e :: _ => e.2
  | [] => MySwapchain.new

/-! # Theorems -/

/-! ## Topology resolution -/

theorem getKey_ok (env : Env) (h : Nat) (hh : h ≠ VK_NULL_HANDLE) :
    GetKey env h = Except.ok (env.key h) := by
  simp [GetKey, hh]

theorem selectDevices_fold (env : Env) (devs : List PhysicalDevice)
    (hdev : ∀ d ∈ devs, d.handle ≠ VK_NULL_HANDLE) (s : Selection) :
    devs.foldlM (selectStep env) s = Except.ok (devs.foldl selectUpdate s) := by
  induction devs generalizing s with
  | nil => rfl
  | cons d ds ih =>
    have hd : d.handle ≠ VK_NULL_HANDLE := hdev d (List.mem_cons_self _ _)
    have hrest : ∀ x ∈ ds, x.handle ≠ VK_NULL_HANDLE :=
      fun x hx => hdev x (List.mem_cons_of_mem _ hx)
    rw [List.foldlM_cons, List.foldl_cons]
    have hstep : selectStep env s d = Except.ok (selectUpdate s d) := by
      simp [selectStep, getKey_ok env _ hd, bind, Except.bind]
    rw [hstep]
    exact ih hrest (selectUpdate s d)

theorem lastOfType_append (t : VkPhysicalDeviceType) (devs : List PhysicalDevice)
    (d : PhysicalDevice) :
    lastOfType t (devs ++ [d]) = if d.deviceType = t then some d else lastOfType t devs := by
  simp [lastOfType, List.find?_cons]
  split <;> simp_all

theorem fold_display (devs : List PhysicalDevice) (s : Selection) :
    (devs.foldl selectUpdate s).display =
      ((lastOfType VK_PHYSICAL_DEVICE_TYPE_INTEGRATED_GPU devs).map
        (fun d => d.handle)).getD s.display := by
  induction devs using List.reverseRecOn with
  | nil => simp [lastOfType]
  | append_singleton ds d ih =>
    rw [List.foldl_append, lastOfType_append]
    simp only [List.foldl_cons, List.foldl_nil]
    by_cases h : d.deviceType = VK_PHYSICAL_DEVICE_TYPE_INTEGRATED_GPU
    · simp [selectUpdate, h]
    · by_cases h2 : d.deviceType = VK_PHYSICAL_DEVICE_TYPE_DISCRETE_GPU
      · simp [selectUpdate, h, h2, ih]
      · simp [selectUpdate, h, h2, ih]

theorem fold_render (devs : List PhysicalDevice) (s : Selection) :
    (devs.foldl selectUpdate s).render =
      ((lastOfType VK_PHYSICAL_DEVICE_TYPE_DISCRETE_GPU devs).map
        (fun d => d.handle)).getD s.render := by
  induction devs using List.reverseRecOn with
  | nil => simp [lastOfType]
  | append_singleton ds d ih =>
    rw [List.foldl_append, lastOfType_append]
    simp only [List.foldl_cons, List.foldl_nil]
    by_cases h : d.deviceType = VK_PHYSICAL_DEVICE_TYPE_INTEGRATED_GPU
    · by_cases h2 : d.deviceType = VK_PHYSICAL_DEVICE_TYPE_DISCRETE_GPU
      · rw [h] at h2
        cases h2
      · simp [selectUpdate, h, h2, ih]
    · by_cases h2 : d.deviceType = VK_PHYSICAL_DEVICE_TYPE_DISCRETE_GPU
      · simp [selectUpdate, h, h2]
      · simp [selectUpdate, h, h2, ih]

theorem lastOfType_some_iff (t : VkPhysicalDeviceType) (devs : List PhysicalDevice) :
    (∃ d, lastOfType t devs = some d) ↔ ∃ d ∈ devs, d.deviceType = t := by
  constructor
  · rintro ⟨d, hd⟩
    have h1 := List.find?_some hd
    have h2 := List.mem_of_find?_eq_some hd
    exact ⟨d, by simpa using h2, by simpa using h1⟩
  · rintro ⟨d, hd, ht⟩
    cases h : lastOfType t devs with
    | some x => exact ⟨x, rfl⟩
    | none =>
      have := List.find?_eq_none.mp h d (by simpa using hd)
      simp [ht] at this

theorem lastOfType_mem {t : VkPhysicalDeviceType} {devs : List PhysicalDevice}
    {d : PhysicalDevice} (h : lastOfType t devs = some d) : d ∈ devs ∧ d.deviceType = t := by
  have h1 := List.find?_some h
  have h2 := List.mem_of_find?_eq_some h
  exact ⟨by simpa using h2, by simpa using h1⟩

theorem find_set_same (m : HandleMap) (k v : Nat) : (m.set k v).find k = some v := by
  simp [HandleMap.set, HandleMap.find, List.lookup]

theorem lookup_filter_ne (m : List (Nat × Nat)) (k k' : Nat) (h : k' ≠ k) :
    (m.filter (fun e => e.1 != k)).lookup k' = m.lookup k' := by
  induction m with
  | nil => rfl
  | cons e es ih =>
    obtain ⟨a, b⟩ := e
    by_cases hak : a = k
    · subst hak
      have hk : (k' == a) = false := by simpa using h
      simp [List.filter_cons, List.lookup_cons, hk, ih]
    · simp [List.filter_cons, hak, List.lookup_cons, ih]

theorem find_set_other (m : HandleMap) (k k' v : Nat) (h : k' ≠ k) :
    (m.set k v).find k' = m.find k' := by
  have : (k' == k) = false := by simpa using h
  simp [HandleMap.set, HandleMap.find, List.lookup, this, lookup_filter_ne m k k' h]

theorem display_ne_null_iff (devs : List PhysicalDevice)
    (hdev : ∀ d ∈ devs, d.handle ≠ VK_NULL_HANDLE) :
    (devs.foldl selectUpdate ⟨VK_NULL_HANDLE, VK_NULL_HANDLE⟩).display ≠ VK_NULL_HANDLE ↔
      ∃ d ∈ devs, d.deviceType = VK_PHYSICAL_DEVICE_TYPE_INTEGRATED_GPU := by
  rw [fold_display, ← lastOfType_some_iff]
  cases h : lastOfType VK_PHYSICAL_DEVICE_TYPE_INTEGRATED_GPU devs with
  | none => simp
  | some d => simpa using hdev d (lastOfType_mem h).1

theorem render_ne_null_iff (devs : List PhysicalDevice)
    (hdev : ∀ d ∈ devs, d.handle ≠ VK_NULL_HANDLE) :
    (devs.foldl selectUpdate ⟨VK_NULL_HANDLE, VK_NULL_HANDLE⟩).render ≠ VK_NULL_HANDLE ↔
      ∃ d ∈ devs, d.deviceType = VK_PHYSICAL_DEVICE_TYPE_DISCRETE_GPU := by
  rw [fold_render, ← lastOfType_some_iff]
  cases h : lastOfType VK_PHYSICAL_DEVICE_TYPE_DISCRETE_GPU devs with
  | none => simp
  | some d => simpa using hdev d (lastOfType_mem h).1

theorem createInstance_fail (env : Env) (chain : List LayerCreateInfo) (inst : Nat)
    (g : Globals)
    (hdev : ∀ d ∈ env.physicalDevices, d.handle ≠ VK_NULL_HANDLE)
    (hno : ¬ hasBothTypes env.physicalDevices) :
    PrimusVK_CreateInstance env chain inst g =
      Except.ok (VK_ERROR_INITIALIZATION_FAILED, g) := by
  unfold PrimusVK_CreateInstance
  cases hl : findLinkInfo VkStructureType.VK_STRUCTURE_TYPE_LOADER_INSTANCE_CREATE_INFO chain with
  | none => rfl
  | some c =>
    have hnull : (env.physicalDevices.foldl selectUpdate
        ⟨VK_NULL_HANDLE, VK_NULL_HANDLE⟩).display = VK_NULL_HANDLE ∨
        (env.physicalDevices.foldl selectUpdate
        ⟨VK_NULL_HANDLE, VK_NULL_HANDLE⟩).render = VK_NULL_HANDLE := by
      by_contra hc
      push_neg at hc
      exact hno ⟨(display_ne_null_iff _ hdev).mp hc.1, (render_ne_null_iff _ hdev).mp hc.2⟩
    simp only [selectDevices, selectDevices_fold env _ hdev, bind, Except.bind]
    rw [if_pos hnull]

theorem createInstance_ok (env : Env) (chain : List LayerCreateInfo) (inst : Nat)
    (g : Globals)
    (hlink : (findLinkInfo VkStructureType.VK_STRUCTURE_TYPE_LOADER_INSTANCE_CREATE_INFO
      chain).isSome)
    (hdev : ∀ d ∈ env.physicalDevices, d.handle ≠ VK_NULL_HANDLE)
    (hinst : inst ≠ VK_NULL_HANDLE)
    (r d : PhysicalDevice)
    (hr : lastOfType VK_PHYSICAL_DEVICE_TYPE_DISCRETE_GPU env.physicalDevices = some r)
    (hd : lastOfType VK_PHYSICAL_DEVICE_TYPE_INTEGRATED_GPU env.physicalDevices = some d) :
    PrimusVK_CreateInstance env chain inst g =
      Except.ok (VK_SUCCESS,
        { g with
          render_to_display := g.render_to_display.set (env.key r.handle) d.handle
          the_instance := inst
          instance_dispatch := env.key inst :: g.instance_dispatch }) := by
  unfold PrimusVK_CreateInstance
  cases hl : findLinkInfo VkStructureType.VK_STRUCTURE_TYPE_LOADER_INSTANCE_CREATE_INFO chain with
  | none => simp [hl] at hlink
  | some c =>
    have h1 : (env.physicalDevices.foldl selectUpdate
        ⟨VK_NULL_HANDLE, VK_NULL_HANDLE⟩).display = d.handle := by
      rw [fold_display, hd]; rfl
    have h2 : (env.physicalDevices.foldl selectUpdate
        ⟨VK_NULL_HANDLE, VK_NULL_HANDLE⟩).render = r.handle := by
      rw [fold_render, hr]; rfl
    have hdn : d.handle ≠ VK_NULL_HANDLE := hdev d (lastOfType_mem hd).1
    have hrn : r.handle ≠ VK_NULL_HANDLE := hdev r (lastOfType_mem hr).1
    simp only [selectDevices, selectDevices_fold env _ hdev, bind, Except.bind, h1, h2]
    rw [if_neg (by simp [hdn, hrn])]
    simp [getKey_ok env _ hdn, getKey_ok env _ hrn, getKey_ok env _ hinst]

/-- C1: with the link info present, valid (non-null) handles and a created
instance, `PrimusVK_CreateInstance` succeeds and writes a pairing of a discrete
with an integrated adapter if and only if the enumeration holds an adapter of
each of the two types; on every enumeration that lacks one of them (the empty
one included) it returns `VK_ERROR_INITIALIZATION_FAILED` and leaves the
globals as they were. -/
theorem C1_topology_pairing_iff (env : Env) (chain : List LayerCreateInfo) (inst : Nat)
    (g : Globals)
    (hlink : (findLinkInfo VkStructureType.VK_STRUCTURE_TYPE_LOADER_INSTANCE_CREATE_INFO
      chain).isSome)
    (hdev : ∀ d ∈ env.physicalDevices, d.handle ≠ VK_NULL_HANDLE)
    (hinst : inst ≠ VK_NULL_HANDLE) :
    (hasBothTypes env.physicalDevices ↔
      ∃ g' r d, PrimusVK_CreateInstance env chain inst g = Except.ok (VK_SUCCESS, g') ∧
        r ∈ env.physicalDevices ∧ r.deviceType = VK_PHYSICAL_DEVICE_TYPE_DISCRETE_GPU ∧
        d ∈ env.physicalDevices ∧ d.deviceType = VK_PHYSICAL_DEVICE_TYPE_INTEGRATED_GPU ∧
        g'.render_to_display.find (env.key r.handle) = some d.handle) ∧
    (¬ hasBothTypes env.physicalDevices →
      PrimusVK_CreateInstance env chain inst g =
        Except.ok (VK_ERROR_INITIALIZATION_FAILED, g)) := by
  refine ⟨⟨?_, ?_⟩, createInstance_fail env chain inst g hdev⟩
  · rintro ⟨hi, hd⟩
    obtain ⟨d, hd'⟩ := (lastOfType_some_iff _ _).mpr hi
    obtain ⟨r, hr'⟩ := (lastOfType_some_iff _ _).mpr hd
    refine ⟨_, r, d, createInstance_ok env chain inst g hlink hdev hinst r d hr' hd',
      (lastOfType_mem hr').1, (lastOfType_mem hr').2, (lastOfType_mem hd').1,
      (lastOfType_mem hd').2, ?_⟩
    exact find_set_same _ _ _
  · rintro ⟨g', r, d, hok, hr, hrt, hd, hdt, _⟩
    exact ⟨⟨d, hd, hdt⟩, ⟨r, hr, hrt⟩⟩

/-- C1 at the enumeration `twoIntegrated` and at the empty enumeration. -/
theorem C1_topology_pairing_iff_witness :
    (hasBothTypes twoIntegrated ↔
      ∃ g' r d, PrimusVK_CreateInstance (sampleEnv twoIntegrated) instanceChain 7 Globals.init
          = Except.ok (VK_SUCCESS, g') ∧
        r ∈ twoIntegrated ∧ r.deviceType = VK_PHYSICAL_DEVICE_TYPE_DISCRETE_GPU ∧
        d ∈ twoIntegrated ∧ d.deviceType = VK_PHYSICAL_DEVICE_TYPE_INTEGRATED_GPU ∧
        g'.render_to_display.find ((sampleEnv twoIntegrated).key r.handle) = some d.handle) ∧
    PrimusVK_CreateInstance (sampleEnv []) instanceChain 7 Globals.init =
      Except.ok (VK_ERROR_INITIALIZATION_FAILED, Globals.init) :=
  ⟨(C1_topology_pairing_iff (sampleEnv twoIntegrated) instanceChain 7 Globals.init
      (by decide) (by decide) (by decide)).1,
    (C1_topology_pairing_iff (sampleEnv []) instanceChain 7 Globals.init
      (by decide) (by decide) (by decide)).2 (by simp [hasBothTypes, sampleEnv])⟩

/-- C2, refuted: on the enumeration `twoIntegrated` the first integrated
adapter is 11 and the first discrete one is 13, and the entry written for the
key of 13 is the adapter 12, the second integrated one. -/
theorem C2_first_match_counterexample :
    hasBothTypes twoIntegrated ∧
    (specFirstOfType VK_PHYSICAL_DEVICE_TYPE_DISCRETE_GPU twoIntegrated).map
      (fun d => d.handle) = some 13 ∧
    (specFirstOfType VK_PHYSICAL_DEVICE_TYPE_INTEGRATED_GPU twoIntegrated).map
      (fun d => d.handle) = some 11 ∧
    ∃ g', PrimusVK_CreateInstance (sampleEnv twoIntegrated) instanceChain 7 Globals.init
        = Except.ok (VK_SUCCESS, g') ∧
      g'.render_to_display.find ((sampleEnv twoIntegrated).key 13) = some 12 ∧
      g'.render_to_display.find ((sampleEnv twoIntegrated).key 13) ≠ some 11 := by
  refine ⟨⟨⟨⟨11, _⟩, by decide, rfl⟩, ⟨⟨13, _⟩, by decide, rfl⟩⟩, by decide, by decide, ?_⟩
  exact ⟨_, rfl, by decide, by decide⟩

/-- C2, amended: when the enumeration holds an adapter of each type, the call
succeeds and the entry it writes maps the key of the last adapter reported as
discrete to the last adapter reported as integrated; the entries under other
keys are not touched. -/
theorem C2_last_match_wins (env : Env) (chain : List LayerCreateInfo) (inst : Nat)
    (g : Globals)
    (hlink : (findLinkInfo VkStructureType.VK_STRUCTURE_TYPE_LOADER_INSTANCE_CREATE_INFO
      chain).isSome)
    (hdev : ∀ d ∈ env.physicalDevices, d.handle ≠ VK_NULL_HANDLE)
    (hinst : inst ≠ VK_NULL_HANDLE)
    (hboth : hasBothTypes env.physicalDevices) :
    ∃ g' r d,
      lastOfType VK_PHYSICAL_DEVICE_TYPE_DISCRETE_GPU env.physicalDevices = some r ∧
      lastOfType VK_PHYSICAL_DEVICE_TYPE_INTEGRATED_GPU env.physicalDevices = some d ∧
      PrimusVK_CreateInstance env chain inst g = Except.ok (VK_SUCCESS, g') ∧
      g'.render_to_display.find (env.key r.handle) = some d.handle ∧
      ∀ k, k ≠ env.key r.handle → g'.render_to_display.find k = g.render_to_display.find k := by
  obtain ⟨d, hd⟩ := (lastOfType_some_iff _ _).mpr hboth.1
  obtain ⟨r, hr⟩ := (lastOfType_some_iff _ _).mpr hboth.2
  exact ⟨_, r, d, hr, hd, createInstance_ok env chain inst g hlink hdev hinst r d hr hd,
    find_set_same _ _ _, fun k hk => find_set_other _ _ _ _ hk⟩

/-- C2, amended, at the enumeration `twoIntegrated`. -/
theorem C2_last_match_wins_witness :
    ∃ g' r d,
      lastOfType VK_PHYSICAL_DEVICE_TYPE_DISCRETE_GPU twoIntegrated = some r ∧
      lastOfType VK_PHYSICAL_DEVICE_TYPE_INTEGRATED_GPU twoIntegrated = some d ∧
      PrimusVK_CreateInstance (sampleEnv twoIntegrated) instanceChain 7 Globals.init
        = Except.ok (VK_SUCCESS, g') ∧
      g'.render_to_display.find ((sampleEnv twoIntegrated).key r.handle) = some d.handle ∧
      ∀ k, k ≠ (sampleEnv twoIntegrated).key r.handle →
        g'.render_to_display.find k = Globals.init.render_to_display.find k :=
  C2_last_match_wins (sampleEnv twoIntegrated) instanceChain 7 Globals.init
    (by decide) (by decide) (by decide)
    ⟨⟨⟨11, _⟩, by decide, rfl⟩, ⟨⟨13, _⟩, by decide, rfl⟩⟩

/-! ## Memory-type selection -/

theorem scanTest_step (mem : VkPhysicalDeviceMemoryProperties) (req n : Nat) (sel : Int)
    (hn : n < mem.memoryTypes.length)
    (hinv : selectsLeast mem.memoryTypes req n sel) :
    ∃ t, scanTest sel mem n req = Except.ok t ∧
      selectsLeast mem.memoryTypes req (n + 1) (if t then (n : Int) else sel) := by
  have hget : mem.memoryTypes[n]? = some (mem.memoryTypes[n]) := List.getElem?_eq_getElem hn
  rcases hinv with ⟨hs, hall⟩ | ⟨j, f, hs, hj, hf, hreq, hmin⟩
  · subst hs
    refine ⟨decide (mem.memoryTypes[n] &&& req = req), ?_, ?_⟩
    · simp [scanTest, flagsAt, hget, bind, Except.bind]
    · by_cases hc : mem.memoryTypes[n] &&& req = req
      · simp only [hc, decide_True, if_true]
        exact Or.inr ⟨n, _, rfl, Nat.lt_succ_self n, hget, hc, hall⟩
      · simp only [hc, decide_False]
        refine Or.inl ⟨rfl, ?_⟩
        intro i hi f hf
        rcases Nat.lt_succ_iff_lt_or_eq.mp hi with h | h
        · exact hall i h f hf
        · subst h
          rw [hget] at hf
          cases hf
          exact hc
  · have hne : sel ≠ -1 := by omega
    refine ⟨false, ?_, ?_⟩
    · simp [scanTest, hne]
    · exact Or.inr ⟨j, f, hs, Nat.lt_succ_of_lt hj, hf, hreq, hmin⟩

theorem displayScan_prefix (mem : VkPhysicalDeviceMemoryProperties) (n : Nat)
    (hn : n ≤ mem.memoryTypes.length) :
    ∃ s, (List.range n).foldlM (displayScanStep mem) (-1) = Except.ok s ∧
      selectsLeast mem.memoryTypes host_mem n s := by
  induction n with
  | zero =>
    exact ⟨-1, rfl, Or.inl ⟨rfl, fun j hj => absurd hj (Nat.not_lt_zero j)⟩⟩
  | succ n ih =>
    obtain ⟨s, hs, hinv⟩ := ih (Nat.le_of_succ_le hn)
    obtain ⟨t, ht, hinv'⟩ := scanTest_step mem host_mem n s hn hinv
    refine ⟨if t then (n : Int) else s, ?_, hinv'⟩
    rw [List.range_succ, List.foldlM_append, hs]
    simp [displayScanStep, ht, bind, Except.bind, pure, Except.pure]

theorem renderScan_prefix (mem : VkPhysicalDeviceMemoryProperties) (n : Nat)
    (hn : n ≤ mem.memoryTypes.length) :
    ∃ s, (List.range n).foldlM (renderScanStep mem) (-1, -1) = Except.ok s ∧
      selectsLeast mem.memoryTypes host_mem n s.1 ∧
      selectsLeast mem.memoryTypes local_mem n s.2 := by
  induction n with
  | zero =>
    exact ⟨(-1, -1), rfl, Or.inl ⟨rfl, fun j hj => absurd hj (Nat.not_lt_zero j)⟩,
      Or.inl ⟨rfl, fun j hj => absurd hj (Nat.not_lt_zero j)⟩⟩
  | succ n ih =>
    obtain ⟨s, hs, hinv1, hinv2⟩ := ih (Nat.le_of_succ_le hn)
    obtain ⟨t1, ht1, hinv1'⟩ := scanTest_step mem host_mem n s.1 hn hinv1
    obtain ⟨t2, ht2, hinv2'⟩ := scanTest_step mem local_mem n s.2 hn hinv2
    refine ⟨(if t1 then (n : Int) else s.1, if t2 then (n : Int) else s.2), ?_, hinv1', hinv2'⟩
    rw [List.range_succ, List.foldlM_append, hs]
    cases t1 <;> cases t2 <;>
      simp [renderScanStep, ht1, ht2, bind, Except.bind, pure, Except.pure]

/-- C10: on a memory table whose `memoryTypeCount` does not exceed the array,
each of the three scans of `PrimusVK_CreateSwapchainKHR` (render host-visible
and coherent, render device-local, display host-visible and coherent) returns,
and selects the least index below `memoryTypeCount` whose flags contain every
required bit, or `-1` exactly when no such index exists. -/
theorem C10_memory_scan_least (rmem dmem : VkPhysicalDeviceMemoryProperties)
    (hr : rmem.memoryTypeCount ≤ rmem.memoryTypes.length)
    (hd : dmem.memoryTypeCount ≤ dmem.memoryTypes.length) :
    ∃ rs ds, renderScan rmem = Except.ok rs ∧ displayScan dmem = Except.ok ds ∧
      selectsLeast rmem.memoryTypes host_mem rmem.memoryTypeCount rs.1 ∧
      selectsLeast rmem.memoryTypes local_mem rmem.memoryTypeCount rs.2 ∧
      selectsLeast dmem.memoryTypes host_mem dmem.memoryTypeCount ds := by
  obtain ⟨rs, hrs, h1, h2⟩ := renderScan_prefix rmem rmem.memoryTypeCount hr
  obtain ⟨ds, hds, h3⟩ := displayScan_prefix dmem dmem.memoryTypeCount hd
  exact ⟨rs, ds, hrs, hds, h1, h2, h3⟩

/-- C10 at the table `sampleMem`, where host memory is type 2 and local memory
type 0, and at a table without a host-visible and coherent type. -/
theorem C10_memory_scan_least_witness :
    ∃ rs ds, renderScan sampleMem = Except.ok rs ∧
      displayScan ⟨2, [1, 2]⟩ = Except.ok ds ∧
      rs = (2, 0) ∧ ds = -1 ∧
      selectsLeast sampleMem.memoryTypes host_mem sampleMem.memoryTypeCount rs.1 ∧
      selectsLeast sampleMem.memoryTypes local_mem sampleMem.memoryTypeCount rs.2 ∧
      selectsLeast [1, 2] host_mem 2 ds := by
  obtain ⟨rs, ds, h1, h2, h3, h4, h5⟩ :=
    C10_memory_scan_least sampleMem ⟨2, [1, 2]⟩ (by decide) (by decide)
  have e1 : renderScan sampleMem = Except.ok (2, 0) := rfl
  have e2 : displayScan ⟨2, [1, 2]⟩ = Except.ok (-1) := rfl
  rw [e1] at h1
  rw [e2] at h2
  cases h1
  cases h2
  exact ⟨_, _, e1, e2, rfl, rfl, h3, h4, h5⟩

/-! ## Secondary context initializer -/

@[simp] theorem emit_trace (w : World) (e : Event) : (w.emit e).trace = w.trace ++ [e] := rfl

@[simp] theorem fresh_trace (w : World) : w.fresh.2.trace = w.trace := rfl

@[simp] theorem answer_trace (w : World) : w.answer.2.trace = w.trace := by
  unfold World.answer
  split <;> rfl

theorem join_joined (env : Env) (c c1 : CreateOtherDevice) (g g1 : Globals) (w w1 : World)
    (h : c.join env g w = Except.ok (c1, g1, w1)) : c1.joined = true := by
  unfold CreateOtherDevice.join at h
  split at h
  · rename_i hj
    cases h
    exact hj
  · dsimp only at h
    split at h
    · cases h
      rfl
    · cases ht : c.run env g w.answer.2 with
      | error e => simp [ht, bind, Except.bind] at h
      | ok t =>
        simp only [ht, bind, Except.bind] at h
        cases h
        rfl

/-- C7: once a call of `join` has returned, a second call returns as well,
hands back the same object (so `display_gpu` and `joined` are what they were)
and the same globals, and adds to the log only the message that the second
join is refused: no `pthread_join` is made. -/
theorem C7_join_idempotent (env : Env) (c c1 : CreateOtherDevice) (g g1 : Globals)
    (w w1 : World) (h : c.join env g w = Except.ok (c1, g1, w1)) :
    c1.join env g1 w1 =
        Except.ok (c1, g1, w1.emit (Event.print Message.refusingSecondJoin)) ∧
      c1.joined = true ∧
      threadsJoined (w1.emit (Event.print Message.refusingSecondJoin)) = threadsJoined w1 := by
  have hj := join_joined env c c1 g g1 w w1 h
  refine ⟨?_, hj, ?_⟩
  · unfold CreateOtherDevice.join
    simp [hj]
  · simp [threadsJoined, List.countP_append, List.countP_cons, isThreadJoin]


/-- C7 at the initializer of `sampleDevice`: the first `join` runs the thread
and yields the display context 1003, the second changes nothing. -/
theorem C7_join_idempotent_witness :
    ∃ c1 g1 w1,
      sampleCod.join (sampleEnv sampleDevs) sampleDevice.1 sampleDevice.2
        = Except.ok (c1, g1, w1) ∧
      c1.display_gpu = 1003 ∧
      (c1.join (sampleEnv sampleDevs) g1 w1 =
          Except.ok (c1, g1, w1.emit (Event.print Message.refusingSecondJoin)) ∧
        c1.joined = true ∧
        threadsJoined (w1.emit (Event.print Message.refusingSecondJoin)) = threadsJoined w1) :=
  ⟨_, _, _, rfl, rfl,
    C7_join_idempotent (sampleEnv sampleDevs) sampleCod _ sampleDevice.1 _ sampleDevice.2 _ rfl⟩

theorem threadsStarted_emit (w : World) (e : Event) :
    threadsStarted (w.emit e) = threadsStarted w + (if isThreadStart e then 1 else 0) := by
  simp [threadsStarted, List.countP_append, List.countP_cons]

theorem threadsStarted_fresh (w : World) : threadsStarted w.fresh.2 = threadsStarted w := rfl

theorem threadsStarted_answer (w : World) : threadsStarted w.answer.2 = threadsStarted w := by
  simp [threadsStarted]

theorem start_threads (c : CreateOtherDevice) (w : World) :
    threadsStarted (c.start w).2 = threadsStarted w + 1 := by
  unfold CreateOtherDevice.start
  dsimp only
  split <;>
    simp [threadsStarted_emit, threadsStarted_answer, threadsStarted_fresh, isThreadStart]

theorem createDevice_later (env : Env) (pd : Nat) (chain : List LayerCreateInfo) (p : Nat)
    (g : Globals) (w : World) (hfirst : g.first = false)
    (r : VkResult × Nat) (g1 : Globals) (w1 : World)
    (h : PrimusVK_CreateDevice env pd chain p g w = Except.ok (r, g1, w1)) :
    g1.cod = g.cod ∧ g1.first = false ∧ threadsStarted w1 = threadsStarted w := by
  unfold PrimusVK_CreateDevice at h
  cases hl : findLinkInfo VkStructureType.VK_STRUCTURE_TYPE_LOADER_DEVICE_CREATE_INFO chain with
  | none =>
    simp only [hl] at h
    cases h
    exact ⟨rfl, hfirst, rfl⟩
  | some x =>
    simp only [hl, hfirst, bind, Except.bind] at h
    cases hk : GetKey env (if w.fresh.2.answer.1 = VK_SUCCESS then w.fresh.1 else p) with
    | error e => simp [hk] at h
    | ok kd =>
      simp [hk] at h
      obtain ⟨_, hg, hw⟩ := h
      subst hg
      subst hw
      refine ⟨rfl, rfl, ?_⟩
      simp [threadsStarted_emit, threadsStarted_answer, threadsStarted_fresh, isThreadStart]

theorem start_fields (c : CreateOtherDevice) (w : World) :
    (c.start w).1.render_dev = c.render_dev ∧ (c.start w).1.render_gpu = c.render_gpu ∧
      (c.start w).1.display_dev = c.display_dev ∧ (c.start w).1.joined = c.joined := by
  unfold CreateOtherDevice.start
  dsimp only
  split <;> exact ⟨rfl, rfl, rfl, rfl⟩

theorem createDevice_first (env : Env) (pd : Nat) (chain : List LayerCreateInfo) (p : Nat)
    (g : Globals) (w : World) (hfirst : g.first = true)
    (hlink : (findLinkInfo VkStructureType.VK_STRUCTURE_TYPE_LOADER_DEVICE_CREATE_INFO
      chain).isSome)
    (r : VkResult × Nat) (g1 : Globals) (w1 : World)
    (h : PrimusVK_CreateDevice env pd chain p g w = Except.ok (r, g1, w1)) :
    (∃ c, g1.cod = some c ∧ c.render_dev = pd ∧ c.render_gpu = r.2) ∧ g1.first = false ∧
      threadsStarted w1 = threadsStarted w + 1 := by
  unfold PrimusVK_CreateDevice at h
  cases hl : findLinkInfo VkStructureType.VK_STRUCTURE_TYPE_LOADER_DEVICE_CREATE_INFO chain with
  | none => simp [hl] at hlink
  | some x =>
    simp only [hl, hfirst, bind, Except.bind] at h
    cases hp : GetKey env pd with
    | error e => simp [hp] at h
    | ok kp =>
      cases hk : GetKey env (if w.fresh.2.answer.1 = VK_SUCCESS then w.fresh.1 else p) with
      | error e => simp [hp, hk] at h
      | ok kd =>
        simp [hp, hk] at h
        obtain ⟨hr, hg, hw⟩ := h
        subst hr
        subst hg
        subst hw
        refine ⟨⟨_, rfl, ?_, ?_⟩, rfl, ?_⟩
        · exact (start_fields _ _).1
        · exact (start_fields _ _).2.1
        · rw [start_threads]
          simp [threadsStarted_emit, threadsStarted_answer, threadsStarted_fresh, isThreadStart]


theorem createDevices_later (env : Env) (calls : List DeviceCall) (g : Globals) (w : World)
    (hfirst : g.first = false) (g' : Globals) (w' : World)
    (h : createDevices env calls g w = Except.ok (g', w')) :
    g'.cod = g.cod ∧ g'.first = false ∧ threadsStarted w' = threadsStarted w := by
  induction calls generalizing g w with
  | nil =>
    simp only [createDevices] at h
    cases h
    exact ⟨rfl, hfirst, rfl⟩
  | cons c rest ih =>
    simp only [createDevices, bind, Except.bind] at h
    cases hc : PrimusVK_CreateDevice env c.physicalDevice c.chain c.pDevice g w with
    | error e => simp [hc] at h
    | ok r =>
      obtain ⟨r1, g1, w1⟩ := r
      simp only [hc] at h
      obtain ⟨h1, h2, h3⟩ := createDevice_later env _ _ _ g w hfirst r1 g1 w1 hc
      obtain ⟨h4, h5, h6⟩ := ih g1 w1 h2 h
      exact ⟨h4.trans h1, h5, h6.trans h3⟩

theorem answer_quiet (w : World) (hq : w.answers = []) :
    w.answer = (VK_SUCCESS, w) := by
  unfold World.answer
  rw [hq]

theorem createDevice_returns (env : Env) (pd : Nat) (chain : List LayerCreateInfo) (p : Nat)
    (g : Globals) (w : World) (hpd : pd ≠ VK_NULL_HANDLE) (hq : w.answers = []) :
    ∃ r g1 w1, PrimusVK_CreateDevice env pd chain p g w = Except.ok (r, g1, w1) ∧
      w1.answers = [] := by
  unfold PrimusVK_CreateDevice
  cases hl : findLinkInfo VkStructureType.VK_STRUCTURE_TYPE_LOADER_DEVICE_CREATE_INFO chain with
  | none => exact ⟨_, _, _, rfl, hq⟩
  | some x =>
    have hq1 : w.fresh.2.answers = [] := hq
    have hfresh : w.fresh.1 ≠ VK_NULL_HANDLE := Nat.succ_ne_zero _
    cases hf : g.first with
    | false =>
      simp only [answer_quiet _ hq1, hf, bind, Except.bind, if_true, getKey_ok env _ hfresh]
      exact ⟨_, _, _, rfl, hq⟩
    | true =>
      simp only [answer_quiet _ hq1, hf, bind, Except.bind, if_true, getKey_ok env _ hfresh,
        getKey_ok env _ hpd]
      refine ⟨_, _, _, rfl, ?_⟩
      unfold CreateOtherDevice.start
      have hq2 : (w.fresh.2.emit (Event.vkCreateDevice pd w.fresh.1)).fresh.2.answers = [] := hq
      simp only [answer_quiet _ hq2]
      exact hq

theorem createDevices_returns (env : Env) (calls : List DeviceCall) (g : Globals) (w : World)
    (hpd : ∀ c ∈ calls, c.physicalDevice ≠ VK_NULL_HANDLE) (hq : w.answers = []) :
    ∃ g' w', createDevices env calls g w = Except.ok (g', w') := by
  induction calls generalizing g w with
  | nil => exact ⟨g, w, rfl⟩
  | cons c rest ih =>
    obtain ⟨r, g1, w1, h1, hq1⟩ := createDevice_returns env c.physicalDevice c.chain c.pDevice
      g w (hpd c (List.mem_cons_self _ _)) hq
    obtain ⟨g', w', h'⟩ := ih g1 w1 (fun x hx => hpd x (List.mem_cons_of_mem _ hx)) hq1
    refine ⟨g', w', ?_⟩
    simp only [createDevices, bind, Except.bind, h1]
    exact h'

/-- C8: take a sequence of `PrimusVK_CreateDevice` calls that starts with `first`
set and whose first call passes the link-info check.  If the adapters passed
are not null and the driver reports no failure, the sequence returns.  And
whenever it returns, the first call has constructed a `CreateOtherDevice` for
its adapter, stored it in `cod` and started it, and after the whole sequence
`cod` is still that object and the number of threads started is one more than
before the sequence: no later call constructs or starts another initializer or
replaces the stored one. -/
theorem C8_single_initializer (env : Env) (c0 : DeviceCall) (rest : List DeviceCall)
    (g : Globals) (w : World) (hfirst : g.first = true)
    (hlink : (findLinkInfo VkStructureType.VK_STRUCTURE_TYPE_LOADER_DEVICE_CREATE_INFO
      c0.chain).isSome) :
    ((∀ c ∈ c0 :: rest, c.physicalDevice ≠ VK_NULL_HANDLE) → w.answers = [] →
      ∃ g' w', createDevices env (c0 :: rest) g w = Except.ok (g', w')) ∧
    ∀ g' w', createDevices env (c0 :: rest) g w = Except.ok (g', w') →
      ∃ r1 g1 w1 cod1,
        PrimusVK_CreateDevice env c0.physicalDevice c0.chain c0.pDevice g w
          = Except.ok (r1, g1, w1) ∧
        g1.cod = some cod1 ∧ cod1.render_dev = c0.physicalDevice ∧
        threadsStarted w1 = threadsStarted w + 1 ∧
        g'.cod = some cod1 ∧ g'.first = false ∧
        threadsStarted w' = threadsStarted w + 1 := by
  refine ⟨fun hpd hq => createDevices_returns env _ g w hpd hq, ?_⟩
  intro g' w' hrun
  simp only [createDevices, bind, Except.bind] at hrun
  cases hc : PrimusVK_CreateDevice env c0.physicalDevice c0.chain c0.pDevice g w with
  | error e => simp [hc] at hrun
  | ok r =>
    obtain ⟨r1, g1, w1⟩ := r
    simp only [hc] at hrun
    obtain ⟨⟨cod1, hcod, hdev, _⟩, hf, ht⟩ :=
      createDevice_first env _ _ _ g w hfirst hlink r1 g1 w1 hc
    obtain ⟨h4, h5, h6⟩ := createDevices_later env rest g1 w1 hf g' w' hrun
    exact ⟨r1, g1, w1, cod1, rfl, hcod, hdev, ht, h4.trans hcod, h5, h6.trans ht⟩

/-- C8 at the three calls of `sampleCalls`, made after instance creation. -/
theorem C8_single_initializer_witness :
    ∃ g' w', createDevices (sampleEnv sampleDevs) sampleCalls sampleInstance sampleWorld
        = Except.ok (g', w') ∧
      ∃ r1 g1 w1 cod1,
        PrimusVK_CreateDevice (sampleEnv sampleDevs) 21 deviceChain 0 sampleInstance sampleWorld
          = Except.ok (r1, g1, w1) ∧
        g1.cod = some cod1 ∧ cod1.render_dev = 21 ∧
        threadsStarted w1 = threadsStarted sampleWorld + 1 ∧
        g'.cod = some cod1 ∧ g'.first = false ∧
        threadsStarted w' = threadsStarted sampleWorld + 1 := by
  have hC := C8_single_initializer (sampleEnv sampleDevs) ⟨21, deviceChain, 0⟩
    [⟨22, deviceChain, 0⟩, ⟨21, deviceChain, 0⟩] sampleInstance sampleWorld rfl rfl
  obtain ⟨g', w', h⟩ := hC.1 (by decide) rfl
  exact ⟨g', w', h, hC.2 g' w' h⟩

/-! ## Steps that make no call of `CreateSwapchainKHR` -/

theorem grows_refl (w : World) : w.grows w := ⟨rfl, Nat.le_refl _⟩

theorem grows_trans {a b c : World} (h1 : a.grows b) (h2 : b.grows c) : a.grows c :=
  ⟨h2.1.trans h1.1, Nat.le_trans h1.2 h2.2⟩

theorem grows_emit (w : World) (e : Event) (he : asSwapchainCall e = none) :
    w.grows (w.emit e) := by
  refine ⟨?_, Nat.le_refl _⟩
  simp [swapchainCalls, List.filterMap_append, he]

theorem grows_fresh (w : World) : w.grows w.fresh.2 := ⟨rfl, Nat.le_succ _⟩

theorem grows_answer (w : World) : w.grows w.answer.2 := by
  unfold World.answer
  split
  · exact grows_refl w
  · exact ⟨rfl, Nat.le_refl _⟩

theorem grows_check {α : Type} (x : World → (VkResult × α) × World)
    (hx : ∀ w : World, w.grows (x w).2) (w : World) : w.grows (VK_CHECK_RESULT x w).2 := by
  unfold VK_CHECK_RESULT
  dsimp only
  split
  · exact grows_trans (grows_trans (hx w) (hx _)) (grows_emit _ _ rfl)
  · exact hx w

theorem grows_created (w : World) (e : Nat → Event) (he : ∀ n, asSwapchainCall (e n) = none) :
    w.grows (w.fresh.2.answer.2.emit (e w.fresh.1)) :=
  grows_trans (grows_trans (grows_fresh w) (grows_answer _)) (grows_emit _ _ (he _))

theorem grows_called (w : World) (e : Event) (he : asSwapchainCall e = none) :
    w.grows (w.answer.2.emit e) :=
  grows_trans (grows_answer w) (grows_emit _ _ he)

theorem grows_vkCreateImage (device : Nat) (ci : VkImageCreateInfo) (p : Nat) (w : World) :
    w.grows (vkCreateImage device ci p w).2 :=
  grows_trans (grows_trans (grows_fresh w) (grows_answer _))
    (grows_emit _ (Event.vkCreateImage _ _ _) rfl)

theorem grows_vkAllocateMemory (device idx p : Nat) (w : World) :
    w.grows (vkAllocateMemory device idx p w).2 :=
  grows_trans (grows_trans (grows_fresh w) (grows_answer _))
    (grows_emit _ (Event.vkAllocateMemory _ _ _) rfl)

theorem grows_vkBindImageMemory (device img mem : Nat) (w : World) :
    w.grows (vkBindImageMemory device img mem w).2 :=
  grows_called w (Event.vkBindImageMemory device img mem) rfl

theorem grows_vkCreateCommandPool (device p : Nat) (w : World) :
    w.grows (vkCreateCommandPool device p w).2 :=
  grows_trans (grows_trans (grows_fresh w) (grows_answer _))
    (grows_emit _ (Event.vkCreateCommandPool _ _) rfl)

theorem grows_vkAllocateCommandBuffers (device pool p : Nat) (w : World) :
    w.grows (vkAllocateCommandBuffers device pool p w).2 :=
  grows_trans (grows_trans (grows_fresh w) (grows_answer _))
    (grows_emit _ (Event.vkAllocateCommandBuffers _ _ _) rfl)

theorem grows_vkBeginCommandBuffer (cmd : Nat) (w : World) :
    w.grows (vkBeginCommandBuffer cmd w).2 :=
  grows_called w (Event.vkBeginCommandBuffer cmd) rfl

theorem grows_vkEndCommandBuffer (cmd : Nat) (w : World) :
    w.grows (vkEndCommandBuffer cmd w).2 :=
  grows_called w (Event.vkEndCommandBuffer cmd) rfl

theorem grows_vkQueueSubmit (queue : Nat) (info : VkSubmitInfo) (fence : Nat) (w : World) :
    w.grows (vkQueueSubmit queue info fence w).2 :=
  grows_called w (Event.vkQueueSubmit queue info fence) rfl

theorem grows_vkCreateFence (device pFence : Nat) (w : World) :
    w.grows (vkCreateFence device pFence w).2 :=
  grows_trans (grows_trans (grows_fresh w) (grows_answer _))
    (grows_emit _ (Event.vkCreateFence _ _) rfl)

theorem grows_vkWaitForFences (device fence timeout : Nat) (w : World) :
    w.grows (vkWaitForFences device fence timeout w).2 :=
  grows_called w (Event.vkWaitForFences device fence timeout) rfl

theorem grows_requirements (device img : Nat) (w : World) :
    w.grows (w.emit (Event.vkGetImageMemoryRequirements device img)) :=
  grows_emit w _ rfl

theorem grows_fenceDrop (f : Fence) (w : World) : w.grows (f.drop w) :=
  grows_emit w _ rfl

theorem grows_commandDrop (c : CommandBuffer) (w : World) : w.grows (c.drop w) :=
  grows_emit w _ rfl

theorem grows_image (device : Nat) (size : VkExtent2D) (tiling usage : Nat) (idx : Int)
    (w : World) : w.grows (FramebufferImage.new device size tiling usage idx w).2 := by
  unfold FramebufferImage.new
  dsimp only
  exact grows_trans (grows_trans (grows_trans
    (grows_check _ (grows_vkCreateImage _ _ _) w) (grows_requirements _ _ _))
    (grows_check _ (grows_vkAllocateMemory _ _ _) _))
    (grows_check _ (grows_vkBindImageMemory _ _ _) _)

theorem grows_map (img : FramebufferImage) (w : World) : w.grows (img.map w).2 :=
  grows_trans (grows_fresh w) (grows_emit _ _ rfl)

theorem grows_commandBuffer (device : Nat) (w : World) :
    w.grows (CommandBuffer.new device w).2 := by
  unfold CommandBuffer.new
  dsimp only
  exact grows_trans (grows_trans
    (grows_check _ (grows_vkCreateCommandPool _ _) w)
    (grows_check _ (grows_vkAllocateCommandBuffers _ _ _) _))
    (grows_check _ (grows_vkBeginCommandBuffer _) _)

theorem grows_barrier (c : CommandBuffer) (image a1 a2 : Nat) (l1 l2 : VkImageLayout)
    (s1 s2 : Nat) (w : World) :
    w.grows (c.insertImageMemoryBarrier image a1 a2 l1 l2 s1 s2 w) :=
  grows_emit _ _ rfl

theorem grows_end (c : CommandBuffer) (w : World) : w.grows (c.end_ w) :=
  grows_check _ (grows_vkEndCommandBuffer _) w

theorem grows_submit (c : CommandBuffer) (queue fence : Nat) (w : World) :
    w.grows (c.submit queue fence w) :=
  grows_check _ (grows_vkQueueSubmit _ _ _) w

theorem grows_fence (dev : Nat) (w : World) : w.grows (Fence.new dev w).2 :=
  grows_check _ (grows_vkCreateFence _ _) w

theorem grows_await (f : Fence) (w : World) : w.grows (f.await w) :=
  grows_check _ (grows_vkWaitForFences _ _ _) w

theorem grows_createSlot (rg dg : Nat) (ext : VkExtent2D) (m1 m2 m3 : Int)
    (s : MySwapchain × World) (i : Nat) :
    s.2.grows (createSlot rg dg ext m1 m2 m3 s i).2 := by
  unfold createSlot
  dsimp only
  exact grows_trans (grows_trans (grows_trans (grows_trans (grows_trans (grows_trans
    (grows_trans (grows_trans (grows_trans (grows_trans (grows_trans (grows_trans
    (grows_image _ _ _ _ _ _) (grows_image _ _ _ _ _ _)) (grows_image _ _ _ _ _ _))
    (grows_map _ _)) (grows_map _ _)) (grows_commandBuffer _ _))
    (grows_barrier _ _ _ _ _ _ _ _ _)) (grows_end _ _)) (grows_fence _ _))
    (grows_submit _ _ _ _)) (grows_await _ _)) (grows_fenceDrop _ _)) (grows_commandDrop _ _)


theorem sameFrame_refl (a : MySwapchain) : a.sameFrame a :=
  ⟨rfl, rfl, rfl, rfl, rfl, rfl, rfl, rfl, rfl, rfl, rfl⟩

theorem sameFrame_trans {a b c : MySwapchain} (h1 : a.sameFrame b) (h2 : b.sameFrame c) :
    a.sameFrame c := by
  obtain ⟨a1, a2, a3, a4, a5, a6, a7, a8, a9, a10, a11⟩ := h1
  obtain ⟨b1, b2, b3, b4, b5, b6, b7, b8, b9, b10, b11⟩ := h2
  exact ⟨a1.trans b1, a2.trans b2, a3.trans b3, a4.trans b4, a5.trans b5, a6.trans b6,
    a7.trans b7, a8.trans b8, a9.trans b9, a10.trans b10, a11.trans b11⟩

theorem createSlot_sameFrame (rg dg : Nat) (ext : VkExtent2D) (m1 m2 m3 : Int)
    (s : MySwapchain × World) (i : Nat) :
    (createSlot rg dg ext m1 m2 m3 s i).1.sameFrame s.1 := by
  unfold createSlot
  dsimp only
  refine ⟨rfl, rfl, rfl, rfl, rfl, rfl, rfl, rfl, ?_, ?_, ?_⟩ <;> simp

theorem fold_createSlot (rg dg : Nat) (ext : VkExtent2D) (m1 m2 m3 : Int) (l : List Nat)
    (s : MySwapchain × World) :
    (l.foldl (createSlot rg dg ext m1 m2 m3) s).1.sameFrame s.1 ∧
      s.2.grows (l.foldl (createSlot rg dg ext m1 m2 m3) s).2 := by
  induction l generalizing s with
  | nil => exact ⟨sameFrame_refl _, grows_refl _⟩
  | cons i rest ih =>
    rw [List.foldl_cons]
    obtain ⟨h1, h2⟩ := ih (createSlot rg dg ext m1 m2 m3 s i)
    exact ⟨sameFrame_trans h1 (createSlot_sameFrame _ _ _ _ _ _ _ _),
      grows_trans (grows_createSlot _ _ _ _ _ _ _ _) h2⟩

theorem createSlots_frame (rg dg : Nat) (ext : VkExtent2D) (m1 m2 m3 : Int)
    (ch : MySwapchain) (w : World) :
    (createSlots rg dg ext m1 m2 m3 ch w).1.sameFrame ch ∧
      w.grows (createSlots rg dg ext m1 m2 m3 ch w).2 :=
  fold_createSlot rg dg ext m1 m2 m3 _ (ch, w)

theorem resize_nil_length {α : Type} (n : Nat) :
    (resize ([] : List (Option α)) n).length = n := by
  simp [resize]

theorem resize_nil {α : Type} (n : Nat) :
    resize ([] : List (Option α)) n = List.replicate n none := by
  simp [resize]

theorem grows_getDeviceQueue (env : Env) (device : Nat) (w : World) :
    w.grows (vkGetDeviceQueue env device w).2 :=
  grows_emit w _ rfl

theorem allocSwapchain_spec (env : Env) (rg dg : Nat) (info : VkSwapchainCreateInfoKHR)
    (w : World) :
    (allocSwapchain env rg dg info w).1.1 = w.nextHandle + 1 ∧
    w.grows (allocSwapchain env rg dg info w).2 ∧
    (allocSwapchain env rg dg info w).1.2.imgSize = info.imageExtent ∧
    (allocSwapchain env rg dg info w).1.2.display_commands
      = List.replicate info.minImageCount none ∧
    (allocSwapchain env rg dg info w).1.2.render_images.length = info.minImageCount ∧
    (allocSwapchain env rg dg info w).1.2.render_copy_images.length = info.minImageCount ∧
    (allocSwapchain env rg dg info w).1.2.display_src_images.length = info.minImageCount ∧
    (allocSwapchain env rg dg info w).1.2.display_device = dg ∧
    (allocSwapchain env rg dg info w).1.2.device = rg := by
  unfold allocSwapchain
  dsimp only
  refine ⟨rfl, ?_, rfl, resize_nil _, resize_nil_length _, resize_nil_length _,
    resize_nil_length _, rfl, rfl⟩
  exact grows_trans (grows_trans (grows_fresh w) (grows_getDeviceQueue _ _ _))
    (grows_getDeviceQueue _ _ _)


/-! ## What the initializer leaves alone -/

theorem bind_ok_inv {α β : Type} {x : Except Fault α} {f : α → Except Fault β} {b : β}
    (h : (x >>= f) = Except.ok b) : ∃ a, x = Except.ok a ∧ f a = Except.ok b := by
  cases x with
  | error e => cases h
  | ok a => exact ⟨a, rfl, h⟩

theorem enumerate_grows (env : Env) (g : Globals) (inst : Nat) (buf : Option (List Nat))
    (w : World) (r : VkResult × Nat × Option (List Nat)) (w1 : World)
    (h : PrimusVK_EnumeratePhysicalDevices env g inst buf w = Except.ok (r, w1)) :
    w.grows w1 := by
  unfold PrimusVK_EnumeratePhysicalDevices at h
  cases buf with
  | none =>
    simp only at h
    cases h
    exact grows_refl w
  | some b =>
    simp only at h
    obtain ⟨k, _, h⟩ := bind_ok_inv h
    obtain ⟨_, _, h⟩ := bind_ok_inv h
    repeat' split at h
    all_goals
      cases h <;> first
        | exact grows_answer _
        | exact grows_trans (grows_answer _) (grows_answer _)

theorem start_grows (c : CreateOtherDevice) (w : World) : w.grows (c.start w).2 := by
  unfold CreateOtherDevice.start
  dsimp only
  split
  · exact grows_trans (grows_created w (fun h => Event.pthread_create h) (fun _ => rfl))
      (grows_emit _ _ rfl)
  · exact grows_created w (fun h => Event.pthread_create h) (fun _ => rfl)

theorem createDevice_frame (env : Env) (pd : Nat) (chain : List LayerCreateInfo) (p : Nat)
    (g : Globals) (w : World) (r : VkResult × Nat) (g1 : Globals) (w1 : World)
    (h : PrimusVK_CreateDevice env pd chain p g w = Except.ok (r, g1, w1)) :
    g1.swapchains = g.swapchains ∧ w.grows w1 := by
  unfold PrimusVK_CreateDevice at h
  cases hl : findLinkInfo VkStructureType.VK_STRUCTURE_TYPE_LOADER_DEVICE_CREATE_INFO chain with
  | none =>
    simp only [hl] at h
    cases h
    exact ⟨rfl, grows_refl w⟩
  | some x =>
    simp only [hl] at h
    have hcreated : w.grows (w.fresh.2.answer.2.emit (Event.vkCreateDevice pd
        (if w.fresh.2.answer.1 = VK_SUCCESS then w.fresh.1 else p))) :=
      grows_trans (grows_trans (grows_fresh w) (grows_answer _)) (grows_emit _ _ rfl)
    split at h
    · obtain ⟨k, _, h⟩ := bind_ok_inv h
      obtain ⟨y, hy, h⟩ := bind_ok_inv h
      obtain ⟨kd, _, h⟩ := bind_ok_inv h
      cases hy
      cases h
      exact ⟨rfl, grows_trans hcreated (start_grows _ _)⟩
    · obtain ⟨y, hy, h⟩ := bind_ok_inv h
      obtain ⟨kd, _, h⟩ := bind_ok_inv h
      cases hy
      cases h
      exact ⟨rfl, hcreated⟩

theorem run_frame (env : Env) (c c1 : CreateOtherDevice) (g g1 : Globals) (w w1 : World)
    (h : c.run env g w = Except.ok (c1, g1, w1)) :
    g1.swapchains = g.swapchains ∧ w.grows w1 := by
  unfold CreateOtherDevice.run at h
  obtain ⟨_, _, h⟩ := bind_ok_inv h
  obtain ⟨e1, he1, h⟩ := bind_ok_inv h
  obtain ⟨e2, he2, h⟩ := bind_ok_inv h
  have g1w := enumerate_grows _ _ _ _ _ _ _ he1
  have g2w := enumerate_grows _ _ _ _ _ _ _ he2
  dsimp only at h
  split at h
  · split at h
    · cases h
    · obtain ⟨r, hr, h⟩ := bind_ok_inv h
      obtain ⟨_, _, h⟩ := bind_ok_inv h
      obtain ⟨_, _, h⟩ := bind_ok_inv h
      cases h
      obtain ⟨hs, hw⟩ := createDevice_frame _ _ _ _ _ _ _ _ _ hr
      exact ⟨hs, grows_trans (grows_trans g1w g2w) hw⟩
  · cases h

theorem join_frame (env : Env) (c c1 : CreateOtherDevice) (g g1 : Globals) (w w1 : World)
    (h : c.join env g w = Except.ok (c1, g1, w1)) :
    g1.swapchains = g.swapchains ∧ w.grows w1 := by
  unfold CreateOtherDevice.join at h
  split at h
  · cases h
    exact ⟨rfl, grows_emit _ (Event.print Message.refusingSecondJoin) rfl⟩
  · dsimp only at h
    split at h
    · cases h
      exact ⟨rfl, grows_trans (grows_trans (grows_answer w)
        (grows_emit _ (Event.pthread_join c.thread) rfl))
        (grows_emit _ (Event.print (Message.errorJoiningThread w.answer.1)) rfl)⟩
    · obtain ⟨t, ht, h⟩ := bind_ok_inv h
      cases h
      obtain ⟨hs, hw⟩ := run_frame env c t.1 g t.2.1 _ t.2.2 ht
      exact ⟨hs, grows_trans (grows_trans (grows_answer w) hw)
        (grows_emit _ (Event.pthread_join c.thread) rfl)⟩

theorem writeBack_swapchains (g g1 : Globals) (c : CreateOtherDevice) :
    (g.writeBack g1 c).swapchains = g1.swapchains ∧
      (g.writeBack g1 c).device_dispatch = g1.device_dispatch := by
  unfold Globals.writeBack
  split <;> exact ⟨rfl, rfl⟩


/-! ## Shadow swapchain: creation -/

theorem freshN_spec (n : Nat) (w : World) :
    (World.freshN n w).1.length = n ∧ w.grows (World.freshN n w).2 := by
  induction n generalizing w with
  | zero => exact ⟨rfl, grows_refl w⟩
  | succ n ih =>
    obtain ⟨h1, h2⟩ := ih w.fresh.2
    refine ⟨?_, ?_⟩
    · simp [World.freshN, h1]
    · exact grows_trans (grows_fresh w) h2

theorem swapchain_congr (g g1 : Globals) (hs : g1.swapchains = g.swapchains) (h : Nat) :
    g1.swapchain h = g.swapchain h := by
  unfold Globals.swapchain
  rw [hs]

theorem chainOld_congr (g g1 : Globals) (hs : g1.swapchains = g.swapchains)
    (x : VkSwapchainCreateInfoKHR) : chainOldSwapchain g1 x = chainOldSwapchain g x := by
  unfold chainOldSwapchain
  rw [swapchain_congr g g1 hs]

theorem chainOld_fields (g : Globals) (x info2 : VkSwapchainCreateInfoKHR)
    (h : chainOldSwapchain g x = Except.ok info2) :
    info2.minImageCount = x.minImageCount ∧ info2.imageExtent = x.imageExtent ∧
      info2.surface = x.surface ∧ info2.imageFormat = x.imageFormat ∧
      info2.queueFamilyIndexCount = x.queueFamilyIndexCount := by
  unfold chainOldSwapchain at h
  split at h
  · obtain ⟨ch, _, h⟩ := bind_ok_inv h
    cases h
    exact ⟨rfl, rfl, rfl, rfl, rfl⟩
  · cases h
    exact ⟨rfl, rfl, rfl, rfl, rfl⟩

theorem createBackend_spec (env : Env) (g : Globals) (dg : Nat)
    (info : VkSwapchainCreateInfoKHR) (n : Nat) (ch : MySwapchain) (w : World)
    (b : (VkResult × MySwapchain) × World)
    (h : createBackend env g dg info n ch w = Except.ok b) :
    b.1.2.sameFrame { ch with backend := b.1.2.backend, display_images := b.1.2.display_images } ∧
      b.1.2.render_images = ch.render_images ∧
      b.1.2.render_copy_images = ch.render_copy_images ∧
      b.1.2.display_src_images = ch.display_src_images ∧
      b.1.2.display_images.length = n ∧
      b.1.1 = w.answer.1 ∧
      swapchainCalls b.2 = swapchainCalls w ++ [(dg, info, b.1.2.backend)] ∧
      w.nextHandle ≤ b.2.nextHandle := by
  unfold createBackend at h
  obtain ⟨kd, _, h⟩ := bind_ok_inv h
  obtain ⟨_, _, h⟩ := bind_ok_inv h
  obtain ⟨kd2, _, h⟩ := bind_ok_inv h
  obtain ⟨_, _, h⟩ := bind_ok_inv h
  cases h
  dsimp only
  obtain ⟨hlen, hgrow⟩ := freshN_spec n
    ((w.answer.2.fresh.2.emit (Event.CreateSwapchainKHR dg info
      (if w.answer.1 = VK_SUCCESS then w.answer.2.fresh.1 else ch.backend))).emit
      (Event.GetSwapchainImagesKHR ch.display_device
        (if w.answer.1 = VK_SUCCESS then w.answer.2.fresh.1 else ch.backend)))
  have h0 : w.grows w.answer.2.fresh.2 := grows_trans (grows_answer w) (grows_fresh _)
  refine ⟨sameFrame_refl _, rfl, rfl, rfl, hlen, rfl, ?_, ?_⟩
  · have e1 : swapchainCalls (((World.freshN n
          ((w.answer.2.fresh.2.emit (Event.CreateSwapchainKHR dg info
            (if w.answer.1 = VK_SUCCESS then w.answer.2.fresh.1 else ch.backend))).emit
            (Event.GetSwapchainImagesKHR ch.display_device
              (if w.answer.1 = VK_SUCCESS then w.answer.2.fresh.1 else ch.backend)))).2).emit
          (Event.GetSwapchainImagesKHR ch.display_device
            (if w.answer.1 = VK_SUCCESS then w.answer.2.fresh.1 else ch.backend)))
        = swapchainCalls (World.freshN n
          ((w.answer.2.fresh.2.emit (Event.CreateSwapchainKHR dg info
            (if w.answer.1 = VK_SUCCESS then w.answer.2.fresh.1 else ch.backend))).emit
            (Event.GetSwapchainImagesKHR ch.display_device
              (if w.answer.1 = VK_SUCCESS then w.answer.2.fresh.1 else ch.backend)))).2 :=
      (grows_emit _ (Event.GetSwapchainImagesKHR _ _) rfl).1
    rw [e1, hgrow.1, (grows_emit _ (Event.GetSwapchainImagesKHR _ _) rfl).1]
    have e2 : swapchainCalls (w.answer.2.fresh.2.emit (Event.CreateSwapchainKHR dg info
          (if w.answer.1 = VK_SUCCESS then w.answer.2.fresh.1 else ch.backend)))
        = swapchainCalls w.answer.2.fresh.2 ++ [(dg, info,
          (if w.answer.1 = VK_SUCCESS then w.answer.2.fresh.1 else ch.backend))] := by
      simp [swapchainCalls, List.filterMap_append, asSwapchainCall]
    rw [e2, h0.1]
  · exact Nat.le_trans h0.2 hgrow.2


theorem createSwapchain_core (env : Env) (device : Nat) (info : VkSwapchainCreateInfoKHR)
    (n : Nat) (g : Globals) (w : World) (rc : VkResult) (hd : Nat) (g' : Globals) (w' : World)
    (h : PrimusVK_CreateSwapchainKHR env device info n g w
      = Except.ok ((rc, some hd), g', w')) :
    ∃ info2 ch,
      chainOldSwapchain g { info with minImageCount := 3 } = Except.ok info2 ∧
      g'.swapchains = (hd, ch) :: g.swapchains ∧
      w.nextHandle < hd ∧
      swapchainCalls w' = swapchainCalls w ++ [(ch.display_device, info2, ch.backend)] ∧
      ch.device = device ∧
      ch.imgSize = info.imageExtent ∧
      ch.display_commands = List.replicate 3 none ∧
      ch.render_images.length = 3 ∧
      ch.render_copy_images.length = 3 ∧
      ch.display_src_images.length = 3 ∧
      ch.display_images.length = n ∧
      ∃ cod1, g'.cod = some cod1 ∧ ch.display_device = cod1.display_gpu := by
  unfold PrimusVK_CreateSwapchainKHR at h
  cases hc : g.cod with
  | none =>
    simp only [hc] at h
    cases h
  | some c =>
    simp only [hc] at h
    obtain ⟨j, hj, h⟩ := bind_ok_inv h
    obtain ⟨info2, hinfo, h⟩ := bind_ok_inv h
    obtain ⟨_, _, h⟩ := bind_ok_inv h
    obtain ⟨cod1, hcod1, h⟩ := bind_ok_inv h
    obtain ⟨_, _, h⟩ := bind_ok_inv h
    obtain ⟨rs, _, h⟩ := bind_ok_inv h
    obtain ⟨ds, _, h⟩ := bind_ok_inv h
    obtain ⟨b, hb, h⟩ := bind_ok_inv h
    cases h
    obtain ⟨j1, j2, j3⟩ := j
    obtain ⟨hjs, hjw⟩ := join_frame env c j1 g j2 w j3 hj
    have hws := (writeBack_swapchains g j2 j1).1
    have hinfo' := hinfo
    rw [chainOld_congr g _ (hws.trans hjs)] at hinfo'
    obtain ⟨f1, f2, _⟩ := chainOld_fields _ _ _ hinfo
    obtain ⟨a1, a2, a3, a4, a5, a6, a7, a8, a9⟩ :=
      allocSwapchain_spec env device cod1.display_gpu info2 j3
    obtain ⟨⟨s1, s2, s3, s4, s5, s6, s7, s8, s9, s10, s11⟩, sw⟩ :=
      createSlots_frame device cod1.display_gpu info2.imageExtent rs.2 rs.1 ds
        (allocSwapchain env device cod1.display_gpu info2 j3).1.2
        (allocSwapchain env device cod1.display_gpu info2 j3).2
    obtain ⟨⟨b1, b2, b3, b4, b5, b6, b7, b8, b9, b10, b11⟩, _, _, _, bl, _, bc, bn⟩ :=
      createBackend_spec _ _ _ _ _ _ _ _ hb
    dsimp only at b1 b2 b3 b4 b5 b6 b7 b8 b9 b10 b11
    have f1' : info2.minImageCount = 3 := f1
    have f2' : info2.imageExtent = info.imageExtent := f2
    have hcod : (g.writeBack j2 j1).cod = some cod1 := by
      unfold Globals.codObject at hcod1
      split at hcod1
      · cases hcod1
      · cases hcod1
        assumption
    refine ⟨info2, b.1.2, hinfo', ?_, ?_, ?_, ?_, ?_, ?_, ?_, ?_, ?_, bl,
      cod1, hcod, by rw [b3, s3, a8]⟩
    · show (_ :: (g.writeBack j2 j1).swapchains) = _
      rw [hws, hjs]
    · show w.nextHandle < (allocSwapchain env device cod1.display_gpu info2 j3).1.1
      rw [a1]
      exact Nat.lt_succ_of_le hjw.2
    · show swapchainCalls b.2 = _
      rw [bc, sw.1, a2.1, hjw.1, b3, s3, a8]
    · rw [b1, s1, a9]
    · rw [b7, s7, a3, f2']
    · rw [b8, s8, a4, f1']
    · rw [b9, s9, a5, f1']
    · rw [b10, s10, a6, f1']
    · rw [b11, s11, a7, f1']

theorem swapchain_head (g : Globals) (hd : Nat) (ch : MySwapchain)
    (rest : List (Nat × MySwapchain)) (h : g.swapchains = (hd, ch) :: rest) :
    g.swapchain hd = Except.ok ch := by
  simp [Globals.swapchain, h, List.lookup]

theorem swapchain_tail (g0 g : Globals) (hd old : Nat) (ch : MySwapchain)
    (h : g.swapchains = (hd, ch) :: g0.swapchains) (hne : old ≠ hd) :
    g.swapchain old = g0.swapchain old := by
  have : (old == hd) = false := by simpa using hne
  simp [Globals.swapchain, h, List.lookup, this]

theorem createBackend_returns (env : Env) (g : Globals) (dg : Nat)
    (info : VkSwapchainCreateInfoKHR) (n : Nat) (ch : MySwapchain) (w : World)
    (hdg : dg ≠ VK_NULL_HANDLE) (hch : ch.display_device = dg)
    (hdisp : env.key dg ∈ g.device_dispatch) :
    ∃ b, createBackend env g dg info n ch w = Except.ok b := by
  unfold createBackend
  simp [getKey_ok env dg hdg, hch, viaDispatch, hdisp, bind, Except.bind]

theorem createSwapchain_returns (env : Env) (device : Nat) (info : VkSwapchainCreateInfoKHR)
    (n : Nat) (g : Globals) (w : World) (c : CreateOtherDevice)
    (hc : g.cod = some c) (hj : c.joined = true)
    (hdev : device ≠ VK_NULL_HANDLE) (hdg : c.display_gpu ≠ VK_NULL_HANDLE)
    (hdisp : env.key c.display_gpu ∈ g.device_dispatch)
    (hold : info.oldSwapchain = VK_NULL_HANDLE ∨
      ∃ och, g.swapchain info.oldSwapchain = Except.ok och)
    (hr : c.render_mem.memoryTypeCount ≤ c.render_mem.memoryTypes.length)
    (hd : c.display_mem.memoryTypeCount ≤ c.display_mem.memoryTypes.length) :
    ∃ rc g' w', PrimusVK_CreateSwapchainKHR env device info n g w
      = Except.ok ((rc, some (w.nextHandle + 1)), g', w') := by
  have hjoin : c.join env g w
      = Except.ok (c, g, w.emit (Event.print Message.refusingSecondJoin)) := by
    unfold CreateOtherDevice.join
    simp [hj]
  have hwb : g.writeBack g c = { g with cod := some c } := by
    unfold Globals.writeBack
    cases g.first <;> simp
  obtain ⟨info2, hinfo2⟩ : ∃ info2,
      chainOldSwapchain { g with cod := some c } { info with minImageCount := 3 }
        = Except.ok info2 := by
    rw [chainOld_congr g { g with cod := some c } rfl]
    unfold chainOldSwapchain
    rcases hold with h0 | ⟨och, hoch⟩
    · exact ⟨{ info with minImageCount := 3 }, by simp [h0]⟩
    · by_cases h0 : info.oldSwapchain = VK_NULL_HANDLE
      · exact ⟨{ info with minImageCount := 3 }, by simp [h0]⟩
      · exact ⟨{ info with minImageCount := 3, oldSwapchain := och.backend },
          by simp [h0, hoch, bind, Except.bind]⟩
  obtain ⟨rs, hrs, _⟩ := renderScan_prefix c.render_mem c.render_mem.memoryTypeCount hr
  obtain ⟨ds, hds, _⟩ := displayScan_prefix c.display_mem c.display_mem.memoryTypeCount hd
  have hrs' : renderScan c.render_mem = Except.ok rs := hrs
  have hds' : displayScan c.display_mem = Except.ok ds := hds
  obtain ⟨_, _, _, _, _, _, _, a8, _⟩ := allocSwapchain_spec env device c.display_gpu info2
    (w.emit (Event.print Message.refusingSecondJoin))
  obtain ⟨⟨_, _, s3, _⟩, _⟩ :=
    createSlots_frame device c.display_gpu info2.imageExtent rs.2 rs.1 ds
      (allocSwapchain env device c.display_gpu info2
        (w.emit (Event.print Message.refusingSecondJoin))).1.2
      (allocSwapchain env device c.display_gpu info2
        (w.emit (Event.print Message.refusingSecondJoin))).2
  obtain ⟨b, hb⟩ := createBackend_returns env { g with cod := some c } c.display_gpu info2 n
    (createSlots device c.display_gpu info2.imageExtent rs.2 rs.1 ds
      (allocSwapchain env device c.display_gpu info2
        (w.emit (Event.print Message.refusingSecondJoin))).1.2
      (allocSwapchain env device c.display_gpu info2
        (w.emit (Event.print Message.refusingSecondJoin))).2).1
    (createSlots device c.display_gpu info2.imageExtent rs.2 rs.1 ds
      (allocSwapchain env device c.display_gpu info2
        (w.emit (Event.print Message.refusingSecondJoin))).1.2
      (allocSwapchain env device c.display_gpu info2
        (w.emit (Event.print Message.refusingSecondJoin))).2).2
    hdg (s3.trans a8) hdisp
  refine ⟨b.1.1, { g with cod := some c, swapchains := (w.nextHandle + 1, b.1.2) :: g.swapchains },
    b.2, ?_⟩
  unfold PrimusVK_CreateSwapchainKHR
  simp only [hc, hjoin, hwb, bind, Except.bind, hinfo2, getKey_ok env _ hdev,
    getKey_ok env _ hdg, Globals.codObject, hrs', hds', hb]
  rfl

theorem ready_returns (env : Env) (device : Nat) (info : VkSwapchainCreateInfoKHR)
    (n : Nat) (g : Globals) (w : World) (h : CreateReady env device info g) :
    ∃ rc hd g' w', PrimusVK_CreateSwapchainKHR env device info n g w
      = Except.ok ((rc, some hd), g', w') := by
  obtain ⟨c, hc, hj, hdev, hdg, hdisp, hold, hr, hd⟩ := h
  obtain ⟨rc, g', w', e⟩ :=
    createSwapchain_returns env device info n g w c hc hj hdev hdg hdisp hold hr hd
  exact ⟨rc, _, g', w', e⟩

theorem sampleLive_ready (info : VkSwapchainCreateInfoKHR)
    (hold : info.oldSwapchain = VK_NULL_HANDLE ∨
      ∃ och, sampleLive.1.swapchain info.oldSwapchain = Except.ok och) :
    CreateReady (sampleEnv sampleDevs) 1001 info sampleLive.1 :=
  ⟨sampleJoined, by decide!, by decide!, by decide, by decide!, by decide!, hold,
    by decide!, by decide!⟩

theorem created_count (env : Env) (device : Nat) (info : VkSwapchainCreateInfoKHR) (n : Nat)
    (g : Globals) (w : World) (rc : VkResult) (hd : Nat) (g' : Globals) (w' : World)
    (h : PrimusVK_CreateSwapchainKHR env device info n g w
      = Except.ok ((rc, some hd), g', w')) :
    PrimusVK_GetSwapchainImagesKHR hd false g' = Except.ok (VK_SUCCESS, 3, none) := by
  obtain ⟨info2, ch, _, hs, _, _, _, _, _, hl, _, _, _⟩ :=
    createSwapchain_core env device info n g w rc hd g' w' h
  simp [PrimusVK_GetSwapchainImagesKHR, swapchain_head g' hd ch _ hs, hl, bind, Except.bind]

theorem built_inv (x : Except Fault ((VkResult × Option Nat) × Globals × World))
    (rc : VkResult) (hd : Nat) (h : builtSwapchain x rc hd = true) :
    ∃ g' w', x = Except.ok ((rc, some hd), g', w') := by
  cases x with
  | error e => simp [builtSwapchain] at h
  | ok r =>
    obtain ⟨r1, g', w'⟩ := r
    simp [builtSwapchain] at h
    exact ⟨g', w', by rw [h]⟩

/-- C3: in a state that is ready for it, `PrimusVK_CreateSwapchainKHR` returns
and builds a shadow swapchain; and whenever it builds one, in any state and for
whatever `minImageCount` the request carries, `PrimusVK_GetSwapchainImagesKHR`
on the handle it returned succeeds and reports a count of at least 3. -/
theorem C3_image_count_at_least_three (env : Env) (device : Nat)
    (info : VkSwapchainCreateInfoKHR) (n : Nat) (g : Globals) (w : World) :
    (CreateReady env device info g →
      ∃ rc hd g' w', PrimusVK_CreateSwapchainKHR env device info n g w
        = Except.ok ((rc, some hd), g', w')) ∧
    ∀ rc hd g' w', PrimusVK_CreateSwapchainKHR env device info n g w
        = Except.ok ((rc, some hd), g', w') →
      ∃ count, PrimusVK_GetSwapchainImagesKHR hd false g'
          = Except.ok (VK_SUCCESS, count, none) ∧ 3 ≤ count :=
  ⟨ready_returns env device info n g w,
    fun rc hd g' w' h => ⟨3, created_count env device info n g w rc hd g' w' h, Nat.le_refl 3⟩⟩

/-- C3 at a request for one image, made first in the state `sampleDevice`,
where the thread still has to be joined, and then in the ready state
`sampleLive`: the swapchain is built and the count reported is at least 3. -/
theorem C3_image_count_at_least_three_witness :
    (∃ g' w',
      PrimusVK_CreateSwapchainKHR (sampleEnv sampleDevs) 1001 (sampleInfo 1 4 2 0) 3
        sampleDevice.1 sampleDevice.2 = Except.ok ((0, some 1004), g', w') ∧
      ∃ count, PrimusVK_GetSwapchainImagesKHR 1004 false g'
          = Except.ok (VK_SUCCESS, count, none) ∧ 3 ≤ count) ∧
    CreateReady (sampleEnv sampleDevs) 1001 (sampleInfo 1 4 2 0) sampleLive.1 ∧
    ∃ rc hd g' w',
      PrimusVK_CreateSwapchainKHR (sampleEnv sampleDevs) 1001 (sampleInfo 1 4 2 0) 3
        sampleLive.1 sampleLive.2 = Except.ok ((rc, some hd), g', w') ∧
      ∃ count, PrimusVK_GetSwapchainImagesKHR hd false g'
          = Except.ok (VK_SUCCESS, count, none) ∧ 3 ≤ count := by
  obtain ⟨g', w', h⟩ := built_inv (PrimusVK_CreateSwapchainKHR (sampleEnv sampleDevs) 1001
    (sampleInfo 1 4 2 0) 3 sampleDevice.1 sampleDevice.2) 0 1004 (by decide!)
  have hready := sampleLive_ready (sampleInfo 1 4 2 0) (Or.inl rfl)
  obtain ⟨rc, hd, g2, w2, h2⟩ :=
    (C3_image_count_at_least_three (sampleEnv sampleDevs) 1001 (sampleInfo 1 4 2 0) 3
      sampleLive.1 sampleLive.2).1 hready
  exact ⟨⟨g', w', h,
      (C3_image_count_at_least_three _ _ _ _ _ _).2 _ _ _ _ h⟩,
    hready, rc, hd, g2, w2, h2,
    (C3_image_count_at_least_three _ _ _ _ _ _).2 _ _ _ _ h2⟩

/-- C4, refuted: a request for five images builds a swapchain for which the
count reported is 3 and not `max 5 3`. -/
theorem C4_requested_five_counterexample :
    ∃ g' w',
      PrimusVK_CreateSwapchainKHR (sampleEnv sampleDevs) 1001 (sampleInfo 5 4 2 0) 3
        sampleDevice.1 sampleDevice.2 = Except.ok ((0, some 1004), g', w') ∧
      PrimusVK_GetSwapchainImagesKHR 1004 false g' = Except.ok (VK_SUCCESS, 3, none) ∧
      PrimusVK_GetSwapchainImagesKHR 1004 false g'
        ≠ Except.ok (VK_SUCCESS, max 5 3, none) := by
  obtain ⟨g', w', h⟩ := built_inv (PrimusVK_CreateSwapchainKHR (sampleEnv sampleDevs) 1001
    (sampleInfo 5 4 2 0) 3 sampleDevice.1 sampleDevice.2) 0 1004 (by decide!)
  have hc := created_count _ _ _ _ _ _ _ _ _ _ h
  refine ⟨g', w', h, hc, ?_⟩
  rw [hc]
  intro he
  cases he

/-- C4, amended: in a state that is ready for it, `PrimusVK_CreateSwapchainKHR`
returns and builds a shadow swapchain; and whenever it builds one, the count
that `PrimusVK_GetSwapchainImagesKHR` reports for it is exactly 3, whatever
`minImageCount` was requested. -/
theorem C4_image_count_is_three (env : Env) (device : Nat)
    (info : VkSwapchainCreateInfoKHR) (n : Nat) (g : Globals) (w : World) :
    (CreateReady env device info g →
      ∃ rc hd g' w', PrimusVK_CreateSwapchainKHR env device info n g w
        = Except.ok ((rc, some hd), g', w')) ∧
    ∀ rc hd g' w', PrimusVK_CreateSwapchainKHR env device info n g w
        = Except.ok ((rc, some hd), g', w') →
      PrimusVK_GetSwapchainImagesKHR hd false g' = Except.ok (VK_SUCCESS, 3, none) :=
  ⟨ready_returns env device info n g w,
    fun rc hd g' w' h => created_count env device info n g w rc hd g' w' h⟩

/-- C4, amended, at a request for three images in the state `sampleDevice` and
at one for seven in the ready state `sampleLive`. -/
theorem C4_image_count_is_three_witness :
    (∃ g' w',
      PrimusVK_CreateSwapchainKHR (sampleEnv sampleDevs) 1001 (sampleInfo 3 4 2 0) 3
        sampleDevice.1 sampleDevice.2 = Except.ok ((0, some 1004), g', w') ∧
      PrimusVK_GetSwapchainImagesKHR 1004 false g' = Except.ok (VK_SUCCESS, 3, none)) ∧
    CreateReady (sampleEnv sampleDevs) 1001 (sampleInfo 7 4 2 0) sampleLive.1 ∧
    ∃ rc hd g' w',
      PrimusVK_CreateSwapchainKHR (sampleEnv sampleDevs) 1001 (sampleInfo 7 4 2 0) 3
        sampleLive.1 sampleLive.2 = Except.ok ((rc, some hd), g', w') ∧
      PrimusVK_GetSwapchainImagesKHR hd false g' = Except.ok (VK_SUCCESS, 3, none) := by
  obtain ⟨g1, w1, h1⟩ := built_inv (PrimusVK_CreateSwapchainKHR (sampleEnv sampleDevs) 1001
    (sampleInfo 3 4 2 0) 3 sampleDevice.1 sampleDevice.2) 0 1004 (by decide!)
  have hready := sampleLive_ready (sampleInfo 7 4 2 0) (Or.inl rfl)
  obtain ⟨rc, hd, g2, w2, h2⟩ :=
    (C4_image_count_is_three (sampleEnv sampleDevs) 1001 (sampleInfo 7 4 2 0) 3
      sampleLive.1 sampleLive.2).1 hready
  exact ⟨⟨g1, w1, h1, (C4_image_count_is_three _ _ _ _ _ _).2 _ _ _ _ h1⟩,
    hready, rc, hd, g2, w2, h2, (C4_image_count_is_three _ _ _ _ _ _).2 _ _ _ _ h2⟩

theorem swapchain_of_lookup (g : Globals) (hd : Nat) (ch : MySwapchain)
    (h : g.swapchains.lookup hd = some ch) : g.swapchain hd = Except.ok ch := by
  simp [Globals.swapchain, h]

theorem chained_call (env : Env) (device : Nat)
    (info : VkSwapchainCreateInfoKHR) (n : Nat) (g : Globals) (w : World) (rc : VkResult)
    (hd : Nat) (g' : Globals) (w' : World)
    (h : PrimusVK_CreateSwapchainKHR env device info n g w
      = Except.ok ((rc, some hd), g', w')) :
    ∃ ch cod1, g'.swapchain hd = Except.ok ch ∧ g'.cod = some cod1 ∧
      ch.display_device = cod1.display_gpu ∧
      (∀ och, info.oldSwapchain ≠ VK_NULL_HANDLE →
        g.swapchain info.oldSwapchain = Except.ok och →
        info.oldSwapchain ≤ w.nextHandle →
        swapchainCalls w' = swapchainCalls w ++
          [(ch.display_device,
            { info with minImageCount := 3, oldSwapchain := och.backend }, ch.backend)] ∧
        g'.swapchain info.oldSwapchain = Except.ok och) ∧
      (info.oldSwapchain = VK_NULL_HANDLE →
        swapchainCalls w' = swapchainCalls w ++
          [(ch.display_device,
            { info with minImageCount := 3, oldSwapchain := VK_NULL_HANDLE }, ch.backend)]) := by
  obtain ⟨info2, ch, hinfo, hs, hlt, hcalls, _, _, _, _, _, _, _, cod1, hcod, hdd⟩ :=
    createSwapchain_core env device info n g w rc hd g' w' h
  refine ⟨ch, cod1, swapchain_head g' hd ch _ hs, hcod, hdd, ?_, ?_⟩
  · intro och hne hlive hissued
    have hne' : ¬ info.oldSwapchain = VK_NULL_HANDLE := hne
    have e : info2 = { info with minImageCount := 3, oldSwapchain := och.backend } := by
      unfold chainOldSwapchain at hinfo
      simp only [ne_eq, hne', not_false_eq_true, if_true, hlive, bind, Except.bind] at hinfo
      cases hinfo
      rfl
    refine ⟨by rw [hcalls, e], ?_⟩
    rw [swapchain_tail g g' hd info.oldSwapchain ch hs (by omega)]
    exact hlive
  · intro hnull
    have e : info2 = { info with minImageCount := 3, oldSwapchain := VK_NULL_HANDLE } := by
      unfold chainOldSwapchain at hinfo
      simp only [ne_eq, hnull, not_true_eq_false, if_false] at hinfo
      cases hinfo
      rfl
    rw [hcalls, e]

/-- C9: in a state that is ready for it, `PrimusVK_CreateSwapchainKHR` returns
and builds a shadow swapchain.  Whenever it builds a shadow swapchain `ch`, it
makes exactly one call of the display adapter's `CreateSwapchainKHR`, on the
display device held by `cod`, with the caller's create info changed in
`minImageCount` (set to 3) and in `oldSwapchain` only.  If the caller's
`oldSwapchain` is a live shadow swapchain whose handle was issued before the
call, the `oldSwapchain` passed down is that object's `backend`, and the object
is the same after the call; if it is null, null is passed down. -/
theorem C9_old_swapchain_chained (env : Env) (device : Nat)
    (info : VkSwapchainCreateInfoKHR) (n : Nat) (g : Globals) (w : World) :
    (CreateReady env device info g →
      ∃ rc hd g' w', PrimusVK_CreateSwapchainKHR env device info n g w
        = Except.ok ((rc, some hd), g', w')) ∧
    ∀ rc hd g' w', PrimusVK_CreateSwapchainKHR env device info n g w
        = Except.ok ((rc, some hd), g', w') →
      ∃ ch cod1, g'.swapchain hd = Except.ok ch ∧ g'.cod = some cod1 ∧
        ch.display_device = cod1.display_gpu ∧
        (∀ och, info.oldSwapchain ≠ VK_NULL_HANDLE →
          g.swapchain info.oldSwapchain = Except.ok och →
          info.oldSwapchain ≤ w.nextHandle →
          swapchainCalls w' = swapchainCalls w ++
            [(ch.display_device,
              { info with minImageCount := 3, oldSwapchain := och.backend }, ch.backend)] ∧
          g'.swapchain info.oldSwapchain = Except.ok och) ∧
        (info.oldSwapchain = VK_NULL_HANDLE →
          swapchainCalls w' = swapchainCalls w ++
            [(ch.display_device,
              { info with minImageCount := 3, oldSwapchain := VK_NULL_HANDLE },
              ch.backend)]) :=
  ⟨ready_returns env device info n g w,
    fun rc hd g' w' h => chained_call env device info n g w rc hd g' w' h⟩

/-- C9 at a re-creation in the ready state `sampleLive` that names the live
shadow swapchain 1004, whose `backend` is 1038, and at a creation with a null
`oldSwapchain`. -/
theorem C9_old_swapchain_chained_witness :
    CreateReady (sampleEnv sampleDevs) 1001 (sampleInfo 2 4 2 1004) sampleLive.1 ∧
    (∃ g' w' ch,
      PrimusVK_CreateSwapchainKHR (sampleEnv sampleDevs) 1001 (sampleInfo 2 4 2 1004) 3
        sampleLive.1 sampleLive.2 = Except.ok ((0, some 1042), g', w') ∧
      g'.swapchain 1042 = Except.ok ch ∧
      swapchainCalls w' = swapchainCalls sampleLive.2 ++
        [(ch.display_device, sampleInfo 3 4 2 1038, ch.backend)] ∧
      g'.swapchain 1004 = sampleLive.1.swapchain 1004) ∧
    ∃ g' w' ch,
      PrimusVK_CreateSwapchainKHR (sampleEnv sampleDevs) 1001 (sampleInfo 2 4 2 0) 3
        sampleDevice.1 sampleDevice.2 = Except.ok ((0, some 1004), g', w') ∧
      g'.swapchain 1004 = Except.ok ch ∧
      swapchainCalls w' = swapchainCalls sampleDevice.2 ++
        [(ch.display_device, sampleInfo 3 4 2 0, ch.backend)] := by
  have hl : sampleLive.1.swapchains.lookup 1004 = some (sampleSwapchain (sampleInfo 3 4 2 0)) := by
    decide!
  have hb : (sampleSwapchain (sampleInfo 3 4 2 0)).backend = 1038 := by decide!
  have hlive := swapchain_of_lookup _ _ _ hl
  have hready := sampleLive_ready (sampleInfo 2 4 2 1004) (Or.inr ⟨_, hlive⟩)
  refine ⟨hready, ?_, ?_⟩
  · obtain ⟨rc, hd, g0, w0, h0⟩ :=
      (C9_old_swapchain_chained (sampleEnv sampleDevs) 1001 (sampleInfo 2 4 2 1004) 3
        sampleLive.1 sampleLive.2).1 hready
    obtain ⟨g', w', h⟩ := built_inv (PrimusVK_CreateSwapchainKHR (sampleEnv sampleDevs) 1001
      (sampleInfo 2 4 2 1004) 3 sampleLive.1 sampleLive.2) 0 1042 (by decide!)
    obtain ⟨ch, cod1, h1, _, _, h2, _⟩ :=
      (C9_old_swapchain_chained _ _ _ _ _ _).2 _ _ _ _ h
    obtain ⟨h3, h4⟩ := h2 _ (by decide) hlive (by decide!)
    rw [hb] at h3
    exact ⟨g', w', ch, h, h1, h3, h4.trans hlive.symm⟩
  · obtain ⟨g', w', h⟩ := built_inv (PrimusVK_CreateSwapchainKHR (sampleEnv sampleDevs) 1001
      (sampleInfo 2 4 2 0) 3 sampleDevice.1 sampleDevice.2) 0 1004 (by decide!)
    obtain ⟨ch, cod1, h1, _, _, _, h2⟩ :=
      (C9_old_swapchain_chained _ _ _ _ _ _).2 _ _ _ _ h
    exact ⟨g', w', ch, h, h1, h2 rfl⟩

/-! ## Frame transfer pipeline -/

/-- C5, the code at an extent whose byte count needs 33 bits: for 32768 by
32768 the natural number `4 * width * height` is 4294967296, the expression of
the code is 0, and `copyImageData` on a swapchain of that extent passes 0 to
`memcpy`. -/
theorem C5_copy_bytes_wraps :
    4 * 32768 * 32768 = 4294967296 ∧
    copyBytes ⟨32768, 32768⟩ = 0 ∧
    (sampleSwapchain (sampleInfo 3 32768 32768 0)).imgSize = ⟨32768, 32768⟩ ∧
    copied ((sampleSwapchain (sampleInfo 3 32768 32768 0)).copyImageData 0 laterWorld) [0]
      = true := by
  refine ⟨by decide, by decide, by decide!, by decide!⟩

theorem copyBytes_exact (e : VkExtent2D) (h : 4 * e.width * e.height < 4294967296) :
    copyBytes e = 4 * e.width * e.height := by
  unfold copyBytes
  by_cases hz : e.height = 0
  · simp [hz]
  · have hpos : 0 < e.height := Nat.pos_of_ne_zero hz
    have h1 : 4 * e.width < 4294967296 := by
      have : 4 * e.width * 1 ≤ 4 * e.width * e.height := Nat.mul_le_mul_left _ hpos
      omega
    rw [Nat.mod_eq_of_lt h1, Nat.mod_eq_of_lt h]

theorem copyBytes_full_hd :
    copyBytes ⟨1920, 1080⟩ = 8294400 ∧
    copied ((sampleSwapchain (sampleInfo 3 1920 1080 0)).copyImageData 0 laterWorld) [8294400]
      = true := by
  refine ⟨by decide, by decide!⟩


theorem submitted_emit (w : World) (e : Event) :
    submitted (w.emit e) = submitted w ++ (asSubmit e).toList := by
  cases h : asSubmit e <;> simp [submitted, List.filterMap_append, h]

theorem submitted_answer (w : World) : submitted w.answer.2 = submitted w := by
  simp [submitted]

theorem submitted_fresh (w : World) : submitted w.fresh.2 = submitted w := rfl

theorem submit_last (c : CommandBuffer) (queue fence : Nat) (w : World) :
    (submitted (c.submit queue fence w)).getLast? = some (queue, [c.cmd]) := by
  unfold CommandBuffer.submit VK_CHECK_RESULT vkQueueSubmit
  dsimp only
  split <;> simp [submitted_emit, submitted_answer, asSubmit]

theorem await_submitted (f : Fence) (w : World) : submitted (f.await w) = submitted w := by
  unfold Fence.await VK_CHECK_RESULT vkWaitForFences
  dsimp only
  split <;> simp [submitted_emit, submitted_answer, asSubmit]

theorem fenceDrop_submitted (f : Fence) (w : World) : submitted (f.drop w) = submitted w := by
  simp [Fence.drop, submitted_emit, asSubmit]

theorem hop3_spec (ch ch1 : MySwapchain) (i : Nat) (w w1 : World)
    (h : ch.hop3 i w = Except.ok (ch1, w1)) :
    ch1.display_queue = ch.display_queue ∧
    (∀ cb, ch.display_commands[i]? = some (some cb) → ch1 = ch) ∧
    ∃ cb, ch1.display_commands[i]? = some (some cb) := by
  unfold MySwapchain.hop3 at h
  split at h
  · cases h
  · rename_i cb hcb
    cases h
    exact ⟨rfl, fun _ _ => rfl, cb, hcb⟩
  · rename_i hnone
    obtain ⟨src, _, h⟩ := bind_ok_inv h
    obtain ⟨dst, _, h⟩ := bind_ok_inv h
    cases h
    have hlt : i < ch.display_commands.length := by
      by_contra hc
      rw [List.getElem?_eq_none (Nat.le_of_not_lt hc)] at hnone
      cases hnone
    refine ⟨rfl, ?_, (CommandBuffer.new ch.display_device w).1, ?_⟩
    · intro cb hcb
      rw [hnone] at hcb
      cases hcb
    · simp [hlt]

theorem copyImageData_spec (ch ch1 : MySwapchain) (i : Nat) (w w1 : World)
    (h : ch.copyImageData i w = Except.ok (ch1, w1)) :
    (∀ cb, ch.display_commands[i]? = some (some cb) → ch1 = ch) ∧
    ∃ cb, ch1.display_commands[i]? = some (some cb) ∧
      (submitted w1).getLast? = some (ch1.display_queue, [cb.cmd]) := by
  unfold MySwapchain.copyImageData at h
  obtain ⟨target, _, h⟩ := bind_ok_inv h
  obtain ⟨src, _, h⟩ := bind_ok_inv h
  obtain ⟨mapped, _, h⟩ := bind_ok_inv h
  obtain ⟨r, hr, h⟩ := bind_ok_inv h
  obtain ⟨cmd, hcmd, h⟩ := bind_ok_inv h
  cases h
  obtain ⟨r1, r2⟩ := r
  obtain ⟨_, hsame, cb, hcb⟩ := hop3_spec ch r1 i _ r2 hr
  refine ⟨hsame, cb, hcb, ?_⟩
  have hc : cmd = cb := by
    unfold slot at hcmd
    rw [hcb] at hcmd
    cases hcmd
    rfl
  subst hc
  show (submitted (Fence.drop _ (Fence.await _ _))).getLast? = _
  rw [fenceDrop_submitted, await_submitted, submit_last]

theorem presents_prefix (i : Nat) (ch : MySwapchain) (w : World) (N : Nat)
    (r : MySwapchain × World) (h : presents i N ch w = Except.ok r) (k : Nat) (hk : k ≤ N) :
    ∃ rk, presents i k ch w = Except.ok rk := by
  induction N generalizing r with
  | zero =>
    have : k = 0 := Nat.le_zero.mp hk
    subst this
    exact ⟨r, h⟩
  | succ n ih =>
    rcases Nat.lt_or_ge k (n + 1) with hlt | hge
    · simp only [presents] at h
      obtain ⟨rn, hrn, _⟩ := bind_ok_inv h
      exact ih rn hrn (Nat.le_of_lt_succ hlt)
    · have : k = n + 1 := Nat.le_antisymm hk hge
      subst this
      exact ⟨r, h⟩

theorem presents_stored (i : Nat) (ch : MySwapchain) (w : World) (cb : CommandBuffer)
    (r1 : MySwapchain × World) (h1 : presents i 1 ch w = Except.ok r1)
    (hcb : r1.1.display_commands[i]? = some (some cb)) (k : Nat) (hk : 1 ≤ k)
    (rk : MySwapchain × World) (hrk : presents i k ch w = Except.ok rk) :
    rk.1 = r1.1 ∧ (submitted rk.2).getLast? = some (r1.1.display_queue, [cb.cmd]) := by
  induction k generalizing rk with
  | zero => omega
  | succ n ih =>
    have hrk0 := hrk
    simp only [presents] at hrk
    obtain ⟨rn, hrn, hcall⟩ := bind_ok_inv hrk
    obtain ⟨rk1, rk2⟩ := rk
    obtain ⟨hsame, cb', hcb', hlast⟩ := copyImageData_spec rn.1 rk1 i rn.2 rk2 hcall
    rcases Nat.eq_zero_or_pos n with hz | hpos
    · subst hz
      have e : presents i 1 ch w = Except.ok (rk1, rk2) := hrk0
      rw [e] at h1
      cases h1
      rw [hcb] at hcb'
      cases hcb'
      exact ⟨rfl, hlast⟩
    · obtain ⟨hn1, _⟩ := ih hpos rn hrn
      have hstored : rn.1.display_commands[i]? = some (some cb) := by rw [hn1]; exact hcb
      have heq : rk1 = rn.1 := hsame cb hstored
      have hk1 : rk1 = r1.1 := heq.trans hn1
      refine ⟨hk1, ?_⟩
      have hcb'' : rk1.display_commands[i]? = some (some cb) := by rw [hk1]; exact hcb
      rw [hcb''] at hcb'
      cases hcb'
      rw [← hk1]
      exact hlast

theorem storeImage_returns (ch : MySwapchain) (i device : Nat) (sz : VkExtent2D)
    (queue : Nat) (w : World) (h : PresentReady ch i) :
    ∃ r, ch.storeImage i device sz queue w = Except.ok r := by
  obtain ⟨⟨cpy, m, h1, hm⟩, ⟨src, h2⟩, _⟩ := h
  unfold MySwapchain.storeImage
  simp [slot, h1, h2, FramebufferImage.getMapped, hm, bind, Except.bind]

theorem hop3_returns (ch : MySwapchain) (i : Nat) (w : World) (h : PresentReady ch i) :
    ∃ r, ch.hop3 i w = Except.ok r ∧ PresentReady r.1 i ∧
      ∃ cb, r.1.display_commands[i]? = some (some cb) := by
  have h' := h
  obtain ⟨_, _, ⟨dsrc, m, h3, _⟩, ⟨img, h4⟩, h5⟩ := h
  unfold MySwapchain.hop3
  have hget : ch.display_commands[i]? = some (ch.display_commands[i]) :=
    List.getElem?_eq_getElem h5
  cases hc : ch.display_commands[i] with
  | some cb =>
    rw [hc] at hget
    simp only [hget]
    exact ⟨_, rfl, h', cb, hget⟩
  | none =>
    rw [hc] at hget
    simp only [hget, slot, h3, imageAt, h4, bind, Except.bind]
    refine ⟨_, rfl, ?_, (CommandBuffer.new ch.display_device w).1, ?_⟩
    · obtain ⟨p1, p2, p3, p4, _⟩ := h'
      exact ⟨p1, p2, p3, p4, by simpa using h5⟩
    · simp [h5]

theorem copyImageData_returns (ch : MySwapchain) (i : Nat) (w : World)
    (h : PresentReady ch i) :
    ∃ r, ch.copyImageData i w = Except.ok r ∧ PresentReady r.1 i := by
  obtain ⟨t, ht⟩ := storeImage_returns ch i ch.device ch.imgSize ch.render_queue w h
  have h' := h
  obtain ⟨_, _, ⟨dsrc, m, h3, hm⟩, _, _⟩ := h
  obtain ⟨r, hr, hready, cb, hcb⟩ := hop3_returns ch i
    (t.2.emit (Event.memcpy m.data t.1.data (copyBytes ch.imgSize))) h'
  unfold MySwapchain.copyImageData
  simp only [ht, slot, h3, FramebufferImage.getMapped, hm, bind, Except.bind, hr, hcb]
  exact ⟨_, rfl, hready⟩

theorem presents_returns (i N : Nat) (ch : MySwapchain) (w : World)
    (h : PresentReady ch i) :
    ∃ r, presents i N ch w = Except.ok r ∧ PresentReady r.1 i := by
  induction N with
  | zero => exact ⟨(ch, w), rfl, h⟩
  | succ n ih =>
    obtain ⟨rn, hrn, hready⟩ := ih
    obtain ⟨r, hr, hready'⟩ := copyImageData_returns rn.1 i rn.2 hready
    refine ⟨r, ?_, hready'⟩
    simp only [presents, bind, Except.bind, hrn]
    exact hr

/-- C6: take `N ≥ 1` consecutive calls of `copyImageData(i)` on a swapchain
whose `display_commands[i]` is empty before the first of them.  If slot `i` is
complete (its images exist and its staging images are mapped), the calls
return.  And whenever they return, there is one command buffer `cb` such that
after each of the `N` calls `display_commands[i]` holds `cb` and the last queue
submission made is that of `cb` to the display queue; and among the `N` calls
only the first finds `display_commands[i]` empty, so only the first enters the
block that constructs the hop-3 command sequence. -/
theorem C6_hop3_built_once (i N : Nat) (ch : MySwapchain) (w : World) (hN : 1 ≤ N)
    (hempty : ch.display_commands[i]? = some none) :
    (PresentReady ch i → ∃ r, presents i N ch w = Except.ok r) ∧
    ∀ r, presents i N ch w = Except.ok r →
      ∃ cb,
        (∀ k, 1 ≤ k → k ≤ N → ∃ rk, presents i k ch w = Except.ok rk ∧
          rk.1.display_commands[i]? = some (some cb) ∧
          (submitted rk.2).getLast? = some (rk.1.display_queue, [cb.cmd])) ∧
        (∀ k, k < N → ∃ rk, presents i k ch w = Except.ok rk ∧
          (rk.1.display_commands[i]? = some none ↔ k = 0)) := by
  refine ⟨fun hready => ?_, ?_⟩
  · obtain ⟨r, hr, _⟩ := presents_returns i N ch w hready
    exact ⟨r, hr⟩
  intro r hrun
  obtain ⟨r1, h1⟩ := presents_prefix i ch w N r hrun 1 hN
  have hcall : ch.copyImageData i w = Except.ok r1 := by
    simpa [presents, bind, Except.bind] using h1
  obtain ⟨r11, r12⟩ := r1
  obtain ⟨_, cb, hcb, _⟩ := copyImageData_spec ch r11 i w r12 hcall
  refine ⟨cb, ?_, ?_⟩
  · intro k hk1 hkN
    obtain ⟨rk, hrk⟩ := presents_prefix i ch w N r hrun k hkN
    obtain ⟨e1, e2⟩ := presents_stored i ch w cb (r11, r12) h1 hcb k hk1 rk hrk
    refine ⟨rk, hrk, ?_, ?_⟩
    · rw [e1]; exact hcb
    · rw [e1]; exact e2
  · intro k hkN
    obtain ⟨rk, hrk⟩ := presents_prefix i ch w N r hrun k (Nat.le_of_lt hkN)
    refine ⟨rk, hrk, ?_⟩
    rcases Nat.eq_zero_or_pos k with hz | hpos
    · subst hz
      simp only [presents] at hrk
      cases hrk
      exact ⟨fun _ => rfl, fun _ => hempty⟩
    · obtain ⟨e1, _⟩ := presents_stored i ch w cb (r11, r12) h1 hcb k hpos rk hrk
      constructor
      · intro hnone
        rw [e1] at hnone
        have : (some none : Option (Option CommandBuffer)) = some (some cb) :=
          hnone.symm.trans hcb
        cases this
      · intro hk0
        omega

theorem returned_inv {α : Type} (x : Except Fault α) (h : returned x = true) :
    ∃ r, x = Except.ok r := by
  cases x with
  | error e => simp [returned] at h
  | ok r => exact ⟨r, rfl⟩

theorem sampleSwapchain_ready : PresentReady (sampleSwapchain (sampleInfo 3 4 2 0)) 1 :=
  ⟨⟨⟨1018, 1019, 1001, some ⟨1001, 1019, 1022⟩⟩, ⟨1001, 1019, 1022⟩, by decide!, rfl⟩,
    ⟨⟨1016, 1017, 1001, none⟩, by decide!⟩,
    ⟨⟨1020, 1021, 1003, some ⟨1003, 1021, 1023⟩⟩, ⟨1003, 1021, 1023⟩, by decide!, rfl⟩,
    ⟨1040, by decide!⟩, by decide!⟩

/-- C6 at three consecutive calls of `copyImageData(1)` on a swapchain that
was just created. -/
theorem C6_hop3_built_once_witness :
    PresentReady (sampleSwapchain (sampleInfo 3 4 2 0)) 1 ∧
    ∃ r, presents 1 3 (sampleSwapchain (sampleInfo 3 4 2 0)) laterWorld = Except.ok r ∧
      ∃ cb,
        (∀ k, 1 ≤ k → k ≤ 3 → ∃ rk,
          presents 1 k (sampleSwapchain (sampleInfo 3 4 2 0)) laterWorld = Except.ok rk ∧
          rk.1.display_commands[1]? = some (some cb) ∧
          (submitted rk.2).getLast? = some (rk.1.display_queue, [cb.cmd])) ∧
        (∀ k, k < 3 → ∃ rk,
          presents 1 k (sampleSwapchain (sampleInfo 3 4 2 0)) laterWorld = Except.ok rk ∧
          (rk.1.display_commands[1]? = some none ↔ k = 0)) := by
  have hC := C6_hop3_built_once 1 3 (sampleSwapchain (sampleInfo 3 4 2 0)) laterWorld
    (by decide) (by decide!)
  obtain ⟨r, hr⟩ := hC.1 sampleSwapchain_ready
  exact ⟨sampleSwapchain_ready, r, hr, hC.2 r hr⟩


/-! ## Error handling -/

/-- C11, the code at a fence wait that times out on the display adapter: the
wait of `PrimusVK_AcquireNextImageKHR`, the hop-3 wait of
`PrimusVK_QueuePresentKHR` and the first wait of `PrimusVK_CreateSwapchainKHR`
are answered with `VK_TIMEOUT`.  Each entry point prints the error and returns
`VK_SUCCESS`, the result of the call into the display adapter, and not
`VK_TIMEOUT`. -/
theorem C11_timeout_not_returned :
    outcome (PrimusVK_AcquireNextImageKHR queueEnv 1004 55 33 1 sampleLive.1
        (answering [0, 0, VK_TIMEOUT, VK_TIMEOUT])) (fun r => r.1.1) (fun r => r.2)
      = some (VK_SUCCESS, [Message.vkError VK_TIMEOUT]) ∧
    outcome (PrimusVK_QueuePresentKHR queueEnv 2001 (samplePresent 1004 1) sampleLive.1
        (answering (List.replicate 13 0 ++ [VK_TIMEOUT, VK_TIMEOUT])))
        (fun r => r.1) (fun r => r.2.2)
      = some (VK_SUCCESS, [Message.vkError VK_TIMEOUT]) ∧
    outcome (PrimusVK_CreateSwapchainKHR queueEnv 1001 (sampleInfo 3 4 2 0) 3 sampleLive.1
        (answering (List.replicate 15 0 ++ [VK_TIMEOUT, VK_TIMEOUT])))
        (fun r => r.1.1) (fun r => r.2.2)
      = some (VK_SUCCESS, [Message.refusingSecondJoin, Message.vkError VK_TIMEOUT]) ∧
    VK_SUCCESS ≠ VK_TIMEOUT := by
  refine ⟨by decide!, by decide!, by decide!, by decide⟩

theorem createSwapchain_builds (env : Env) (device : Nat) (info : VkSwapchainCreateInfoKHR)
    (n : Nat) (g : Globals) (w : World) (c : CreateOtherDevice) (hc : g.cod = some c)
    (rc : VkResult) (o : Option Nat) (g' : Globals) (w' : World)
    (h : PrimusVK_CreateSwapchainKHR env device info n g w = Except.ok ((rc, o), g', w')) :
    ∃ hd ch, o = some hd ∧ g'.swapchain hd = Except.ok ch := by
  unfold PrimusVK_CreateSwapchainKHR at h
  simp only [hc] at h
  obtain ⟨j, _, h⟩ := bind_ok_inv h
  obtain ⟨info2, _, h⟩ := bind_ok_inv h
  obtain ⟨_, _, h⟩ := bind_ok_inv h
  obtain ⟨cod1, _, h⟩ := bind_ok_inv h
  obtain ⟨_, _, h⟩ := bind_ok_inv h
  obtain ⟨rs, _, h⟩ := bind_ok_inv h
  obtain ⟨ds, _, h⟩ := bind_ok_inv h
  obtain ⟨b, _, h⟩ := bind_ok_inv h
  cases h
  exact ⟨_, b.1.2, rfl, swapchain_head _ _ _ _ rfl⟩

/-- C12, the code at a failing creation of the display context: when the
`vkCreateDevice` call of the thread fails, `ret` is not looked at, the device
handle that was never written is dereferenced, and the next
`PrimusVK_CreateSwapchainKHR` ends in that fault instead of returning an error.
No path of the function returns an error once `cod` is set: whenever it
returns then, it has built a swapchain. -/
theorem C12_failed_context_not_reported :
    faultOf (PrimusVK_CreateSwapchainKHR (sampleEnv sampleDevs) 1001 (sampleInfo 3 4 2 0) 3
      sampleDevice.1 failingDevice) = some Fault.nullPointer ∧
    ∀ (env : Env) (device : Nat) (info : VkSwapchainCreateInfoKHR) (n : Nat) (g : Globals)
      (w : World) (c : CreateOtherDevice) (rc : VkResult) (o : Option Nat) (g' : Globals)
      (w' : World), g.cod = some c →
      PrimusVK_CreateSwapchainKHR env device info n g w = Except.ok ((rc, o), g', w') →
      ∃ hd ch, o = some hd ∧ g'.swapchain hd = Except.ok ch :=
  ⟨by decide!, fun env device info n g w c rc o g' w' hc h =>
    createSwapchain_builds env device info n g w c hc rc o g' w' h⟩

/-- C17, the code at an enumeration that lists the integrated adapter first:
topology resolution succeeds and pairs the render adapter 21 with the display
adapter 22, but `PrimusVK_EnumeratePhysicalDevices` reports the adapters by
position: with the flag off the one adapter it reports is 22, the display
adapter, and with the flag on it reports 22 followed by 21. -/
theorem C17_enumeration_by_position :
    PrimusVK_CreateInstance (sampleEnv displayFirst) instanceChain 7 Globals.init
      = Except.ok (VK_SUCCESS, displayFirstInstance) ∧
    (lastOfType VK_PHYSICAL_DEVICE_TYPE_DISCRETE_GPU displayFirst).map (fun d => d.handle)
      = some 21 ∧
    displayFirstInstance.render_to_display.find ((sampleEnv displayFirst).key 21) = some 22 ∧
    reported (PrimusVK_EnumeratePhysicalDevices (sampleEnv displayFirst) displayFirstInstance 7
      (some [0]) sampleWorld) = some (1, [22]) ∧
    reported (PrimusVK_EnumeratePhysicalDevices (sampleEnv displayFirst)
      { displayFirstInstance with list_all_gpus := true } 7 (some [0, 0]) sampleWorld)
      = some (2, [22, 21]) := by
  refine ⟨rfl, by decide, by decide!, by decide!, by decide!⟩

/-- C20, the code at slot 1 of a swapchain that was just created: the barriers
of hop 1 form a layout chain, those of hop 3 do not.  The fourth barrier of
hop 3 is the second one on the presentable image 1040; it declares the old
layout `VK_IMAGE_LAYOUT_UNDEFINED`, while the second barrier left that image
in `VK_IMAGE_LAYOUT_TRANSFER_DST_OPTIMAL`. -/
theorem C20_hop3_layout_chain_broken :
    (recordedBarriers ((sampleSwapchain (sampleInfo 3 4 2 0)).storeImage 1 1001 ⟨4, 2⟩ 2001
      laterWorld)).map specLayoutChain = some true ∧
    (recordedBarriers ((sampleSwapchain (sampleInfo 3 4 2 0)).hop3 1 laterWorld)).map
      specLayoutChain = some false ∧
    (recordedBarriers ((sampleSwapchain (sampleInfo 3 4 2 0)).hop3 1 laterWorld)).map
      (fun bs => bs.map (fun b => (b.image, b.oldLayout, b.newLayout)))
      = some [(1020, VK_IMAGE_LAYOUT_GENERAL, VK_IMAGE_LAYOUT_TRANSFER_SRC_OPTIMAL),
          (1040, VK_IMAGE_LAYOUT_UNDEFINED, VK_IMAGE_LAYOUT_TRANSFER_DST_OPTIMAL),
          (1020, VK_IMAGE_LAYOUT_TRANSFER_SRC_OPTIMAL, VK_IMAGE_LAYOUT_GENERAL),
          (1040, VK_IMAGE_LAYOUT_UNDEFINED, VK_IMAGE_LAYOUT_PRESENT_SRC_KHR)] := by
  refine ⟨by decide!, by decide!, by decide!⟩


/-! ## Order of the calls -/

theorem steps_emit (w : World) (e : Event) :
    steps (w.emit e) = steps w ++ (if isStep e then [e] else []) := by
  cases h : isStep e <;> simp [steps, World.emit, List.filter_append, h]

theorem steps_answer (w : World) : steps w.answer.2 = steps w := by
  unfold World.answer
  split <;> rfl

theorem steps_fresh (w : World) : steps w.fresh.2 = steps w := rfl

theorem steps_check {α : Type} (x : World → (VkResult × α) × World)
    (hx : ∀ w : World, steps (x w).2 = steps w) (w : World) :
    steps (VK_CHECK_RESULT x w).2 = steps w := by
  unfold VK_CHECK_RESULT
  dsimp only
  split
  · rw [steps_emit, hx, hx]
    simp [isStep]
  · exact hx w

theorem steps_check_call {α : Type} (x : World → (VkResult × α) × World) (e : Event)
    (hr : ∀ w : World, (x w).1.1 = w.answer.1)
    (hx : ∀ w : World, steps (x w).2 = steps w ++ [e]) (w : World) :
    steps (VK_CHECK_RESULT x w).2 = steps w ++ List.replicate (tries w) e := by
  unfold VK_CHECK_RESULT tries
  dsimp only
  rw [hr w]
  split
  · rw [steps_emit, hx, hx]
    simp [isStep, List.replicate]
  · rw [hx]
    simp [List.replicate]

theorem tries_bounds (w : World) : 1 ≤ tries w ∧ tries w ≤ 2 := by
  unfold tries
  split <;> omega

theorem steps_fence (dev : Nat) (w : World) : steps (Fence.new dev w).2 = steps w := by
  unfold Fence.new
  dsimp only
  refine steps_check _ (fun w0 => ?_) w
  simp [vkCreateFence, steps_emit, steps_answer, steps_fresh, isStep]

theorem steps_fenceDrop (f : Fence) (w : World) : steps (f.drop w) = steps w := by
  simp [Fence.drop, steps_emit, isStep]

theorem steps_await (f : Fence) (w : World) :
    steps (f.await w) = steps w ++
      List.replicate (tries w) (Event.vkWaitForFences f.device f.fence FENCE_TIMEOUT) := by
  unfold Fence.await
  refine steps_check_call _ _ (fun w0 => rfl) (fun w0 => ?_) w
  simp [vkWaitForFences, steps_emit, steps_answer, isStep]

theorem steps_commandBuffer (device : Nat) (w : World) :
    steps (CommandBuffer.new device w).2 = steps w := by
  unfold CommandBuffer.new
  dsimp only
  rw [steps_check _ (fun w0 => ?_), steps_check _ (fun w0 => ?_), steps_check _ (fun w0 => ?_)]
  · simp [vkCreateCommandPool, steps_emit, steps_answer, steps_fresh, isStep]
  · simp [vkAllocateCommandBuffers, steps_emit, steps_answer, steps_fresh, isStep]
  · simp [vkBeginCommandBuffer, steps_emit, steps_answer, isStep]

theorem steps_commandDrop (c : CommandBuffer) (w : World) : steps (c.drop w) = steps w := by
  simp [CommandBuffer.drop, steps_emit, isStep]

theorem steps_end (c : CommandBuffer) (w : World) : steps (c.end_ w) = steps w := by
  unfold CommandBuffer.end_
  refine steps_check _ (fun w0 => ?_) w
  simp [vkEndCommandBuffer, steps_emit, steps_answer, isStep]

theorem steps_submit (c : CommandBuffer) (queue fence : Nat) (w : World) :
    steps (c.submit queue fence w) = steps w ++
      List.replicate (tries w) (Event.vkQueueSubmit queue
        { waitSemaphores := [], waitDstStageMask := none, commandBuffers := [c.cmd],
          signalSemaphores := [] } fence) := by
  unfold CommandBuffer.submit
  refine steps_check_call _ _ (fun w0 => rfl) (fun w0 => ?_) w
  simp [vkQueueSubmit, steps_emit, steps_answer, isStep]

theorem answer_nextHandle (w : World) : w.answer.2.nextHandle = w.nextHandle := by
  unfold World.answer
  split <;> rfl

theorem answer_congr (a b : World) (h : a.answers = b.answers) :
    a.answer.1 = b.answer.1 ∧ a.answer.2.answers = b.answer.2.answers := by
  obtain ⟨n1, as1, t1⟩ := a
  obtain ⟨n2, as2, t2⟩ := b
  simp only at h
  subst h
  cases as1 <;> simp [World.answer]

theorem fence_device (dev : Nat) (w : World) : (Fence.new dev w).1.device = dev := rfl

theorem fence_fresh (dev : Nat) (w : World)
    (h : w.answer.1 = VK_SUCCESS ∨ w.answer.2.answer.1 = VK_SUCCESS) :
    w.nextHandle < (Fence.new dev w).1.fence := by
  have e1 : w.fresh.2.answer.1 = w.answer.1 := (answer_congr w.fresh.2 w rfl).1
  have e2 : ∀ e : Event, (w.fresh.2.answer.2.emit e).fresh.2.answer.1 = w.answer.2.answer.1 :=
    fun e => (answer_congr (w.fresh.2.answer.2.emit e).fresh.2 w.answer.2
      (answer_congr w.fresh.2 w rfl).2).1
  unfold Fence.new VK_CHECK_RESULT vkCreateFence
  dsimp only
  rw [e1]
  split
  · rename_i hfail
    rcases h with h | h
    · exact absurd h hfail
    · rw [e2, if_pos h]
      simp [World.fresh, World.emit, answer_nextHandle]
      omega
  · rename_i hok
    have hok' : w.answer.1 = VK_SUCCESS := not_not.mp hok
    rw [if_pos hok']
    simp [World.fresh]

theorem acquire_returns (env : Env) (swapchain timeout semaphore index : Nat) (g : Globals)
    (w : World) (h : AcquireReady env swapchain g) :
    ∃ r, PrimusVK_AcquireNextImageKHR env swapchain timeout semaphore index g w
      = Except.ok r := by
  obtain ⟨ch, hch, hd, hk⟩ := h
  unfold PrimusVK_AcquireNextImageKHR
  simp [hch, getKey_ok env _ hd, viaDispatch, hk, bind, Except.bind]

theorem acquire_spec (env : Env) (swapchain timeout semaphore index : Nat) (g : Globals)
    (w : World) (res : VkResult) (idx : Nat) (w' : World)
    (h : PrimusVK_AcquireNextImageKHR env swapchain timeout semaphore index g w
      = Except.ok ((res, idx), w')) :
    ∃ ch n, g.swapchain swapchain = Except.ok ch ∧
      ((w.answer.1 = VK_SUCCESS ∨ w.answer.2.answer.1 = VK_SUCCESS) →
        w.nextHandle < (Fence.new ch.display_device w).1.fence) ∧
      1 ≤ n ∧ n ≤ 2 ∧
      steps w' = steps w ++
        [Event.AcquireNextImageKHR ch.display_device ch.backend timeout VK_NULL_HANDLE
          (Fence.new ch.display_device w).1.fence res] ++
        List.replicate n (Event.vkWaitForFences ch.display_device
          (Fence.new ch.display_device w).1.fence FENCE_TIMEOUT) ++
        [Event.vkQueueSubmit ch.render_queue
          { waitSemaphores := [], waitDstStageMask := none, commandBuffers := [],
            signalSemaphores := [semaphore] } VK_NULL_HANDLE] ∧
      idx = index := by
  unfold PrimusVK_AcquireNextImageKHR at h
  obtain ⟨ch, hch, h⟩ := bind_ok_inv h
  obtain ⟨k, _, h⟩ := bind_ok_inv h
  obtain ⟨_, _, h⟩ := bind_ok_inv h
  cases h
  refine ⟨ch, tries ((Fence.new ch.display_device w).2.answer.2.emit
      (Event.AcquireNextImageKHR ch.display_device ch.backend timeout VK_NULL_HANDLE
        (Fence.new ch.display_device w).1.fence (Fence.new ch.display_device w).2.answer.1)),
    hch, fence_fresh _ _, (tries_bounds _).1, (tries_bounds _).2, ?_, rfl⟩
  rw [steps_emit, steps_fenceDrop, steps_await, steps_emit, steps_answer, steps_fence,
    fence_device]
  simp [isStep]


theorem sampleLive_swapchain :
    sampleLive.1.swapchain 1004 = Except.ok (sampleSwapchain (sampleInfo 3 4 2 0)) :=
  swapchain_of_lookup _ _ _ (by decide!)

theorem sampleLive_acquireReady : AcquireReady queueEnv 1004 sampleLive.1 :=
  ⟨sampleSwapchain (sampleInfo 3 4 2 0), sampleLive_swapchain, by decide!, by decide!⟩

/-- C14: on a live shadow swapchain whose display device has a dispatch table,
`PrimusVK_AcquireNextImageKHR` returns.  And whenever it returns, what it did,
in order, is: one acquire on the display adapter's swapchain `backend` with a
null semaphore and the fence of a `Fence` object that it constructed itself;
the wait for that fence (made once more by `VK_CHECK_RESULT` when the wait
fails); and last one submission to the render queue with no wait semaphore and
no command buffer that signals the caller's semaphore and takes no fence.  The
fence is a handle that did not exist before the call whenever `vkCreateFence`
succeeded, at its first evaluation or at the second one that `VK_CHECK_RESULT`
makes; when both fail, the constructor leaves the member unwritten.  The value
returned is the result of that acquire, and `*pImageIndex` is what the acquire
wrote. -/
theorem C14_acquire_fence_then_signal (env : Env) (swapchain timeout semaphore index : Nat)
    (g : Globals) (w : World) :
    (AcquireReady env swapchain g →
      ∃ r, PrimusVK_AcquireNextImageKHR env swapchain timeout semaphore index g w
        = Except.ok r) ∧
    ∀ res idx w', PrimusVK_AcquireNextImageKHR env swapchain timeout semaphore index g w
        = Except.ok ((res, idx), w') →
      ∃ ch n, g.swapchain swapchain = Except.ok ch ∧
        ((w.answer.1 = VK_SUCCESS ∨ w.answer.2.answer.1 = VK_SUCCESS) →
          w.nextHandle < (Fence.new ch.display_device w).1.fence) ∧
        1 ≤ n ∧ n ≤ 2 ∧
        steps w' = steps w ++
          [Event.AcquireNextImageKHR ch.display_device ch.backend timeout VK_NULL_HANDLE
            (Fence.new ch.display_device w).1.fence res] ++
          List.replicate n (Event.vkWaitForFences ch.display_device
            (Fence.new ch.display_device w).1.fence FENCE_TIMEOUT) ++
          [Event.vkQueueSubmit ch.render_queue
            { waitSemaphores := [], waitDstStageMask := none, commandBuffers := [],
              signalSemaphores := [semaphore] } VK_NULL_HANDLE] ∧
        idx = index :=
  ⟨acquire_returns env swapchain timeout semaphore index g w,
    fun res idx w' h => acquire_spec env swapchain timeout semaphore index g w res idx w' h⟩

/-- C14 at an acquire on the live swapchain 1004 with the caller's semaphore
33, in a world where `vkCreateFence` succeeds: the call returns, the fence is a
new handle, and the steps are the acquire with a null semaphore, the wait for
that fence, and the submission that signals 33. -/
theorem C14_acquire_fence_then_signal_witness :
    AcquireReady queueEnv 1004 sampleLive.1 ∧
    ∃ res idx w', PrimusVK_AcquireNextImageKHR queueEnv 1004 55 33 1 sampleLive.1 laterWorld
        = Except.ok ((res, idx), w') ∧
      ∃ ch n, sampleLive.1.swapchain 1004 = Except.ok ch ∧
        laterWorld.nextHandle < (Fence.new ch.display_device laterWorld).1.fence ∧
        1 ≤ n ∧ n ≤ 2 ∧
        steps w' = steps laterWorld ++
          [Event.AcquireNextImageKHR ch.display_device ch.backend 55 VK_NULL_HANDLE
            (Fence.new ch.display_device laterWorld).1.fence res] ++
          List.replicate n (Event.vkWaitForFences ch.display_device
            (Fence.new ch.display_device laterWorld).1.fence FENCE_TIMEOUT) ++
          [Event.vkQueueSubmit ch.render_queue
            { waitSemaphores := [], waitDstStageMask := none, commandBuffers := [],
              signalSemaphores := [33] } VK_NULL_HANDLE] ∧
        idx = 1 := by
  have hC := C14_acquire_fence_then_signal queueEnv 1004 55 33 1 sampleLive.1 laterWorld
  obtain ⟨r, hr⟩ := hC.1 sampleLive_acquireReady
  obtain ⟨⟨res, idx⟩, w'⟩ := r
  obtain ⟨ch, n, h1, h2, h3, h4, h5, h6⟩ := hC.2 res idx w' hr
  exact ⟨sampleLive_acquireReady, res, idx, w', hr, ch, n, h1, h2 (Or.inl rfl), h3, h4, h5, h6⟩


theorem slot_inv {α : Type} (v : List (Option α)) (i : Nat) (x : α)
    (h : slot v i = Except.ok x) : v[i]? = some (some x) := by
  unfold slot at h
  split at h
  · cases h
  · cases h
  · rename_i y hy
    cases h
    exact hy

theorem imageAt_inv (v : List Nat) (i d : Nat) (h : imageAt v i = Except.ok d) :
    v[i]? = some d := by
  unfold imageAt at h
  split at h
  · cases h
  · rename_i y hy
    cases h
    exact hy

theorem steps_barrier (c : CommandBuffer) (image a1 a2 : Nat) (l1 l2 : VkImageLayout)
    (w : World) :
    steps (c.insertImageMemoryBarrier image a1 a2 l1 l2
      VK_PIPELINE_STAGE_TRANSFER_BIT VK_PIPELINE_STAGE_TRANSFER_BIT w)
      = steps w ++ [specBarrier c.cmd image a1 a2 l1 l2] := by
  simp [CommandBuffer.insertImageMemoryBarrier, steps_emit, isStep, specBarrier]

theorem steps_copy (c : CommandBuffer) (src dst : Nat) (sz : VkExtent2D) (w : World) :
    steps (c.copyImage src dst sz w) = steps w ++ [specCopy c.cmd src dst sz] := by
  simp [CommandBuffer.copyImage, steps_emit, isStep, specCopy]

theorem storeImage_steps (ch : MySwapchain) (i device : Nat) (sz : VkExtent2D) (queue : Nat)
    (w : World) (r : MappedMemory × World)
    (h : ch.storeImage i device sz queue w = Except.ok r) :
    ∃ cpy src fence n1 n2,
      ch.render_copy_images[i]? = some (some cpy) ∧
      ch.render_images[i]? = some (some src) ∧
      cpy.mapped = some r.1 ∧
      1 ≤ n1 ∧ n1 ≤ 2 ∧ 1 ≤ n2 ∧ n2 ≤ 2 ∧
      steps r.2 = steps w ++
        specHop1 (CommandBuffer.new device w).1.cmd cpy.img src.img sz ++
        List.replicate n1 (submitOf queue (CommandBuffer.new device w).1.cmd fence) ++
        List.replicate n2 (Event.vkWaitForFences device fence FENCE_TIMEOUT) := by
  unfold MySwapchain.storeImage at h
  obtain ⟨cpy, hcpy, h⟩ := bind_ok_inv h
  obtain ⟨src, hsrc, h⟩ := bind_ok_inv h
  obtain ⟨m, hm, h⟩ := bind_ok_inv h
  cases h
  have hm' : cpy.mapped = some m := by
    unfold FramebufferImage.getMapped at hm
    split at hm
    · cases hm
    · rename_i y hy
      cases hm
      exact hy
  dsimp only
  rw [steps_commandDrop, steps_fenceDrop, steps_emit, steps_await, steps_submit, steps_fence,
    steps_end, steps_barrier, steps_barrier, steps_copy, steps_barrier, steps_barrier,
    steps_commandBuffer, fence_device]
  exact ⟨cpy, src, _, _, _, slot_inv _ _ _ hcpy, slot_inv _ _ _ hsrc, hm',
    (tries_bounds _).1, (tries_bounds _).2, (tries_bounds _).1, (tries_bounds _).2,
    by simp only [isStep, specHop1, submitOf, List.append_assoc, List.singleton_append,
      List.cons_append, List.nil_append, Bool.false_eq_true, if_false, List.append_nil]; rfl⟩


theorem hop3_stored (ch : MySwapchain) (i : Nat) (w : World) (cb : CommandBuffer)
    (hcb : ch.display_commands[i]? = some (some cb)) : ch.hop3 i w = Except.ok (ch, w) := by
  unfold MySwapchain.hop3
  simp only [hcb]

theorem hop3_steps (ch : MySwapchain) (i : Nat) (w : World) (r : MySwapchain × World)
    (hnone : ch.display_commands[i]? = some none) (h : ch.hop3 i w = Except.ok r) :
    ∃ src dst,
      ch.display_src_images[i]? = some (some src) ∧
      ch.display_images[i]? = some dst ∧
      r.1 = { ch with display_commands :=
        ch.display_commands.set i (some (CommandBuffer.new ch.display_device w).1) } ∧
      r.1.display_commands[i]? = some (some (CommandBuffer.new ch.display_device w).1) ∧
      steps r.2 = steps w ++
        specHop3 (CommandBuffer.new ch.display_device w).1.cmd src.img dst ch.imgSize
          VK_IMAGE_LAYOUT_UNDEFINED := by
  unfold MySwapchain.hop3 at h
  simp only [hnone] at h
  obtain ⟨src, hsrc, h⟩ := bind_ok_inv h
  obtain ⟨dst, hdst, h⟩ := bind_ok_inv h
  cases h
  have hlt : i < ch.display_commands.length := by
    by_contra hc
    rw [List.getElem?_eq_none (Nat.le_of_not_lt hc)] at hnone
    cases hnone
  refine ⟨src, dst, slot_inv _ _ _ hsrc, imageAt_inv _ _ _ hdst, rfl, by simp [hlt], ?_⟩
  dsimp only
  rw [steps_end, steps_barrier, steps_barrier, steps_copy, steps_barrier, steps_barrier,
    steps_commandBuffer]
  simp [specHop3]

theorem getMapped_inv (img : FramebufferImage) (m : MappedMemory)
    (h : img.getMapped = Except.ok m) : img.mapped = some m := by
  unfold FramebufferImage.getMapped at h
  split at h
  · cases h
  · rename_i y hy
    cases h
    exact hy

theorem copyImageData_steps (ch : MySwapchain) (i : Nat) (w : World)
    (r : MySwapchain × World) (h : ch.copyImageData i w = Except.ok r) :
    ∃ t dsrc m hp cb, ∃ fence n1 n2,
      ch.storeImage i ch.device ch.imgSize ch.render_queue w = Except.ok t ∧
      ch.display_src_images[i]? = some (some dsrc) ∧ dsrc.mapped = some m ∧
      ch.hop3 i (t.2.emit (Event.memcpy m.data t.1.data (copyBytes ch.imgSize)))
        = Except.ok hp ∧
      r.1 = hp.1 ∧
      r.1.display_commands[i]? = some (some cb) ∧
      1 ≤ n1 ∧ n1 ≤ 2 ∧ 1 ≤ n2 ∧ n2 ≤ 2 ∧
      steps r.2 = steps hp.2 ++
        List.replicate n1 (submitOf r.1.display_queue cb.cmd fence) ++
        List.replicate n2 (Event.vkWaitForFences r.1.display_device fence FENCE_TIMEOUT) := by
  unfold MySwapchain.copyImageData at h
  obtain ⟨t, ht, h⟩ := bind_ok_inv h
  obtain ⟨dsrc, hdsrc, h⟩ := bind_ok_inv h
  obtain ⟨m, hm, h⟩ := bind_ok_inv h
  obtain ⟨hp, hhp, h⟩ := bind_ok_inv h
  obtain ⟨cb, hcb, h⟩ := bind_ok_inv h
  cases h
  dsimp only
  rw [steps_fenceDrop, steps_await, steps_submit, steps_fence, fence_device]
  exact ⟨t, dsrc, m, hp, cb, _, _, _, ht, slot_inv _ _ _ hdsrc, getMapped_inv _ _ hm, hhp, rfl,
    slot_inv _ _ _ hcb, (tries_bounds _).1, (tries_bounds _).2, (tries_bounds _).1,
    (tries_bounds _).2, rfl⟩

theorem hop3_frame (ch : MySwapchain) (i : Nat) (w : World) (r : MySwapchain × World)
    (h : ch.hop3 i w = Except.ok r) :
    r.1 = { ch with display_commands := r.1.display_commands } ∧
      r.1.display_commands.length = ch.display_commands.length := by
  unfold MySwapchain.hop3 at h
  split at h
  · cases h
  · cases h
    exact ⟨rfl, rfl⟩
  · obtain ⟨src, _, h⟩ := bind_ok_inv h
    obtain ⟨dst, _, h⟩ := bind_ok_inv h
    cases h
    exact ⟨rfl, by simp⟩

theorem copyImageData_frame (ch : MySwapchain) (i : Nat) (w : World)
    (r : MySwapchain × World) (h : ch.copyImageData i w = Except.ok r) :
    r.1 = { ch with display_commands := r.1.display_commands } ∧
      r.1.display_commands.length = ch.display_commands.length := by
  obtain ⟨t, dsrc, m, hp, cb, fence, n1, n2, _, _, _, hhp, e, _⟩ :=
    copyImageData_steps ch i w r h
  rw [e]
  exact hop3_frame ch i _ hp hhp


theorem copyImageData_fields (ch : MySwapchain) (i : Nat) (w : World)
    (r : MySwapchain × World) (h : ch.copyImageData i w = Except.ok r) :
    r.1.display_queue = ch.display_queue ∧ r.1.display_device = ch.display_device ∧
      r.1.backend = ch.backend ∧ r.1.render_images = ch.render_images ∧
      r.1.render_copy_images = ch.render_copy_images ∧
      r.1.display_src_images = ch.display_src_images ∧
      r.1.display_images = ch.display_images ∧ r.1.imgSize = ch.imgSize ∧
      r.1.display_commands.length = ch.display_commands.length := by
  obtain ⟨e, hl⟩ := copyImageData_frame ch i w r h
  refine ⟨?_, ?_, ?_, ?_, ?_, ?_, ?_, ?_, hl⟩ <;> rw [e]

theorem copyImageData_sequence (ch : MySwapchain) (i : Nat) (w : World)
    (r : MySwapchain × World) (h : ch.copyImageData i w = Except.ok r) :
    ∃ t dsrc m cb recorded, ∃ fence n1 n2,
      ch.storeImage i ch.device ch.imgSize ch.render_queue w = Except.ok t ∧
      ch.display_src_images[i]? = some (some dsrc) ∧ dsrc.mapped = some m ∧
      r.1.display_commands[i]? = some (some cb) ∧
      (ch.display_commands[i]? = some none →
        ∃ dst, ch.display_images[i]? = some dst ∧
          cb = (CommandBuffer.new ch.display_device
            (t.2.emit (Event.memcpy m.data t.1.data (copyBytes ch.imgSize)))).1 ∧
          recorded = specHop3 cb.cmd dsrc.img dst ch.imgSize VK_IMAGE_LAYOUT_UNDEFINED) ∧
      (∀ cb0, ch.display_commands[i]? = some (some cb0) → cb = cb0 ∧ recorded = []) ∧
      1 ≤ n1 ∧ n1 ≤ 2 ∧ 1 ≤ n2 ∧ n2 ≤ 2 ∧
      steps r.2 = steps t.2 ++
        [Event.memcpy m.data t.1.data (copyBytes ch.imgSize)] ++ recorded ++
        List.replicate n1 (submitOf ch.display_queue cb.cmd fence) ++
        List.replicate n2 (Event.vkWaitForFences ch.display_device fence FENCE_TIMEOUT) := by
  obtain ⟨hq, hd, _⟩ := copyImageData_fields ch i w r h
  obtain ⟨t, dsrc, m, hp, cb, fence, n1, n2, ht, hdsrc, hm, hhp, e, hcb, b1, b2, b3, b4, hs⟩ :=
    copyImageData_steps ch i w r h
  rw [hq, hd] at hs
  cases hc : ch.display_commands[i]? with
  | none =>
    unfold MySwapchain.hop3 at hhp
    simp only [hc] at hhp
    cases hhp
  | some o =>
    cases o with
    | some cb0 =>
      rw [hop3_stored ch i _ cb0 hc] at hhp
      cases hhp
      have hcb0 : cb = cb0 := by
        rw [e, hc] at hcb
        cases hcb
        rfl
      refine ⟨t, dsrc, m, cb, [], fence, n1, n2, ht, hdsrc, hm, hcb, ?_, ?_, b1, b2, b3, b4, ?_⟩
      · intro hx
        cases hx
      · intro cb1 hx
        cases hx
        exact ⟨hcb0, rfl⟩
      · rw [hs, steps_emit]
        simp [isStep]
    | none =>
      obtain ⟨src, dst, h1, h2, h3, h4, h5⟩ := hop3_steps ch i _ hp hc hhp
      have hsrc : src = dsrc := by
        rw [hdsrc] at h1
        cases h1
        rfl
      subst hsrc
      have hcb0 : cb = (CommandBuffer.new ch.display_device
          (t.2.emit (Event.memcpy m.data t.1.data (copyBytes ch.imgSize)))).1 := by
        rw [e, h4] at hcb
        cases hcb
        rfl
      refine ⟨t, src, m, cb, specHop3 cb.cmd src.img dst ch.imgSize VK_IMAGE_LAYOUT_UNDEFINED,
        fence, n1, n2, ht, hdsrc, hm, hcb, ?_, ?_, b1, b2, b3, b4, ?_⟩
      · intro _
        exact ⟨dst, h2, hcb0, rfl⟩
      · intro cb1 hx
        cases hx
      · rw [hs, h5, steps_emit, hcb0]
        simp [isStep]


/-- C18: on a swapchain whose slot `index` is complete, `storeImage` returns.
And whenever it returns, the commands, submissions and waits it made are, in
order: the five commands of the spec's hop-1 sequence, recorded in the command
buffer that the call constructed (staging copy to transfer-destination, render
target from presentation-source to transfer-source, one copy of the render
target into the staging copy over `imgSize` with depth 1, one layer and the
colour aspect, staging copy to general, render target back to
presentation-source); then the submission of that command buffer to `queue`
with a fence; then the wait for that fence.  `VK_CHECK_RESULT` makes the
submission or the wait a second time when the first one fails.  The value
returned is the mapping of the staging copy. -/
theorem C18_hop1_command_sequence (ch : MySwapchain) (index device : Nat) (imgSize : VkExtent2D)
    (queue : Nat) (w : World) :
    (PresentReady ch index → ∃ r, ch.storeImage index device imgSize queue w = Except.ok r) ∧
    ∀ r, ch.storeImage index device imgSize queue w = Except.ok r →
      ∃ cpy src fence n1 n2,
        ch.render_copy_images[index]? = some (some cpy) ∧
        ch.render_images[index]? = some (some src) ∧
        cpy.mapped = some r.1 ∧
        1 ≤ n1 ∧ n1 ≤ 2 ∧ 1 ≤ n2 ∧ n2 ≤ 2 ∧
        steps r.2 = steps w ++
          specHop1 (CommandBuffer.new device w).1.cmd cpy.img src.img imgSize ++
          List.replicate n1 (submitOf queue (CommandBuffer.new device w).1.cmd fence) ++
          List.replicate n2 (Event.vkWaitForFences device fence FENCE_TIMEOUT) :=
  ⟨storeImage_returns ch index device imgSize queue w,
    fun r h => storeImage_steps ch index device imgSize queue w r h⟩

/-- C18 at slot 1 of a swapchain that was just created, with the render device
1001 and its queue 2001. -/
theorem C18_hop1_command_sequence_witness :
    PresentReady (sampleSwapchain (sampleInfo 3 4 2 0)) 1 ∧
    ∃ r, (sampleSwapchain (sampleInfo 3 4 2 0)).storeImage 1 1001 ⟨4, 2⟩ 2001 laterWorld
        = Except.ok r ∧
      ∃ cpy src fence n1 n2,
        (sampleSwapchain (sampleInfo 3 4 2 0)).render_copy_images[1]? = some (some cpy) ∧
        (sampleSwapchain (sampleInfo 3 4 2 0)).render_images[1]? = some (some src) ∧
        cpy.mapped = some r.1 ∧
        1 ≤ n1 ∧ n1 ≤ 2 ∧ 1 ≤ n2 ∧ n2 ≤ 2 ∧
        steps r.2 = steps laterWorld ++
          specHop1 (CommandBuffer.new 1001 laterWorld).1.cmd cpy.img src.img ⟨4, 2⟩ ++
          List.replicate n1 (submitOf 2001 (CommandBuffer.new 1001 laterWorld).1.cmd fence) ++
          List.replicate n2 (Event.vkWaitForFences 1001 fence FENCE_TIMEOUT) := by
  have hC := C18_hop1_command_sequence (sampleSwapchain (sampleInfo 3 4 2 0)) 1 1001 ⟨4, 2⟩
    2001 laterWorld
  obtain ⟨r, hr⟩ := hC.1 sampleSwapchain_ready
  exact ⟨sampleSwapchain_ready, r, hr, hC.2 r hr⟩

/-- C19: on a swapchain whose slot `index` is complete, `copyImageData`
returns.  And whenever it returns, what it did after hop 1 and the host copy
is, in order: when `display_commands[index]` was empty, the five commands of
the spec's hop-3 sequence, recorded in a command buffer that the call
constructed and stored in `display_commands[index]` (staging source from
general to transfer-source, presentable image from undefined to
transfer-destination, one copy of the staging source into the presentable
image over `imgSize`, staging source back to general, presentable image to
presentation-source, declared as coming from undefined); when a command buffer
was stored there, no command at all; then the submission of the command buffer
of the slot to the display queue with a fence; then the wait for that fence on
the display device.  `VK_CHECK_RESULT` makes the submission or the wait a
second time when the first one fails. -/
theorem C19_hop3_command_sequence (ch : MySwapchain) (index : Nat) (w : World) :
    (PresentReady ch index → ∃ r, ch.copyImageData index w = Except.ok r) ∧
    ∀ r, ch.copyImageData index w = Except.ok r →
      ∃ t dsrc m cb recorded, ∃ fence n1 n2,
        ch.storeImage index ch.device ch.imgSize ch.render_queue w = Except.ok t ∧
        ch.display_src_images[index]? = some (some dsrc) ∧ dsrc.mapped = some m ∧
        r.1.display_commands[index]? = some (some cb) ∧
        (ch.display_commands[index]? = some none →
          ∃ dst, ch.display_images[index]? = some dst ∧
            cb = (CommandBuffer.new ch.display_device
              (t.2.emit (Event.memcpy m.data t.1.data (copyBytes ch.imgSize)))).1 ∧
            recorded = specHop3 cb.cmd dsrc.img dst ch.imgSize VK_IMAGE_LAYOUT_UNDEFINED) ∧
        (∀ cb0, ch.display_commands[index]? = some (some cb0) → cb = cb0 ∧ recorded = []) ∧
        1 ≤ n1 ∧ n1 ≤ 2 ∧ 1 ≤ n2 ∧ n2 ≤ 2 ∧
        steps r.2 = steps t.2 ++
          [Event.memcpy m.data t.1.data (copyBytes ch.imgSize)] ++ recorded ++
          List.replicate n1 (submitOf ch.display_queue cb.cmd fence) ++
          List.replicate n2 (Event.vkWaitForFences ch.display_device fence FENCE_TIMEOUT) :=
  ⟨fun hready => (copyImageData_returns ch index w hready).imp (fun _ hr => hr.1),
    fun r h => copyImageData_sequence ch index w r h⟩

/-- C19 at the first `copyImageData(1)` on a swapchain that was just created:
`display_commands[1]` is empty, so the hop-3 sequence is recorded, on the
staging source of slot 1 and the presentable image 1040. -/
theorem C19_hop3_command_sequence_witness :
    PresentReady (sampleSwapchain (sampleInfo 3 4 2 0)) 1 ∧
    (sampleSwapchain (sampleInfo 3 4 2 0)).display_commands[1]? = some none ∧
    (sampleSwapchain (sampleInfo 3 4 2 0)).display_images[1]? = some 1040 ∧
    ∃ r, (sampleSwapchain (sampleInfo 3 4 2 0)).copyImageData 1 laterWorld = Except.ok r ∧
      ∃ t dsrc m cb recorded, ∃ fence n1 n2,
        (sampleSwapchain (sampleInfo 3 4 2 0)).storeImage 1
          (sampleSwapchain (sampleInfo 3 4 2 0)).device
          (sampleSwapchain (sampleInfo 3 4 2 0)).imgSize
          (sampleSwapchain (sampleInfo 3 4 2 0)).render_queue laterWorld = Except.ok t ∧
        (sampleSwapchain (sampleInfo 3 4 2 0)).display_src_images[1]? = some (some dsrc) ∧
        dsrc.mapped = some m ∧
        r.1.display_commands[1]? = some (some cb) ∧
        ((sampleSwapchain (sampleInfo 3 4 2 0)).display_commands[1]? = some none →
          ∃ dst, (sampleSwapchain (sampleInfo 3 4 2 0)).display_images[1]? = some dst ∧
            cb = (CommandBuffer.new (sampleSwapchain (sampleInfo 3 4 2 0)).display_device
              (t.2.emit (Event.memcpy m.data t.1.data
                (copyBytes (sampleSwapchain (sampleInfo 3 4 2 0)).imgSize)))).1 ∧
            recorded = specHop3 cb.cmd dsrc.img dst (sampleSwapchain (sampleInfo 3 4 2 0)).imgSize
              VK_IMAGE_LAYOUT_UNDEFINED) ∧
        (∀ cb0, (sampleSwapchain (sampleInfo 3 4 2 0)).display_commands[1]? = some (some cb0) →
          cb = cb0 ∧ recorded = []) ∧
        1 ≤ n1 ∧ n1 ≤ 2 ∧ 1 ≤ n2 ∧ n2 ≤ 2 ∧
        steps r.2 = steps t.2 ++
          [Event.memcpy m.data t.1.data
            (copyBytes (sampleSwapchain (sampleInfo 3 4 2 0)).imgSize)] ++ recorded ++
          List.replicate n1
            (submitOf (sampleSwapchain (sampleInfo 3 4 2 0)).display_queue cb.cmd fence) ++
          List.replicate n2 (Event.vkWaitForFences
            (sampleSwapchain (sampleInfo 3 4 2 0)).display_device fence FENCE_TIMEOUT) := by
  have hC := C19_hop3_command_sequence (sampleSwapchain (sampleInfo 3 4 2 0)) 1 laterWorld
  obtain ⟨r, hr⟩ := hC.1 sampleSwapchain_ready
  exact ⟨sampleSwapchain_ready, by decide!, by decide!, r, hr, hC.2 r hr⟩


theorem copyImageData_slot (ch : MySwapchain) (i : Nat) (w : World)
    (r : MySwapchain × World) (h : ch.copyImageData i w = Except.ok r) :
    ch.display_commands[i]? = some none ∨ ∃ cb0, ch.display_commands[i]? = some (some cb0) := by
  obtain ⟨t, dsrc, m, hp, cb, fence, n1, n2, _, _, _, hhp, _⟩ := copyImageData_steps ch i w r h
  cases hc : ch.display_commands[i]? with
  | none =>
    unfold MySwapchain.hop3 at hhp
    simp only [hc] at hhp
    cases hhp
  | some o =>
    cases o with
    | none => exact Or.inl rfl
    | some cb0 => exact Or.inr ⟨cb0, rfl⟩

theorem copyImageData_mid (ch : MySwapchain) (i : Nat) (w : World)
    (r : MySwapchain × World) (h : ch.copyImageData i w = Except.ok r) :
    ∃ mid, steps r.2 = steps w ++ mid ∧ ∀ e ∈ mid, isPresent e = false := by
  obtain ⟨t, dsrc, m, cb, recorded, fence, n1, n2, ht, _, _, _, h5, h6, _, _, _, _, hs⟩ :=
    copyImageData_sequence ch i w r h
  obtain ⟨cpy, src, f1, k1, k2, _, _, _, _, _, _, _, hs1⟩ := storeImage_steps ch i _ _ _ w t ht
  have hrec : ∀ e ∈ recorded, isPresent e = false := by
    rcases copyImageData_slot ch i w r h with hc | ⟨cb0, hc⟩
    · obtain ⟨dst, _, _, e⟩ := h5 hc
      rw [e]
      intro x hx
      simp only [specHop3, specBarrier, specCopy, List.mem_cons, List.mem_singleton,
        List.not_mem_nil, or_false] at hx
      rcases hx with hx | hx | hx | hx | hx <;> rw [hx] <;> rfl
    · rw [(h6 cb0 hc).2]
      intro x hx
      cases hx
  refine ⟨specHop1 (CommandBuffer.new ch.device w).1.cmd cpy.img src.img ch.imgSize ++
      (List.replicate k1 (submitOf ch.render_queue (CommandBuffer.new ch.device w).1.cmd f1) ++
        (List.replicate k2 (Event.vkWaitForFences ch.device f1 FENCE_TIMEOUT) ++
          ([Event.memcpy m.data t.1.data (copyBytes ch.imgSize)] ++
            (recorded ++
              (List.replicate n1 (submitOf ch.display_queue cb.cmd fence) ++
                List.replicate n2
                  (Event.vkWaitForFences ch.display_device fence FENCE_TIMEOUT)))))),
    by rw [hs, hs1]; simp only [List.append_assoc], ?_⟩
  intro x hx
  simp only [List.mem_append, List.mem_replicate, List.mem_singleton] at hx
  rcases hx with hx | hx | hx | hx | hx | hx | hx
  · simp only [specHop1, specBarrier, specCopy, List.mem_cons, List.mem_singleton,
      List.not_mem_nil, or_false] at hx
    rcases hx with hx | hx | hx | hx | hx <;> rw [hx] <;> rfl
  · rw [hx.2]
    rfl
  · rw [hx.2]
    rfl
  · rw [hx]
    rfl
  · exact hrec x hx
  · rw [hx.2]
    rfl
  · rw [hx.2]
    rfl


theorem imageAt_ok (v : List Nat) (i d : Nat) (h : v[i]? = some d) :
    imageAt v i = Except.ok d := by
  simp [imageAt, h]

theorem present_returns (env : Env) (queue : Nat) (info : VkPresentInfoKHR) (g : Globals)
    (w : World) (h : PresentCallReady env info g) :
    ∃ r, PrimusVK_QueuePresentKHR env queue info g w = Except.ok r := by
  obtain ⟨sc, idx, ch, h1, h2, h3, hready, hq, hk⟩ := h
  obtain ⟨r, hr, _⟩ := copyImageData_returns ch idx
    (w.emit (Event.vkQueueSubmit queue
      { waitSemaphores := info.waitSemaphores
        waitDstStageMask := some VK_PIPELINE_STAGE_ALL_COMMANDS_BIT
        commandBuffers := []
        signalSemaphores := [] } VK_NULL_HANDLE)) hready
  obtain ⟨e, _⟩ := copyImageData_fields ch idx _ r hr
  unfold PrimusVK_QueuePresentKHR
  simp only [imageAt_ok _ _ _ h1, imageAt_ok _ _ _ h2, h3, hr, bind, Except.bind, e,
    getKey_ok env _ hq, viaDispatch, hk, if_true]
  exact ⟨_, rfl⟩

theorem present_spec (env : Env) (queue : Nat) (info : VkPresentInfoKHR) (g : Globals)
    (w : World) (res : VkResult) (g' : Globals) (w' : World)
    (h : PrimusVK_QueuePresentKHR env queue info g w = Except.ok (res, g', w')) :
    ∃ sc idx ch r mid,
      info.swapchains[0]? = some sc ∧ info.imageIndices[0]? = some idx ∧
      g.swapchain sc = Except.ok ch ∧
      ch.copyImageData idx (w.emit (Event.vkQueueSubmit queue
        { waitSemaphores := info.waitSemaphores
          waitDstStageMask := some VK_PIPELINE_STAGE_ALL_COMMANDS_BIT
          commandBuffers := []
          signalSemaphores := [] } VK_NULL_HANDLE)) = Except.ok r ∧
      steps r.2 = steps w ++
        [Event.vkQueueSubmit queue
          { waitSemaphores := info.waitSemaphores
            waitDstStageMask := some VK_PIPELINE_STAGE_ALL_COMMANDS_BIT
            commandBuffers := []
            signalSemaphores := [] } VK_NULL_HANDLE] ++ mid ∧
      (∀ e ∈ mid, isPresent e = false) ∧
      steps w' = steps r.2 ++
        [Event.QueuePresentKHR ch.display_queue
          { waitSemaphores := [], swapchains := [ch.backend],
            imageIndices := info.imageIndices } res] ∧
      g' = g.storeSwapchain sc r.1 := by
  unfold PrimusVK_QueuePresentKHR at h
  obtain ⟨sc, hsc, h⟩ := bind_ok_inv h
  obtain ⟨idx, hidx, h⟩ := bind_ok_inv h
  obtain ⟨ch, hch, h⟩ := bind_ok_inv h
  obtain ⟨r, hr, h⟩ := bind_ok_inv h
  obtain ⟨k, _, h⟩ := bind_ok_inv h
  obtain ⟨_, _, h⟩ := bind_ok_inv h
  cases h
  obtain ⟨hq, _, hb, _⟩ := copyImageData_fields ch idx _ r hr
  obtain ⟨mid, hmid, hno⟩ := copyImageData_mid ch idx _ r hr
  refine ⟨sc, idx, ch, r, mid, imageAt_inv _ _ _ hsc, imageAt_inv _ _ _ hidx, hch, hr, ?_, hno,
    ?_, rfl⟩
  · rw [hmid, steps_emit]
    simp [isStep]
  · rw [steps_emit, steps_answer, hq, hb]
    simp [isStep]


theorem sampleLive_presentReady : PresentCallReady queueEnv (samplePresent 1004 1) sampleLive.1 :=
  ⟨1004, 1, sampleSwapchain (sampleInfo 3 4 2 0), rfl, rfl, sampleLive_swapchain,
    sampleSwapchain_ready, by decide!, by decide!⟩

/-- C13: for a request that names a live shadow swapchain with a complete slot
for its first image index, `PrimusVK_QueuePresentKHR` returns.  And whenever it
returns, what it did, in order, is: one submission to the caller's queue that
waits on the caller's wait semaphores with the stage mask
`VK_PIPELINE_STAGE_ALL_COMMANDS_BIT`, carries no command buffer, signals
nothing and takes no fence; then `copyImageData` on the first image index of
the request, for the first swapchain of the request, whose steps `mid` contain
no present; and last one `QueuePresentKHR` of the display adapter on the
swapchain's display queue, whose present info names the one swapchain
`backend`, no wait semaphore, and the caller's image indices.  The value
returned is the result of that present call. -/
theorem C13_present_order (env : Env) (queue : Nat) (pPresentInfo : VkPresentInfoKHR)
    (g : Globals) (w : World) :
    (PresentCallReady env pPresentInfo g →
      ∃ r, PrimusVK_QueuePresentKHR env queue pPresentInfo g w = Except.ok r) ∧
    ∀ res g' w', PrimusVK_QueuePresentKHR env queue pPresentInfo g w = Except.ok (res, g', w') →
      ∃ sc idx ch r mid,
        pPresentInfo.swapchains[0]? = some sc ∧ pPresentInfo.imageIndices[0]? = some idx ∧
        g.swapchain sc = Except.ok ch ∧
        ch.copyImageData idx (w.emit (Event.vkQueueSubmit queue
          { waitSemaphores := pPresentInfo.waitSemaphores
            waitDstStageMask := some VK_PIPELINE_STAGE_ALL_COMMANDS_BIT
            commandBuffers := []
            signalSemaphores := [] } VK_NULL_HANDLE)) = Except.ok r ∧
        steps r.2 = steps w ++
          [Event.vkQueueSubmit queue
            { waitSemaphores := pPresentInfo.waitSemaphores
              waitDstStageMask := some VK_PIPELINE_STAGE_ALL_COMMANDS_BIT
              commandBuffers := []
              signalSemaphores := [] } VK_NULL_HANDLE] ++ mid ∧
        (∀ e ∈ mid, isPresent e = false) ∧
        steps w' = steps r.2 ++
          [Event.QueuePresentKHR ch.display_queue
            { waitSemaphores := [], swapchains := [ch.backend],
              imageIndices := pPresentInfo.imageIndices } res] ∧
        g' = g.storeSwapchain sc r.1 :=
  ⟨present_returns env queue pPresentInfo g w,
    fun res g' w' h => present_spec env queue pPresentInfo g w res g' w' h⟩

/-- C13 at a present of image 1 of the live swapchain 1004 that waits on the
semaphores 71 and 72. -/
theorem C13_present_order_witness :
    PresentCallReady queueEnv (samplePresent 1004 1) sampleLive.1 ∧
    ∃ res g' w', PrimusVK_QueuePresentKHR queueEnv 2001 (samplePresent 1004 1) sampleLive.1
        laterWorld = Except.ok (res, g', w') ∧
      ∃ sc idx ch r mid,
        (samplePresent 1004 1).swapchains[0]? = some sc ∧
        (samplePresent 1004 1).imageIndices[0]? = some idx ∧
        sampleLive.1.swapchain sc = Except.ok ch ∧
        ch.copyImageData idx (laterWorld.emit (Event.vkQueueSubmit 2001
          { waitSemaphores := (samplePresent 1004 1).waitSemaphores
            waitDstStageMask := some VK_PIPELINE_STAGE_ALL_COMMANDS_BIT
            commandBuffers := []
            signalSemaphores := [] } VK_NULL_HANDLE)) = Except.ok r ∧
        steps r.2 = steps laterWorld ++
          [Event.vkQueueSubmit 2001
            { waitSemaphores := (samplePresent 1004 1).waitSemaphores
              waitDstStageMask := some VK_PIPELINE_STAGE_ALL_COMMANDS_BIT
              commandBuffers := []
              signalSemaphores := [] } VK_NULL_HANDLE] ++ mid ∧
        (∀ e ∈ mid, isPresent e = false) ∧
        steps w' = steps r.2 ++
          [Event.QueuePresentKHR ch.display_queue
            { waitSemaphores := [], swapchains := [ch.backend],
              imageIndices := (samplePresent 1004 1).imageIndices } res] ∧
        g' = sampleLive.1.storeSwapchain sc r.1 := by
  have hC := C13_present_order queueEnv 2001 (samplePresent 1004 1) sampleLive.1 laterWorld
  obtain ⟨r, hr⟩ := hC.1 sampleLive_presentReady
  obtain ⟨res, g', w'⟩ := r
  exact ⟨sampleLive_presentReady, res, g', w', hr, hC.2 res g' w' hr⟩


/-! ## Slot-count invariant -/

theorem lookup_map_store (l : List (Nat × MySwapchain)) (sc h : Nat) (x : MySwapchain) :
    (l.map (fun e => if e.1 = sc then (sc, x) else e)).lookup h
      = (l.lookup h).map (fun v => if h = sc then x else v) := by
  have hf : (fun e : Nat × MySwapchain => if e.1 = sc then (sc, x) else e)
      = fun e => (e.1, if e.1 = sc then x else e.2) := by
    funext e
    by_cases he : e.1 = sc
    · rw [if_pos he, if_pos he, he]
    · rw [if_neg he, if_neg he]
  rw [hf]
  induction l with
  | nil => rfl
  | cons e rest ih =>
    obtain ⟨k, v⟩ := e
    cases hhk : (h == k) with
    | true =>
      have hk : h = k := by simpa using hhk
      subst hk
      simp [List.lookup]
    | false =>
      simp only [List.map_cons, List.lookup, hhk]
      exact ih


theorem lookup_of_swapchain (g : Globals) (hd : Nat) (ch : MySwapchain)
    (h : g.swapchain hd = Except.ok ch) : g.swapchains.lookup hd = some ch := by
  unfold Globals.swapchain at h
  split at h
  · rename_i x hx
    cases h
    exact hx
  · cases h

theorem copyImageData_counts (ch : MySwapchain) (i : Nat) (w : World)
    (r : MySwapchain × World) (h : ch.copyImageData i w = Except.ok r) :
    slotCounts r.1 = slotCounts ch := by
  obtain ⟨_, _, _, h1, h2, h3, _, _, h4⟩ := copyImageData_fields ch i w r h
  simp [slotCounts, h1, h2, h3, h4]

theorem storeSwapchain_counts (g : Globals) (sc hd : Nat) (x ch : MySwapchain)
    (hch : g.swapchain hd = Except.ok ch)
    (hx : ∀ ch0, g.swapchain sc = Except.ok ch0 → slotCounts x = slotCounts ch0) :
    ∃ ch', (g.storeSwapchain sc x).swapchain hd = Except.ok ch' ∧
      slotCounts ch' = slotCounts ch := by
  have hl := lookup_of_swapchain g hd ch hch
  have hl' : (g.storeSwapchain sc x).swapchains.lookup hd
      = some (if hd = sc then x else ch) := by
    show (g.swapchains.map _).lookup hd = _
    rw [lookup_map_store, hl]
    rfl
  refine ⟨_, swapchain_of_lookup _ _ _ hl', ?_⟩
  by_cases hs : hd = sc
  · rw [if_pos hs]
    subst hs
    exact hx ch hch
  · rw [if_neg hs]

theorem applyOp_counts (env : Env) (op : SwapchainOp) (s s' : Globals × World) (hd : Nat)
    (ch : MySwapchain) (hch : s.1.swapchain hd = Except.ok ch)
    (h : applyOp env op s = Except.ok s') :
    ∃ ch', s'.1.swapchain hd = Except.ok ch' ∧ slotCounts ch' = slotCounts ch := by
  cases op with
  | getImages sc b =>
    simp only [applyOp] at h
    obtain ⟨_, _, h⟩ := bind_ok_inv h
    cases h
    exact ⟨ch, hch, rfl⟩
  | acquire sc t sem idx =>
    simp only [applyOp] at h
    obtain ⟨_, _, h⟩ := bind_ok_inv h
    cases h
    exact ⟨ch, hch, rfl⟩
  | present q info =>
    simp only [applyOp] at h
    obtain ⟨r, hr, h⟩ := bind_ok_inv h
    cases h
    obtain ⟨res, g', w'⟩ := r
    obtain ⟨sc, idx, ch0, r0, mid, _, _, hch0, hr0, _, _, _, hg⟩ :=
      present_spec env q info s.1 s.2 res g' w' hr
    show ∃ ch', g'.swapchain hd = Except.ok ch' ∧ slotCounts ch' = slotCounts ch
    rw [hg]
    refine storeSwapchain_counts s.1 sc hd r0.1 ch hch (fun ch1 h1 => ?_)
    rw [hch0] at h1
    cases h1
    exact copyImageData_counts _ _ _ _ hr0
  | destroy sc =>
    simp only [applyOp] at h
    obtain ⟨g1, hg1, h⟩ := bind_ok_inv h
    cases h
    unfold PrimusVK_DestroySwapchainKHR at hg1
    split at hg1
    · cases hg1
      exact ⟨ch, hch, rfl⟩
    · obtain ⟨_, _, hg1⟩ := bind_ok_inv hg1
      cases hg1
      exact ⟨ch, hch, rfl⟩

theorem applyOps_counts (env : Env) (ops : List SwapchainOp) (s s' : Globals × World)
    (hd : Nat) (ch : MySwapchain) (hch : s.1.swapchain hd = Except.ok ch)
    (h : applyOps env ops s = Except.ok s') :
    ∃ ch', s'.1.swapchain hd = Except.ok ch' ∧ slotCounts ch' = slotCounts ch := by
  induction ops generalizing s ch with
  | nil =>
    cases h
    exact ⟨ch, hch, rfl⟩
  | cons op rest ih =>
    simp only [applyOps] at h
    obtain ⟨s1, hs1, h⟩ := bind_ok_inv h
    obtain ⟨ch1, hch1, e1⟩ := applyOp_counts env op s s1 hd ch hch hs1
    obtain ⟨ch', hch', e'⟩ := ih s1 ch1 hch1 h
    exact ⟨ch', hch', e'.trans e1⟩

theorem created_counts (env : Env) (device : Nat) (info : VkSwapchainCreateInfoKHR) (n : Nat)
    (g : Globals) (w : World) (rc : VkResult) (hd : Nat) (g' : Globals) (w' : World)
    (h : PrimusVK_CreateSwapchainKHR env device info n g w
      = Except.ok ((rc, some hd), g', w')) :
    ∃ ch, g'.swapchain hd = Except.ok ch ∧ slotCounts ch = (3, 3, 3, 3) := by
  obtain ⟨info2, ch, _, hs, _, _, _, _, hc, h1, h2, h3, _⟩ :=
    createSwapchain_core env device info n g w rc hd g' w' h
  refine ⟨ch, swapchain_head g' hd ch _ hs, ?_⟩
  simp [slotCounts, h1, h2, h3, hc]


theorem sampleLive_created (g1 : Globals) (w1 : World)
    (h : PrimusVK_CreateSwapchainKHR (sampleEnv sampleDevs) 1001 (sampleInfo 3 4 2 0) 3
      sampleDevice.1 sampleDevice.2 = Except.ok ((0, some 1004), g1, w1)) :
    sampleLive = (g1, w1) := by
  unfold sampleLive sampleCreated
  rw [h]

/-- C15: in a state that is ready for it, `PrimusVK_CreateSwapchainKHR` returns
and builds a shadow swapchain.  And whenever it builds one, the four per-slot
vectors `render_images`, `render_copy_images`, `display_src_images` and
`display_commands` all have length 3; `copyImageData` leaves the four lengths
of any swapchain as they are; and after any sequence of calls of
`PrimusVK_GetSwapchainImagesKHR`, `PrimusVK_AcquireNextImageKHR`,
`PrimusVK_QueuePresentKHR` and `PrimusVK_DestroySwapchainKHR` that return, on
this or on other swapchains, the handle still denotes a swapchain whose four
lengths are 3. -/
theorem C15_slot_counts_fixed (env : Env) (device : Nat) (info : VkSwapchainCreateInfoKHR)
    (n : Nat) (g : Globals) (w : World) :
    (CreateReady env device info g →
      ∃ rc hd g' w', PrimusVK_CreateSwapchainKHR env device info n g w
        = Except.ok ((rc, some hd), g', w')) ∧
    ∀ rc hd g' w', PrimusVK_CreateSwapchainKHR env device info n g w
        = Except.ok ((rc, some hd), g', w') →
      (∃ ch, g'.swapchain hd = Except.ok ch ∧ slotCounts ch = (3, 3, 3, 3)) ∧
      (∀ (ch : MySwapchain) (i : Nat) (w0 : World) (r : MySwapchain × World),
        ch.copyImageData i w0 = Except.ok r → slotCounts r.1 = slotCounts ch) ∧
      ∀ (env2 : Env) (ops : List SwapchainOp) (w0 : World) (s : Globals × World),
        applyOps env2 ops (g', w0) = Except.ok s →
        ∃ ch, s.1.swapchain hd = Except.ok ch ∧ slotCounts ch = (3, 3, 3, 3) := by
  refine ⟨ready_returns env device info n g w, fun rc hd g' w' h => ?_⟩
  obtain ⟨ch, hch, hc⟩ := created_counts env device info n g w rc hd g' w' h
  refine ⟨⟨ch, hch, hc⟩, fun ch0 i w0 r hr => copyImageData_counts ch0 i w0 r hr, ?_⟩
  intro env2 ops w0 s hs
  obtain ⟨ch', hch', e⟩ := applyOps_counts env2 ops (g', w0) s hd ch hch hs
  exact ⟨ch', hch', e.trans hc⟩

/-- C15 at the creation of the swapchain 1004 in the state `sampleDevice`,
followed by the calls of `sampleOps`, which return; and at a creation in the
ready state `sampleLive`. -/
theorem C15_slot_counts_fixed_witness :
    (∃ g1 w1,
      PrimusVK_CreateSwapchainKHR (sampleEnv sampleDevs) 1001 (sampleInfo 3 4 2 0) 3
        sampleDevice.1 sampleDevice.2 = Except.ok ((0, some 1004), g1, w1) ∧
      (∃ ch, g1.swapchain 1004 = Except.ok ch ∧ slotCounts ch = (3, 3, 3, 3)) ∧
      ∃ s, applyOps queueEnv sampleOps (g1, laterWorld) = Except.ok s ∧
        ∃ ch, s.1.swapchain 1004 = Except.ok ch ∧ slotCounts ch = (3, 3, 3, 3)) ∧
    CreateReady (sampleEnv sampleDevs) 1001 (sampleInfo 5 4 2 0) sampleLive.1 ∧
    ∃ rc hd g' w',
      PrimusVK_CreateSwapchainKHR (sampleEnv sampleDevs) 1001 (sampleInfo 5 4 2 0) 3
        sampleLive.1 sampleLive.2 = Except.ok ((rc, some hd), g', w') ∧
      ∃ ch, g'.swapchain hd = Except.ok ch ∧ slotCounts ch = (3, 3, 3, 3) := by
  obtain ⟨g1, w1, h1⟩ := built_inv (PrimusVK_CreateSwapchainKHR (sampleEnv sampleDevs) 1001
    (sampleInfo 3 4 2 0) 3 sampleDevice.1 sampleDevice.2) 0 1004 (by decide!)
  have hlive := sampleLive_created g1 w1 h1
  obtain ⟨s, hs⟩ := returned_inv (applyOps queueEnv sampleOps (sampleLive.1, laterWorld))
    (by decide!)
  rw [hlive] at hs
  have hC1 := (C15_slot_counts_fixed (sampleEnv sampleDevs) 1001 (sampleInfo 3 4 2 0) 3
    sampleDevice.1 sampleDevice.2).2 0 1004 g1 w1 h1
  have hready := sampleLive_ready (sampleInfo 5 4 2 0) (Or.inl rfl)
  have hC2 := C15_slot_counts_fixed (sampleEnv sampleDevs) 1001 (sampleInfo 5 4 2 0) 3
    sampleLive.1 sampleLive.2
  obtain ⟨rc, hd, g2, w2, h2⟩ := hC2.1 hready
  exact ⟨⟨g1, w1, h1, hC1.1, s, hs, hC1.2.2 queueEnv sampleOps laterWorld s hs⟩,
    hready, rc, hd, g2, w2, h2, (hC2.2 rc hd g2 w2 h2).1⟩


/-! ## Extent of the slot images -/

theorem images_emit (w : World) (e : Event) :
    imagesOf (w.emit e) = imagesOf w ++ (asImage e).toList := by
  cases h : asImage e <;> simp [imagesOf, World.emit, List.filterMap_append, h]

theorem images_answer (w : World) : imagesOf w.answer.2 = imagesOf w := by
  unfold World.answer
  split <;> rfl

theorem images_fresh (w : World) : imagesOf w.fresh.2 = imagesOf w := rfl

theorem images_check {α : Type} (x : World → (VkResult × α) × World)
    (hx : ∀ w : World, imagesOf (x w).2 = imagesOf w) (w : World) :
    imagesOf (VK_CHECK_RESULT x w).2 = imagesOf w := by
  unfold VK_CHECK_RESULT
  dsimp only
  split
  · rw [images_emit, hx, hx]
    simp [asImage]
  · exact hx w

theorem images_quiet (w : World) (e : Event) (he : asImage e = none) :
    imagesOf (w.emit e) = imagesOf w := by
  rw [images_emit, he]
  simp

theorem images_created (w : World) (e : Nat → Event) (he : ∀ n, asImage (e n) = none) :
    imagesOf (w.fresh.2.answer.2.emit (e w.fresh.1)) = imagesOf w := by
  rw [images_quiet _ _ (he _), images_answer, images_fresh]

theorem images_called (w : World) (e : Event) (he : asImage e = none) :
    imagesOf (w.answer.2.emit e) = imagesOf w := by
  rw [images_quiet _ _ he, images_answer]

theorem images_map (img : FramebufferImage) (w : World) :
    imagesOf (img.map w).2 = imagesOf w := by
  unfold FramebufferImage.map MappedMemory.new
  dsimp only
  rw [images_quiet _ (Event.vkMapMemory _ _ _) rfl, images_fresh]

theorem images_commandBuffer (device : Nat) (w : World) :
    imagesOf (CommandBuffer.new device w).2 = imagesOf w := by
  unfold CommandBuffer.new
  dsimp only
  rw [images_check _ (fun w0 => images_called w0 (Event.vkBeginCommandBuffer _) rfl),
    images_check _ (fun w0 => (images_quiet _ (Event.vkAllocateCommandBuffers _ _ _) rfl).trans
      ((images_answer _).trans (images_fresh w0))),
    images_check _ (fun w0 => (images_quiet _ (Event.vkCreateCommandPool _ _) rfl).trans
      ((images_answer _).trans (images_fresh w0)))]

theorem images_barrier (c : CommandBuffer) (image a1 a2 : Nat) (l1 l2 : VkImageLayout)
    (s1 s2 : Nat) (w : World) :
    imagesOf (c.insertImageMemoryBarrier image a1 a2 l1 l2 s1 s2 w) = imagesOf w :=
  images_quiet _ (Event.vkCmdPipelineBarrier _ _) rfl

theorem images_end (c : CommandBuffer) (w : World) : imagesOf (c.end_ w) = imagesOf w :=
  images_check _ (fun w0 => images_called w0 (Event.vkEndCommandBuffer _) rfl) w

theorem images_submit (c : CommandBuffer) (queue fence : Nat) (w : World) :
    imagesOf (c.submit queue fence w) = imagesOf w :=
  images_check _ (fun w0 => images_called w0 (Event.vkQueueSubmit _ _ _) rfl) w

theorem images_fence (dev : Nat) (w : World) : imagesOf (Fence.new dev w).2 = imagesOf w :=
  images_check _ (fun w0 => (images_quiet _ (Event.vkCreateFence _ _) rfl).trans
    ((images_answer _).trans (images_fresh w0))) w

theorem images_await (f : Fence) (w : World) : imagesOf (f.await w) = imagesOf w :=
  images_check _ (fun w0 => images_called w0 (Event.vkWaitForFences _ _ _) rfl) w

theorem images_fenceDrop (f : Fence) (w : World) : imagesOf (f.drop w) = imagesOf w :=
  images_quiet _ (Event.vkDestroyFence _ _) rfl

theorem images_commandDrop (c : CommandBuffer) (w : World) : imagesOf (c.drop w) = imagesOf w :=
  images_quiet _ (Event.vkFreeCommandBuffers _ _ _) rfl


theorem images_vkCreateImage (device : Nat) (ci : VkImageCreateInfo) (p : Nat) (w : World) :
    imagesOf (vkCreateImage device ci p w).2
      = imagesOf w ++ [((vkCreateImage device ci p w).1.2, ci)] := by
  unfold vkCreateImage
  dsimp only
  rw [images_emit, images_answer, images_fresh]
  rfl

theorem images_createImage (device : Nat) (ci : VkImageCreateInfo) (p : Nat) (w : World) :
    ∃ added, imagesOf (VK_CHECK_RESULT (vkCreateImage device ci p) w).2 = imagesOf w ++ added ∧
      (∀ x ∈ added, x.2 = ci) ∧
      ((VK_CHECK_RESULT (vkCreateImage device ci p) w).1, ci) ∈ added := by
  unfold VK_CHECK_RESULT
  dsimp only
  split
  · refine ⟨[((vkCreateImage device ci p w).1.2, ci),
      ((vkCreateImage device ci p (vkCreateImage device ci p w).2).1.2, ci)], ?_, ?_, ?_⟩
    · rw [images_quiet _ (Event.print _) rfl, images_vkCreateImage, images_vkCreateImage]
      simp
    · intro x hx
      simp only [List.mem_cons, List.mem_singleton, List.not_mem_nil, or_false] at hx
      rcases hx with hx | hx <;> rw [hx]
    · simp
  · refine ⟨[((vkCreateImage device ci p w).1.2, ci)], ?_, ?_, ?_⟩
    · rw [images_vkCreateImage]
    · intro x hx
      simp only [List.mem_singleton] at hx
      rw [hx]
    · simp

theorem images_new (device : Nat) (size : VkExtent2D) (tiling usage : Nat) (idx : Int)
    (w : World) :
    ∃ added,
      imagesOf (FramebufferImage.new device size tiling usage idx w).2 = imagesOf w ++ added ∧
      (∀ x ∈ added, hasExtent size x.2) ∧
      ∃ ci, ((FramebufferImage.new device size tiling usage idx w).1.img, ci) ∈ added := by
  obtain ⟨added, h1, h2, h3⟩ := images_createImage device
    { format := VK_FORMAT_B8G8R8A8_UNORM
      width := size.width
      height := size.height
      depth := 1
      arrayLayers := 1
      mipLevels := 1
      initialLayout := VK_IMAGE_LAYOUT_UNDEFINED
      samples := VK_SAMPLE_COUNT_1_BIT
      tiling := tiling
      usage := usage } VK_NULL_HANDLE w
  refine ⟨added, ?_, ?_, _, h3⟩
  · unfold FramebufferImage.new
    dsimp only
    rw [images_check _ (fun w0 => images_called w0 (Event.vkBindImageMemory _ _ _) rfl),
      images_check _ (fun w0 => (images_quiet _ (Event.vkAllocateMemory _ _ _) rfl).trans
        ((images_answer _).trans (images_fresh w0))),
      images_quiet _ (Event.vkGetImageMemoryRequirements _ _) rfl, h1]
  · intro x hx
    rw [h2 x hx]
    exact ⟨rfl, rfl, rfl⟩


theorem getElem?_set_inv {α : Type} (l : List α) (i j : Nat) (a b : α)
    (h : (l.set i a)[j]? = some b) : b = a ∨ l[j]? = some b := by
  rw [List.getElem?_set] at h
  split at h
  · split at h
    · cases h
      exact Or.inl rfl
    · cases h
  · exact Or.inr h

theorem createSlot_created (rg dg : Nat) (ext : VkExtent2D) (m1 m2 m3 : Int) (base : World)
    (s : MySwapchain × World) (i : Nat) (h : slotsCreated ext base s) :
    slotsCreated ext base (createSlot rg dg ext m1 m2 m3 s i) := by
  obtain ⟨added, h1, h2, h3⟩ := h
  obtain ⟨a, ha1, ha2, cia, ha3⟩ := images_new rg ext VK_IMAGE_TILING_OPTIMAL
    (VK_IMAGE_USAGE_COLOR_ATTACHMENT_BIT ||| VK_IMAGE_USAGE_TRANSFER_SRC_BIT) m1 s.2
  obtain ⟨b, hb1, hb2, cib, hb3⟩ := images_new rg ext VK_IMAGE_TILING_LINEAR
    VK_IMAGE_USAGE_TRANSFER_DST_BIT m2
    (FramebufferImage.new rg ext VK_IMAGE_TILING_OPTIMAL
      (VK_IMAGE_USAGE_COLOR_ATTACHMENT_BIT ||| VK_IMAGE_USAGE_TRANSFER_SRC_BIT) m1 s.2).2
  obtain ⟨c, hc1, hc2, cic, hc3⟩ := images_new dg ext VK_IMAGE_TILING_LINEAR
    (VK_IMAGE_USAGE_COLOR_ATTACHMENT_BIT ||| VK_IMAGE_USAGE_TRANSFER_SRC_BIT) m3
    (FramebufferImage.new rg ext VK_IMAGE_TILING_LINEAR VK_IMAGE_USAGE_TRANSFER_DST_BIT m2
      (FramebufferImage.new rg ext VK_IMAGE_TILING_OPTIMAL
        (VK_IMAGE_USAGE_COLOR_ATTACHMENT_BIT ||| VK_IMAGE_USAGE_TRANSFER_SRC_BIT) m1 s.2).2).2
  refine ⟨added ++ a ++ b ++ c, ?_, ?_, ?_⟩
  · unfold createSlot
    dsimp only
    rw [images_commandDrop, images_fenceDrop, images_await, images_submit, images_fence,
      images_end, images_barrier, images_commandBuffer, images_map, images_map, hc1, hb1, ha1,
      h1]
    simp only [List.append_assoc]
  · intro x hx
    simp only [List.mem_append] at hx
    rcases hx with ((hx | hx) | hx) | hx
    · exact h2 x hx
    · exact ha2 x hx
    · exact hb2 x hx
    · exact hc2 x hx
  · intro j img hj
    unfold createSlot at hj
    dsimp only at hj
    rcases hj with hj | hj | hj
    · rcases getElem?_set_inv _ _ _ _ _ hj with e | e
      · cases e
        exact ⟨cia, by simp only [List.mem_append]; exact Or.inl (Or.inl (Or.inr ha3))⟩
      · obtain ⟨ci, hci⟩ := h3 j img (Or.inl e)
        exact ⟨ci, by simp only [List.mem_append]; exact Or.inl (Or.inl (Or.inl hci))⟩
    · rcases getElem?_set_inv _ _ _ _ _ hj with e | e
      · cases e
        exact ⟨cib, by simp only [List.mem_append]; exact Or.inl (Or.inr hb3)⟩
      · obtain ⟨ci, hci⟩ := h3 j img (Or.inr (Or.inl e))
        exact ⟨ci, by simp only [List.mem_append]; exact Or.inl (Or.inl (Or.inl hci))⟩
    · rcases getElem?_set_inv _ _ _ _ _ hj with e | e
      · cases e
        exact ⟨cic, by simp only [List.mem_append]; exact Or.inr hc3⟩
      · obtain ⟨ci, hci⟩ := h3 j img (Or.inr (Or.inr e))
        exact ⟨ci, by simp only [List.mem_append]; exact Or.inl (Or.inl (Or.inl hci))⟩


theorem fold_created (rg dg : Nat) (ext : VkExtent2D) (m1 m2 m3 : Int) (base : World)
    (l : List Nat) (s : MySwapchain × World) (h : slotsCreated ext base s) :
    slotsCreated ext base (l.foldl (createSlot rg dg ext m1 m2 m3) s) := by
  induction l generalizing s with
  | nil => exact h
  | cons i rest ih =>
    rw [List.foldl_cons]
    exact ih _ (createSlot_created rg dg ext m1 m2 m3 base s i h)

theorem set_filled {α : Type} (l : List (Option α)) (i j : Nat) (a : α)
    (h : ∃ x, l[j]? = some (some x)) : ∃ x, (l.set i (some a))[j]? = some (some x) := by
  obtain ⟨x, hx⟩ := h
  have hj : j < l.length := by
    by_contra hc
    rw [List.getElem?_eq_none (Nat.le_of_not_lt hc)] at hx
    cases hx
  rw [List.getElem?_set]
  by_cases hij : i = j
  · subst hij
    exact ⟨a, by simp [hj]⟩
  · exact ⟨x, by simp [hij, hx]⟩

theorem set_fills {α : Type} (l : List (Option α)) (i : Nat) (a : α) (hi : i < l.length) :
    ∃ x, (l.set i (some a))[i]? = some (some x) :=
  ⟨a, by simp [hi]⟩

theorem createSlot_keeps (rg dg : Nat) (ext : VkExtent2D) (m1 m2 m3 : Int)
    (s : MySwapchain × World) (i j : Nat) (h : slotFilled s.1 j) :
    slotFilled (createSlot rg dg ext m1 m2 m3 s i).1 j := by
  obtain ⟨h1, h2, h3⟩ := h
  unfold createSlot
  dsimp only
  exact ⟨set_filled _ _ _ _ h1, set_filled _ _ _ _ h2, set_filled _ _ _ _ h3⟩

theorem createSlot_fills (rg dg : Nat) (ext : VkExtent2D) (m1 m2 m3 : Int)
    (s : MySwapchain × World) (i : Nat) (h1 : i < s.1.render_images.length)
    (h2 : i < s.1.render_copy_images.length) (h3 : i < s.1.display_src_images.length) :
    slotFilled (createSlot rg dg ext m1 m2 m3 s i).1 i := by
  unfold createSlot
  dsimp only
  exact ⟨set_fills _ _ _ h1, set_fills _ _ _ h2, set_fills _ _ _ h3⟩

theorem fold_filled (rg dg : Nat) (ext : VkExtent2D) (m1 m2 m3 : Int) (n : Nat)
    (l : List Nat) (s : MySwapchain × World)
    (h1 : s.1.render_images.length = n) (h2 : s.1.render_copy_images.length = n)
    (h3 : s.1.display_src_images.length = n) (j : Nat)
    (h : slotFilled s.1 j ∨ (j ∈ l ∧ j < n)) :
    slotFilled (l.foldl (createSlot rg dg ext m1 m2 m3) s).1 j := by
  induction l generalizing s with
  | nil =>
    rcases h with h | ⟨h, _⟩
    · exact h
    · cases h
  | cons i rest ih =>
    rw [List.foldl_cons]
    obtain ⟨_, _, _, _, _, _, _, _, e1, e2, e3⟩ := createSlot_sameFrame rg dg ext m1 m2 m3 s i
    refine ih _ (e1.trans h1) (e2.trans h2) (e3.trans h3) ?_
    rcases h with h | ⟨h, hn⟩
    · exact Or.inl (createSlot_keeps rg dg ext m1 m2 m3 s i j h)
    · rcases List.mem_cons.mp h with e | e
      · subst e
        exact Or.inl (createSlot_fills rg dg ext m1 m2 m3 s j (by omega) (by omega) (by omega))
      · exact Or.inr ⟨e, hn⟩

theorem createSlots_created (rg dg : Nat) (ext : VkExtent2D) (m1 m2 m3 : Int) (n : Nat)
    (ch : MySwapchain) (w : World)
    (hnone : ∀ (i : Nat) (img : FramebufferImage),
      ¬(ch.render_images[i]? = some (some img) ∨ ch.render_copy_images[i]? = some (some img) ∨
        ch.display_src_images[i]? = some (some img)))
    (h1 : ch.render_images.length = n) (h2 : ch.render_copy_images.length = n)
    (h3 : ch.display_src_images.length = n) :
    slotsCreated ext w (createSlots rg dg ext m1 m2 m3 ch w) ∧
      ∀ j, j < n → slotFilled (createSlots rg dg ext m1 m2 m3 ch w).1 j := by
  unfold createSlots
  refine ⟨fold_created rg dg ext m1 m2 m3 w _ (ch, w) ⟨[], by simp, ?_, ?_⟩, ?_⟩
  · intro x hx
    cases hx
  · intro i img hi
    exact absurd hi (hnone i img)
  · intro j hj
    refine fold_filled rg dg ext m1 m2 m3 n _ (ch, w) h1 h2 h3 j (Or.inr ⟨?_, hj⟩)
    rw [h1]
    exact List.mem_range.mpr hj


theorem enumerate_images (env : Env) (g : Globals) (inst : Nat) (buf : Option (List Nat))
    (w : World) (r : VkResult × Nat × Option (List Nat)) (w1 : World)
    (h : PrimusVK_EnumeratePhysicalDevices env g inst buf w = Except.ok (r, w1)) :
    imagesOf w1 = imagesOf w := by
  unfold PrimusVK_EnumeratePhysicalDevices at h
  cases buf with
  | none =>
    simp only at h
    cases h
    rfl
  | some b =>
    simp only at h
    obtain ⟨k, _, h⟩ := bind_ok_inv h
    obtain ⟨_, _, h⟩ := bind_ok_inv h
    repeat' split at h
    all_goals
      cases h <;> first
        | exact images_answer _
        | exact (images_answer _).trans (images_answer _)

theorem start_images (c : CreateOtherDevice) (w : World) :
    imagesOf (c.start w).2 = imagesOf w := by
  unfold CreateOtherDevice.start
  dsimp only
  split
  · exact (images_quiet _ (Event.print _) rfl).trans
      (images_created w (fun h => Event.pthread_create h) (fun _ => rfl))
  · exact images_created w (fun h => Event.pthread_create h) (fun _ => rfl)

theorem createDevice_images (env : Env) (pd : Nat) (chain : List LayerCreateInfo) (p : Nat)
    (g : Globals) (w : World) (r : VkResult × Nat) (g1 : Globals) (w1 : World)
    (h : PrimusVK_CreateDevice env pd chain p g w = Except.ok (r, g1, w1)) :
    imagesOf w1 = imagesOf w := by
  unfold PrimusVK_CreateDevice at h
  cases hl : findLinkInfo VkStructureType.VK_STRUCTURE_TYPE_LOADER_DEVICE_CREATE_INFO chain with
  | none =>
    simp only [hl] at h
    cases h
    rfl
  | some x =>
    simp only [hl] at h
    have hcreated : imagesOf (w.fresh.2.answer.2.emit (Event.vkCreateDevice pd
        (if w.fresh.2.answer.1 = VK_SUCCESS then w.fresh.1 else p))) = imagesOf w :=
      (images_quiet _ (Event.vkCreateDevice _ _) rfl).trans
        ((images_answer _).trans (images_fresh w))
    split at h
    · obtain ⟨k, _, h⟩ := bind_ok_inv h
      obtain ⟨y, hy, h⟩ := bind_ok_inv h
      obtain ⟨kd, _, h⟩ := bind_ok_inv h
      cases hy
      cases h
      exact (start_images _ _).trans hcreated
    · obtain ⟨y, hy, h⟩ := bind_ok_inv h
      obtain ⟨kd, _, h⟩ := bind_ok_inv h
      cases hy
      cases h
      exact hcreated

theorem run_images (env : Env) (c c1 : CreateOtherDevice) (g g1 : Globals) (w w1 : World)
    (h : c.run env g w = Except.ok (c1, g1, w1)) : imagesOf w1 = imagesOf w := by
  unfold CreateOtherDevice.run at h
  obtain ⟨_, _, h⟩ := bind_ok_inv h
  obtain ⟨e1, he1, h⟩ := bind_ok_inv h
  obtain ⟨e2, he2, h⟩ := bind_ok_inv h
  have g1w := enumerate_images _ _ _ _ _ _ _ he1
  have g2w := enumerate_images _ _ _ _ _ _ _ he2
  dsimp only at h
  split at h
  · split at h
    · cases h
    · obtain ⟨r, hr, h⟩ := bind_ok_inv h
      obtain ⟨_, _, h⟩ := bind_ok_inv h
      obtain ⟨_, _, h⟩ := bind_ok_inv h
      cases h
      exact (createDevice_images _ _ _ _ _ _ _ _ _ hr).trans (g2w.trans g1w)
  · cases h

theorem join_images (env : Env) (c c1 : CreateOtherDevice) (g g1 : Globals) (w w1 : World)
    (h : c.join env g w = Except.ok (c1, g1, w1)) : imagesOf w1 = imagesOf w := by
  unfold CreateOtherDevice.join at h
  split at h
  · cases h
    exact images_quiet _ (Event.print Message.refusingSecondJoin) rfl
  · dsimp only at h
    split at h
    · cases h
      exact (images_quiet _ (Event.print _) rfl).trans
        ((images_quiet _ (Event.pthread_join _) rfl).trans (images_answer w))
    · obtain ⟨t, ht, h⟩ := bind_ok_inv h
      cases h
      exact (images_quiet _ (Event.pthread_join _) rfl).trans
        ((run_images env c t.1 g t.2.1 _ t.2.2 ht).trans (images_answer w))

theorem images_freshN (n : Nat) (w : World) : imagesOf (World.freshN n w).2 = imagesOf w := by
  induction n generalizing w with
  | zero => rfl
  | succ n ih => exact (ih w.fresh.2).trans (images_fresh w)

theorem alloc_images (env : Env) (rg dg : Nat) (info : VkSwapchainCreateInfoKHR) (w : World) :
    imagesOf (allocSwapchain env rg dg info w).2 = imagesOf w ∧
    ∀ (i : Nat) (img : FramebufferImage),
      ¬((allocSwapchain env rg dg info w).1.2.render_images[i]? = some (some img) ∨
        (allocSwapchain env rg dg info w).1.2.render_copy_images[i]? = some (some img) ∨
        (allocSwapchain env rg dg info w).1.2.display_src_images[i]? = some (some img)) := by
  unfold allocSwapchain vkGetDeviceQueue
  dsimp only
  refine ⟨?_, ?_⟩
  · rw [images_quiet _ (Event.vkGetDeviceQueue _ _ _ _) rfl,
      images_quiet _ (Event.vkGetDeviceQueue _ _ _ _) rfl, images_fresh]
  · intro i img h
    simp only [resize_nil, MySwapchain.new, List.getElem?_replicate] at h
    rcases h with h | h | h <;> split at h <;> cases h

theorem createBackend_images (env : Env) (g : Globals) (dg : Nat)
    (info : VkSwapchainCreateInfoKHR) (n : Nat) (ch : MySwapchain) (w : World)
    (b : (VkResult × MySwapchain) × World)
    (h : createBackend env g dg info n ch w = Except.ok b) :
    imagesOf b.2 = imagesOf w := by
  unfold createBackend at h
  obtain ⟨kd, _, h⟩ := bind_ok_inv h
  obtain ⟨_, _, h⟩ := bind_ok_inv h
  obtain ⟨kd2, _, h⟩ := bind_ok_inv h
  obtain ⟨_, _, h⟩ := bind_ok_inv h
  cases h
  dsimp only
  rw [images_quiet _ (Event.GetSwapchainImagesKHR _ _) rfl, images_freshN,
    images_quiet _ (Event.GetSwapchainImagesKHR _ _) rfl,
    images_quiet _ (Event.CreateSwapchainKHR _ _ _) rfl, images_fresh, images_answer]


theorem created_extent (env : Env) (device : Nat) (info : VkSwapchainCreateInfoKHR) (n : Nat)
    (g : Globals) (w : World) (rc : VkResult) (hd : Nat) (g' : Globals) (w' : World)
    (h : PrimusVK_CreateSwapchainKHR env device info n g w
      = Except.ok ((rc, some hd), g', w')) :
    ∃ ch added, g'.swapchain hd = Except.ok ch ∧
      ch.imgSize = info.imageExtent ∧
      imagesOf w' = imagesOf w ++ added ∧
      (∀ x ∈ added, hasExtent info.imageExtent x.2) ∧
      (∀ i, i < 3 → slotFilled ch i) ∧
      ∀ (i : Nat) (img : FramebufferImage),
        (ch.render_images[i]? = some (some img) ∨
          ch.render_copy_images[i]? = some (some img) ∨
          ch.display_src_images[i]? = some (some img)) →
        ∃ ci, (img.img, ci) ∈ added := by
  obtain ⟨_, ch0, _, hs0, _, _, _, hsz, _⟩ :=
    createSwapchain_core env device info n g w rc hd g' w' h
  unfold PrimusVK_CreateSwapchainKHR at h
  cases hc : g.cod with
  | none =>
    simp only [hc] at h
    cases h
  | some c =>
    simp only [hc] at h
    obtain ⟨j, hj, h⟩ := bind_ok_inv h
    obtain ⟨info2, hinfo, h⟩ := bind_ok_inv h
    obtain ⟨_, _, h⟩ := bind_ok_inv h
    obtain ⟨cod1, hcod1, h⟩ := bind_ok_inv h
    obtain ⟨_, _, h⟩ := bind_ok_inv h
    obtain ⟨rs, _, h⟩ := bind_ok_inv h
    obtain ⟨ds, _, h⟩ := bind_ok_inv h
    obtain ⟨b, hb, h⟩ := bind_ok_inv h
    cases h
    obtain ⟨j1, j2, j3⟩ := j
    have hjw := join_images env c j1 g j2 w j3 hj
    obtain ⟨f1, f2, _⟩ := chainOld_fields _ _ _ hinfo
    have f1' : info2.minImageCount = 3 := f1
    have f2' : info2.imageExtent = info.imageExtent := f2
    obtain ⟨_, _, _, _, a5, a6, a7, _, _⟩ :=
      allocSwapchain_spec env device cod1.display_gpu info2 j3
    obtain ⟨ha, hnone⟩ := alloc_images env device cod1.display_gpu info2 j3
    obtain ⟨⟨added, c1, c2, c3⟩, hfill⟩ :=
      createSlots_created device cod1.display_gpu info2.imageExtent rs.2 rs.1 ds 3
        (allocSwapchain env device cod1.display_gpu info2 j3).1.2
        (allocSwapchain env device cod1.display_gpu info2 j3).2 hnone
        (a5.trans f1') (a6.trans f1') (a7.trans f1')
    obtain ⟨_, b1, b2, b3, _⟩ := createBackend_spec _ _ _ _ _ _ _ _ hb
    have hbi := createBackend_images _ _ _ _ _ _ _ _ hb
    have hch : ch0 = b.1.2 := (Prod.mk.inj (List.cons_eq_cons.mp hs0).1).2.symm
    subst hch
    refine ⟨b.1.2, added, swapchain_head _ _ _ _ rfl, hsz, ?_, ?_, ?_, ?_⟩
    · show imagesOf b.2 = _
      rw [hbi, c1, ha, hjw]
    · intro x hx
      rw [← f2']
      exact c2 x hx
    · intro i hi
      obtain ⟨p1, p2, p3⟩ := hfill i hi
      exact ⟨by rw [b1]; exact p1, by rw [b2]; exact p2, by rw [b3]; exact p3⟩
    · intro i img hi
      rw [b1, b2, b3] at hi
      exact c3 i img hi


/-- C16: in a state that is ready for it, `PrimusVK_CreateSwapchainKHR` returns
and builds a shadow swapchain.  And whenever it builds one, for whatever extent
the request carries: `imgSize` is that extent; every image that the call
created (`added`, the calls of `vkCreateImage` it made) has the width and the
height of that extent and depth 1; each of the three slots holds its three
images; and every image that a slot holds, render target, render-side staging
copy or display-side staging source, is one of the images that the call
created, so it has that width, that height and depth 1. -/
theorem C16_extent_matches_request (env : Env) (device : Nat)
    (info : VkSwapchainCreateInfoKHR) (n : Nat) (g : Globals) (w : World) :
    (CreateReady env device info g →
      ∃ rc hd g' w', PrimusVK_CreateSwapchainKHR env device info n g w
        = Except.ok ((rc, some hd), g', w')) ∧
    ∀ rc hd g' w', PrimusVK_CreateSwapchainKHR env device info n g w
        = Except.ok ((rc, some hd), g', w') →
      ∃ ch added, g'.swapchain hd = Except.ok ch ∧
        ch.imgSize = info.imageExtent ∧
        imagesOf w' = imagesOf w ++ added ∧
        (∀ x ∈ added, hasExtent info.imageExtent x.2) ∧
        (∀ i, i < 3 → slotFilled ch i) ∧
        ∀ (i : Nat) (img : FramebufferImage),
          (ch.render_images[i]? = some (some img) ∨
            ch.render_copy_images[i]? = some (some img) ∨
            ch.display_src_images[i]? = some (some img)) →
          ∃ ci, (img.img, ci) ∈ added ∧ hasExtent info.imageExtent ci := by
  refine ⟨ready_returns env device info n g w, fun rc hd g' w' h => ?_⟩
  obtain ⟨ch, added, h1, h2, h3, h4, h5, h6⟩ :=
    created_extent env device info n g w rc hd g' w' h
  refine ⟨ch, added, h1, h2, h3, h4, h5, fun i img hi => ?_⟩
  obtain ⟨ci, hci⟩ := h6 i img hi
  exact ⟨ci, hci, h4 _ hci⟩

/-- C16 at a request for the extent 1920 by 1080, made first in the state
`sampleDevice` and then in the ready state `sampleLive`. -/
theorem C16_extent_matches_request_witness :
    (∃ g1 w1,
      PrimusVK_CreateSwapchainKHR (sampleEnv sampleDevs) 1001 (sampleInfo 3 1920 1080 0) 3
        sampleDevice.1 sampleDevice.2 = Except.ok ((0, some 1004), g1, w1) ∧
      ∃ ch added, g1.swapchain 1004 = Except.ok ch ∧
        ch.imgSize = ⟨1920, 1080⟩ ∧
        imagesOf w1 = imagesOf sampleDevice.2 ++ added ∧
        (∀ x ∈ added, hasExtent ⟨1920, 1080⟩ x.2) ∧
        (∀ i, i < 3 → slotFilled ch i) ∧
        ∀ (i : Nat) (img : FramebufferImage),
          (ch.render_images[i]? = some (some img) ∨
            ch.render_copy_images[i]? = some (some img) ∨
            ch.display_src_images[i]? = some (some img)) →
          ∃ ci, (img.img, ci) ∈ added ∧ hasExtent ⟨1920, 1080⟩ ci) ∧
    CreateReady (sampleEnv sampleDevs) 1001 (sampleInfo 3 1920 1080 0) sampleLive.1 ∧
    ∃ rc hd g' w',
      PrimusVK_CreateSwapchainKHR (sampleEnv sampleDevs) 1001 (sampleInfo 3 1920 1080 0) 3
        sampleLive.1 sampleLive.2 = Except.ok ((rc, some hd), g', w') ∧
      ∃ ch, g'.swapchain hd = Except.ok ch ∧ ch.imgSize = ⟨1920, 1080⟩ := by
  obtain ⟨g1, w1, h1⟩ := built_inv (PrimusVK_CreateSwapchainKHR (sampleEnv sampleDevs) 1001
    (sampleInfo 3 1920 1080 0) 3 sampleDevice.1 sampleDevice.2) 0 1004 (by decide!)
  have hC1 := (C16_extent_matches_request (sampleEnv sampleDevs) 1001
    (sampleInfo 3 1920 1080 0) 3 sampleDevice.1 sampleDevice.2).2 0 1004 g1 w1 h1
  have hready := sampleLive_ready (sampleInfo 3 1920 1080 0) (Or.inl rfl)
  have hC2 := C16_extent_matches_request (sampleEnv sampleDevs) 1001
    (sampleInfo 3 1920 1080 0) 3 sampleLive.1 sampleLive.2
  obtain ⟨rc, hd, g2, w2, h2⟩ := hC2.1 hready
  obtain ⟨ch2, _, e1, e2, _⟩ := hC2.2 rc hd g2 w2 h2
  exact ⟨⟨g1, w1, h1, hC1⟩, hready, rc, hd, g2, w2, h2, ch2, e1, e2⟩


/-! ## Slot lookups of present -/

theorem storeImage_out_of_range (ch : MySwapchain) (i device : Nat) (sz : VkExtent2D)
    (queue : Nat) (w : World) (h : ch.render_copy_images.length ≤ i) :
    ch.storeImage i device sz queue w = Except.error Fault.outOfRange := by
  unfold MySwapchain.storeImage
  simp [slot, List.getElem?_eq_none h, bind, Except.bind]

theorem copyImageData_out_of_range (ch : MySwapchain) (i : Nat) (w : World)
    (h : ch.render_copy_images.length ≤ i) :
    ch.copyImageData i w = Except.error Fault.outOfRange := by
  unfold MySwapchain.copyImageData
  simp [storeImage_out_of_range ch i _ _ _ w h, bind, Except.bind]

theorem created_lookups (env : Env) (device : Nat) (info : VkSwapchainCreateInfoKHR) (n : Nat)
    (g : Globals) (w : World) (rc : VkResult) (hd : Nat) (g' : Globals) (w' : World)
    (h : PrimusVK_CreateSwapchainKHR env device info n g w
      = Except.ok ((rc, some hd), g', w')) :
    ∃ ch, g'.swapchain hd = Except.ok ch ∧ ch.display_images.length = n ∧
      slotCounts ch = (3, 3, 3, 3) ∧
      ∀ (i : Nat) (w0 : World), 3 ≤ i →
        ch.copyImageData i w0 = Except.error Fault.outOfRange := by
  obtain ⟨info2, ch, _, hs, _, _, _, _, hc, h1, h2, h3, h4, _⟩ :=
    createSwapchain_core env device info n g w rc hd g' w' h
  refine ⟨ch, swapchain_head g' hd ch _ hs, h4, by simp [slotCounts, h1, h2, h3, hc], ?_⟩
  intro i w0 hi
  exact copyImageData_out_of_range ch i w0 (by omega)

/-- C21, the code at a display adapter whose swapchain reports four images for
a request with `minImageCount` 3: the shadow swapchain is built with four
entries in `display_images` and three in each per-slot vector, an acquire
for which the display adapter hands out image index 3 returns `VK_SUCCESS`,
and `storeImage` and `copyImageData` for index 3, also when reached through
`PrimusVK_QueuePresentKHR`, index `render_copy_images` out of range.
In general, whatever number `n` of images the display adapter reports, the
swapchain that `PrimusVK_CreateSwapchainKHR` builds has `n` presentable images
and three slots, and `copyImageData` is out of range for every index from 3
on. -/
theorem C21_slot_lookup_out_of_range :
    sampleFourSwapchain.display_images.length = 4 ∧
    slotCounts sampleFourSwapchain = (3, 3, 3, 3) ∧
    sampleFour.1.swapchains.lookup 1004 = some sampleFourSwapchain ∧
    outcome (PrimusVK_AcquireNextImageKHR queueEnv 1004 55 33 3 sampleFour.1 laterWorld)
      (fun r => r.1.1) (fun r => r.2) = some (VK_SUCCESS, []) ∧
    faultOf (sampleFourSwapchain.storeImage 3 1001 ⟨4, 2⟩ 2001 laterWorld)
      = some Fault.outOfRange ∧
    faultOf (sampleFourSwapchain.copyImageData 3 laterWorld) = some Fault.outOfRange ∧
    faultOf (PrimusVK_QueuePresentKHR queueEnv 2001 (samplePresent 1004 3) sampleFour.1
      laterWorld) = some Fault.outOfRange ∧
    ∀ (env : Env) (device : Nat) (info : VkSwapchainCreateInfoKHR) (n : Nat) (g : Globals)
      (w : World) (rc : VkResult) (hd : Nat) (g' : Globals) (w' : World),
      PrimusVK_CreateSwapchainKHR env device info n g w = Except.ok ((rc, some hd), g', w') →
      ∃ ch, g'.swapchain hd = Except.ok ch ∧ ch.display_images.length = n ∧
        slotCounts ch = (3, 3, 3, 3) ∧
        ∀ (i : Nat) (w0 : World), 3 ≤ i →
          ch.copyImageData i w0 = Except.error Fault.outOfRange :=
  ⟨by decide!, by decide!, by decide!, by decide!, by decide!, by decide!, by decide!,
    fun env device info n g w rc hd g' w' h =>
      created_lookups env device info n g w rc hd g' w' h⟩

end PrimusVK
